import Mathlib

/-!
# Edge-case and error-policy layer of `scipy/special/boost_special_functions.h`

Shallow embedding of the wrapper functions (`*_wrap`) that sit between SciPy
and the Boost.Math routines.  The numerical routines themselves are external:
they are a parameter (`Backend`) whose every call either returns a value or
throws one of the C++ exception classes the wrappers catch.  The error sink
(`sf_error`) and the backend invocations are made explicit: every wrapper
returns its value together with the list of reports it made and the list of
backend calls it performed.
-/

namespace BoostSpecial

/-! ## Floating-point values -/

/-- Value of the template parameter `Real` (`float` or `double`): a NaN with
its sign bit, a signed infinity, or a finite value in sign-magnitude form,
`fin neg m e` standing for `(-1)^neg * m / 2^e`.  Every finite binary
floating-point number has this form; the two zeros are `fin false 0 e` and
`fin true 0 e`.  Precision and exponent range are not bounded. -/
inductive FP where
  | nan (sign : Bool)
  | inf (neg : Bool)
  | fin (neg : Bool) (m : ℕ) (e : ℕ)
  deriving DecidableEq

namespace FP

/-- The macro `NAN`. -/
def NAN : FP := nan false

/-- The macro `INFINITY`. -/
def INFINITY : FP := inf false

/-- The literal `0` (also `0.0`). -/
def zero : FP := fin false 0 0

/-- The literal `1` (also `1.0`). -/
def one : FP := fin false 1 0

/-- The literal `2`. -/
def two : FP := fin false 2 0

/-- Conversion of an integer literal to `Real`. -/
def ofInt (z : ℤ) : FP := fin (decide (z < 0)) z.natAbs 0

/-- Unary minus (flips the sign bit). -/
def neg : FP → FP
  | nan s => nan (!s)
  | inf n => inf (!n)
  | fin n m e => fin (!n) m e

/-- Signed numerator of a finite value (`0` for the others, never used there). -/
def num : FP → ℤ
  | fin n m _ => if n then -(m : ℤ) else (m : ℤ)
  | _ => 0

/-- Binary exponent of the denominator of a finite value. -/
def exp : FP → ℕ
  | fin _ _ e => e
  | _ => 0

/-- Function `std::isnan`. -/
def isnan : FP → Bool
  | nan _ => true
  | _ => false

/-- Function `std::isinf`. -/
def isinf : FP → Bool
  | inf _ => true
  | _ => false

/-- Function `std::isfinite`. -/
def isfinite : FP → Bool
  | fin _ _ _ => true
  | _ => false

/-- Function `std::signbit`. -/
def signbit : FP → Bool
  | nan s => s
  | inf n => n
  | fin n _ _ => n

/-- The comparison `a < b` of IEEE-754: false as soon as one side is NaN.
Two finite values are compared after cross-multiplying the denominators. -/
def lt : FP → FP → Bool
  | nan _, _ => false
  | _, nan _ => false
  | inf n, inf m => n && !m
  | inf n, fin _ _ _ => n
  | fin _ _ _, inf m => !m
  | fin n m e, fin n' m' e' =>
    decide ((fin n m e).num * 2 ^ e' < (fin n' m' e').num * 2 ^ e)

/-- The comparison `a == b` of IEEE-754: false as soon as one side is NaN,
true between the two zeros. -/
def eq : FP → FP → Bool
  | nan _, _ => false
  | _, nan _ => false
  | inf n, inf m => n == m
  | inf _, fin _ _ _ => false
  | fin _ _ _, inf _ => false
  | fin n m e, fin n' m' e' =>
    decide ((fin n m e).num * 2 ^ e' = (fin n' m' e').num * 2 ^ e)

/-- The comparison `a <= b`. -/
def le (a b : FP) : Bool := a.lt b || a.eq b

/-- The comparison `a > b`. -/
def gt (a b : FP) : Bool := b.lt a

/-- The comparison `a >= b`. -/
def ge (a b : FP) : Bool := b.le a

/-- The comparison `a != b` (true as soon as one side is NaN). -/
def ne (a b : FP) : Bool := !(a.eq b)

/-- Function `std::trunc`: NaN and infinities are returned unchanged, a finite
value is rounded toward zero keeping its sign bit. -/
def trunc : FP → FP
  | fin n m e => fin n (m / 2 ^ e) 0
  | x => x

/-- A finite value that is a whole number: `m / 2^e` with `2^e` dividing `m`. -/
def isInteger : FP → Bool
  | fin _ m e => decide (m % 2 ^ e = 0)
  | _ => false

/-- Function `std::fmod`: the exact remainder `x - trunc(x / y) * y`, with the
sign of `x`; NaN when an argument is NaN, `x` is infinite or `y` is zero. -/
def fmod : FP → FP → FP
  | nan s, _ => nan s
  | _, nan s => nan s
  | inf _, _ => NAN
  | fin n m e, inf _ => fin n m e
  | fin n m e, fin _ m' e' =>
    if m' = 0 then NAN else fin n ((m * 2 ^ e') % (m' * 2 ^ e)) (e + e')

end FP

/-! ## Error sink and backend -/

/-- Modelled from the spec: the error kinds of `sf_error.h` (a header that is
not part of the sources at hand) that the wrappers report: "one of {DOMAIN,
OVERFLOW, UNDERFLOW, NO_RESULT, OTHER}". -/
inductive sf_error_t where
  | SF_ERROR_DOMAIN
  | SF_ERROR_OVERFLOW
  | SF_ERROR_UNDERFLOW
  | SF_ERROR_NO_RESULT
  | SF_ERROR_OTHER
  deriving DecidableEq

export sf_error_t (SF_ERROR_DOMAIN SF_ERROR_OVERFLOW SF_ERROR_UNDERFLOW SF_ERROR_NO_RESULT
  SF_ERROR_OTHER)

/-- One call `sf_error(func_name, code, NULL)` received by the sink. -/
structure Report where
  func_name : String
  code : sf_error_t
  deriving DecidableEq

/-- Modelled from the spec: `sf_error` of `sf_error.h`, "side effect only; never
affects control flow of the caller": the report is appended to the log of the
sink. -/
def sf_error (func_name : String) (code : sf_error_t) (log : List Report) : List Report :=
  log ++ [⟨func_name, code⟩]

/-- The exception classes the wrappers tell apart in their `catch` clauses;
`other` is anything only `catch (...)` catches. -/
inductive Thrown where
  | domain_error
  | overflow_error
  | underflow_error
  | other
  deriving DecidableEq

deriving instance DecidableEq for Except

/-- A call of a Boost routine either returns a value or throws. -/
abbrev Res := Except Thrown FP

/-- The policy a Boost routine is instantiated with. -/
inductive Policy where
  | SpecialPolicy
  | StatsPolicy
  | BetaPolicyForStats
  | default_policy
  deriving DecidableEq

export Policy (SpecialPolicy StatsPolicy BetaPolicyForStats default_policy)

/-- The distribution objects of `boost::math` the facade constructs. -/
inductive Dist where
  | beta_distribution (a b : FP)
  | inverse_gaussian_distribution (mu s : FP)
  | cauchy_distribution (loc scale : FP)
  | non_central_chi_squared_distribution (k l : FP)
  | non_central_f_distribution (v1 v2 l : FP)
  | non_central_t_distribution (v l : FP)
  | skew_normal_distribution (l sc sh : FP)
  | binomial_distribution (n p : FP)
  | negative_binomial_distribution (r p : FP)
  | hypergeometric_distribution (n N M : FP)
  | landau_distribution (loc scale : FP)
  | fisher_f_distribution (dfn dfd : FP)
  deriving DecidableEq

/-- The routines of `boost::math` the wrappers call.  They are external to the
repository: any behaviour is allowed, a value or a thrown exception. -/
structure Backend where
  ibeta : Policy → FP → FP → FP → Res
  ibetac : Policy → FP → FP → FP → Res
  ibeta_inv : Policy → FP → FP → FP → Res
  ibeta_inva : Policy → FP → FP → FP → Res
  ibeta_invb : Policy → FP → FP → FP → Res
  ibetac_inv : Policy → FP → FP → FP → Res
  erf_inv : Policy → FP → Res
  powm1 : Policy → FP → FP → Res
  hypergeometric_pFq : Policy → FP → FP → FP → Res
  hypergeometric_1F1 : Policy → FP → FP → FP → Res
  pdf : Policy → Dist → FP → Res
  cdf : Policy → Dist → FP → Res
  cdf_complement : Policy → Dist → FP → Res
  quantile : Policy → Dist → FP → Res
  quantile_complement : Policy → Dist → FP → Res
  mean : Policy → Dist → Res
  variance : Policy → Dist → Res
  skewness : Policy → Dist → Res
  kurtosis_excess : Policy → Dist → Res

/-- The backend all of whose routines behave the same way, whatever the
arguments. -/
def Backend.const (r : Res) : Backend :=
  ⟨fun _ _ _ _ => r, fun _ _ _ _ => r, fun _ _ _ _ => r, fun _ _ _ _ => r, fun _ _ _ _ => r,
   fun _ _ _ _ => r, fun _ _ => r, fun _ _ _ => r, fun _ _ _ _ => r, fun _ _ _ _ => r,
   fun _ _ _ => r, fun _ _ _ => r, fun _ _ _ => r, fun _ _ _ => r, fun _ _ _ => r,
   fun _ _ => r, fun _ _ => r, fun _ _ => r, fun _ _ => r⟩

/-- One invocation of a backend routine: its name and its arguments, in the
order of the call. -/
structure Call where
  routine : String
  args : List FP
  deriving DecidableEq

/-- What one call of a wrapper does: the value it returns, the reports it made
to the sink and the backend routines it invoked, both in order. -/
structure Outcome (α : Type) where
  value : α
  reports : List Report
  calls : List Call
  deriving DecidableEq

/-! ## Incomplete beta family -/

/-- Function `ibeta_wrap` (`betainc`). -/
def ibeta_wrap (B : Backend) (a b x : FP) : Outcome FP :=
  if a.isnan || b.isnan || x.isnan then
    ⟨FP.NAN, [], []⟩
  else if a.lt FP.zero || b.lt FP.zero || x.lt FP.zero || x.gt FP.one then
    ⟨FP.NAN, sf_error "betainc" SF_ERROR_DOMAIN [], []⟩
  else if (a.eq FP.zero && b.eq FP.zero) || (a.isinf && b.isinf) then
    ⟨FP.NAN, [], []⟩
  else if a.eq FP.zero || b.isinf then
    ⟨if x.gt FP.zero then FP.one else FP.zero, [], []⟩
  else if b.eq FP.zero || a.isinf then
    ⟨if x.lt FP.one then FP.zero else FP.one, [], []⟩
  else
    match B.ibeta SpecialPolicy a b x with
    | .ok y => ⟨y, [], [⟨"ibeta", [a, b, x]⟩]⟩
    | .error .domain_error =>
      ⟨FP.NAN, sf_error "betainc" SF_ERROR_DOMAIN [], [⟨"ibeta", [a, b, x]⟩]⟩
    | .error .overflow_error =>
      ⟨FP.INFINITY, sf_error "betainc" SF_ERROR_OVERFLOW [], [⟨"ibeta", [a, b, x]⟩]⟩
    | .error .underflow_error =>
      ⟨FP.zero, sf_error "betainc" SF_ERROR_UNDERFLOW [], [⟨"ibeta", [a, b, x]⟩]⟩
    | .error .other =>
      ⟨FP.NAN, sf_error "betainc" SF_ERROR_OTHER [], [⟨"ibeta", [a, b, x]⟩]⟩

/-- Function `ibetac_wrap` (`betaincc`). -/
def ibetac_wrap (B : Backend) (a b x : FP) : Outcome FP :=
  if a.isnan || b.isnan || x.isnan then
    ⟨FP.NAN, [], []⟩
  else if a.lt FP.zero || b.lt FP.zero || x.lt FP.zero || x.gt FP.one then
    ⟨FP.NAN, sf_error "betaincc" SF_ERROR_DOMAIN [], []⟩
  else if (a.eq FP.zero && b.eq FP.zero) || (a.isinf && b.isinf) then
    ⟨FP.NAN, [], []⟩
  else if a.eq FP.zero || b.isinf then
    ⟨if x.gt FP.zero then FP.zero else FP.one, [], []⟩
  else if b.eq FP.zero || a.isinf then
    ⟨if x.lt FP.one then FP.one else FP.zero, [], []⟩
  else
    match B.ibetac default_policy a b x with
    | .ok y => ⟨y, [], [⟨"ibetac", [a, b, x]⟩]⟩
    | .error .domain_error =>
      ⟨FP.NAN, sf_error "betaincc" SF_ERROR_DOMAIN [], [⟨"ibetac", [a, b, x]⟩]⟩
    | .error .overflow_error =>
      ⟨FP.INFINITY, sf_error "betaincc" SF_ERROR_OVERFLOW [], [⟨"ibetac", [a, b, x]⟩]⟩
    | .error .underflow_error =>
      ⟨FP.zero, sf_error "betaincc" SF_ERROR_UNDERFLOW [], [⟨"ibetac", [a, b, x]⟩]⟩
    | .error .other =>
      ⟨FP.NAN, sf_error "betaincc" SF_ERROR_OTHER [], [⟨"ibetac", [a, b, x]⟩]⟩

/-- Function `ibeta_inv_wrap` (`betaincinv`), with the policy it is given. -/
def ibeta_inv_wrap (B : Backend) (a b p : FP) (policy_ : Policy) : Outcome FP :=
  if a.isnan || b.isnan || p.isnan then
    ⟨FP.NAN, [], []⟩
  else if a.le FP.zero || b.le FP.zero || p.lt FP.zero || p.gt FP.one then
    ⟨FP.NAN, sf_error "betaincinv" SF_ERROR_DOMAIN [], []⟩
  else
    match B.ibeta_inv policy_ a b p with
    | .ok y => ⟨y, [], [⟨"ibeta_inv", [a, b, p]⟩]⟩
    | .error .domain_error =>
      ⟨FP.NAN, sf_error "betaincinv" SF_ERROR_DOMAIN [], [⟨"ibeta_inv", [a, b, p]⟩]⟩
    | .error .overflow_error =>
      ⟨FP.INFINITY, sf_error "betaincinv" SF_ERROR_OVERFLOW [], [⟨"ibeta_inv", [a, b, p]⟩]⟩
    | .error .underflow_error =>
      ⟨FP.zero, sf_error "betaincinv" SF_ERROR_UNDERFLOW [], [⟨"ibeta_inv", [a, b, p]⟩]⟩
    | .error .other =>
      ⟨FP.NAN, sf_error "betaincinv" SF_ERROR_OTHER [], [⟨"ibeta_inv", [a, b, p]⟩]⟩

/-- Function `ibeta_inv_double` / `ibeta_inv_float`. -/
def ibeta_inv (B : Backend) (a b p : FP) : Outcome FP :=
  ibeta_inv_wrap B a b p SpecialPolicy

/-- Function `ibeta_inva_wrap` (`btdtria`). -/
def ibeta_inva_wrap (B : Backend) (p b x : FP) : Outcome FP :=
  if p.isnan || b.isnan || x.isnan then
    ⟨FP.NAN, [], []⟩
  else if b.le FP.zero || x.le FP.zero || p.lt FP.zero || p.gt FP.one then
    ⟨FP.NAN, sf_error "btdtria" SF_ERROR_DOMAIN [], []⟩
  else
    match B.ibeta_inva SpecialPolicy b x p with
    | .ok y => ⟨y, [], [⟨"ibeta_inva", [b, x, p]⟩]⟩
    | .error .domain_error =>
      ⟨FP.NAN, sf_error "btdtria" SF_ERROR_DOMAIN [], [⟨"ibeta_inva", [b, x, p]⟩]⟩
    | .error .overflow_error =>
      ⟨FP.INFINITY, sf_error "btdtria" SF_ERROR_OVERFLOW [], [⟨"ibeta_inva", [b, x, p]⟩]⟩
    | .error .underflow_error =>
      ⟨FP.zero, sf_error "btdtria" SF_ERROR_UNDERFLOW [], [⟨"ibeta_inva", [b, x, p]⟩]⟩
    | .error .other =>
      ⟨FP.NAN, sf_error "btdtria" SF_ERROR_OTHER [], [⟨"ibeta_inva", [b, x, p]⟩]⟩

/-- Function `ibeta_invb_wrap` (`btdtrib`). -/
def ibeta_invb_wrap (B : Backend) (a p x : FP) : Outcome FP :=
  if p.isnan || a.isnan || x.isnan then
    ⟨FP.NAN, [], []⟩
  else if a.le FP.zero || x.le FP.zero || p.lt FP.zero || p.gt FP.one then
    ⟨FP.NAN, sf_error "btdtrib" SF_ERROR_DOMAIN [], []⟩
  else
    match B.ibeta_invb SpecialPolicy a x p with
    | .ok y => ⟨y, [], [⟨"ibeta_invb", [a, x, p]⟩]⟩
    | .error .domain_error =>
      ⟨FP.NAN, sf_error "btdtrib" SF_ERROR_DOMAIN [], [⟨"ibeta_invb", [a, x, p]⟩]⟩
    | .error .overflow_error =>
      ⟨FP.INFINITY, sf_error "btdtrib" SF_ERROR_OVERFLOW [], [⟨"ibeta_invb", [a, x, p]⟩]⟩
    | .error .underflow_error =>
      ⟨FP.zero, sf_error "btdtrib" SF_ERROR_UNDERFLOW [], [⟨"ibeta_invb", [a, x, p]⟩]⟩
    | .error .other =>
      ⟨FP.NAN, sf_error "btdtrib" SF_ERROR_OTHER [], [⟨"ibeta_invb", [a, x, p]⟩]⟩

/-- Function `ibetac_inv_wrap` (`betainccinv`). -/
def ibetac_inv_wrap (B : Backend) (a b p : FP) : Outcome FP :=
  if a.isnan || b.isnan || p.isnan then
    ⟨FP.NAN, [], []⟩
  else if a.le FP.zero || b.le FP.zero || p.lt FP.zero || p.gt FP.one then
    ⟨FP.NAN, sf_error "betainccinv" SF_ERROR_DOMAIN [], []⟩
  else
    match B.ibetac_inv SpecialPolicy a b p with
    | .ok y => ⟨y, [], [⟨"ibetac_inv", [a, b, p]⟩]⟩
    | .error .domain_error =>
      ⟨FP.NAN, sf_error "betainccinv" SF_ERROR_DOMAIN [], [⟨"ibetac_inv", [a, b, p]⟩]⟩
    | .error .overflow_error =>
      ⟨FP.INFINITY, sf_error "betainccinv" SF_ERROR_OVERFLOW [], [⟨"ibetac_inv", [a, b, p]⟩]⟩
    | .error .underflow_error =>
      ⟨FP.zero, sf_error "betainccinv" SF_ERROR_UNDERFLOW [], [⟨"ibetac_inv", [a, b, p]⟩]⟩
    | .error .other =>
      ⟨FP.NAN, sf_error "betainccinv" SF_ERROR_OTHER [], [⟨"ibetac_inv", [a, b, p]⟩]⟩

/-! ## `erfinv`, `powm1`, `hyp1f1` -/

/-- Function `erfinv_wrap`. -/
def erfinv_wrap (B : Backend) (x : FP) : Outcome FP :=
  if x.eq (FP.ofInt (-1)) then
    ⟨FP.neg FP.INFINITY, [], []⟩
  else if x.eq FP.one then
    ⟨FP.INFINITY, [], []⟩
  else
    match B.erf_inv SpecialPolicy x with
    | .ok y => ⟨y, [], [⟨"erf_inv", [x]⟩]⟩
    | .error .domain_error =>
      ⟨FP.NAN, sf_error "erfinv" SF_ERROR_DOMAIN [], [⟨"erf_inv", [x]⟩]⟩
    | .error .overflow_error =>
      ⟨FP.INFINITY, sf_error "erfinv" SF_ERROR_OVERFLOW [], [⟨"erf_inv", [x]⟩]⟩
    | .error .underflow_error =>
      ⟨FP.zero, sf_error "erfinv" SF_ERROR_UNDERFLOW [], [⟨"erf_inv", [x]⟩]⟩
    | .error .other =>
      ⟨FP.NAN, sf_error "erfinv" SF_ERROR_OTHER [], [⟨"erf_inv", [x]⟩]⟩

/-- The value `z` chosen by the `catch (const std::overflow_error& e)` clause of
`powm1_wrap`.  The assignment `z = -0` of the source assigns the integer `-0`,
which is the integer `0`. -/
def powm1_overflow_value (x y : FP) : FP :=
  if x.gt FP.zero then
    if y.lt FP.zero then FP.zero
    else if y.eq FP.zero then FP.one
    else FP.INFINITY
  else if x.eq FP.zero then FP.INFINITY
  else
    if y.lt FP.zero then
      if (FP.fmod y FP.two).eq FP.zero then FP.zero else FP.ofInt (-0)
    else if y.eq FP.zero then FP.one
    else
      if (FP.fmod y FP.two).eq FP.zero then FP.INFINITY else FP.neg FP.INFINITY

/-- The last part of `powm1_wrap`: the call of `boost::math::powm1` and its
`catch` clauses. -/
def powm1_try (B : Backend) (x y : FP) : Outcome FP :=
  match B.powm1 SpecialPolicy x y with
  | .ok z => ⟨z, [], [⟨"powm1", [x, y]⟩]⟩
  | .error .domain_error =>
    ⟨FP.NAN, sf_error "powm1" SF_ERROR_DOMAIN [], [⟨"powm1", [x, y]⟩]⟩
  | .error .overflow_error =>
    ⟨powm1_overflow_value x y, sf_error "powm1" SF_ERROR_OVERFLOW [], [⟨"powm1", [x, y]⟩]⟩
  | .error .underflow_error =>
    ⟨FP.zero, sf_error "powm1" SF_ERROR_UNDERFLOW [], [⟨"powm1", [x, y]⟩]⟩
  | .error .other =>
    ⟨FP.NAN, sf_error "powm1" SF_ERROR_OTHER [], [⟨"powm1", [x, y]⟩]⟩

/-- Function `powm1_wrap`.  The test `x == 0` of the source, with its two
inner returns and its fall-through, is written as two guarded returns. -/
def powm1_wrap (B : Backend) (x y : FP) : Outcome FP :=
  if y.eq FP.zero || x.eq FP.one then
    ⟨FP.zero, [], []⟩
  else if x.eq FP.zero && y.lt FP.zero then
    ⟨FP.INFINITY, sf_error "powm1" SF_ERROR_DOMAIN [], []⟩
  else if x.eq FP.zero && y.gt FP.zero then
    ⟨FP.ofInt (-1), [], []⟩
  else if x.lt FP.zero && (FP.trunc y).ne y then
    ⟨FP.NAN, sf_error "powm1" SF_ERROR_DOMAIN [], []⟩
  else
    powm1_try B x y

/-- Function `call_hypergeometric_pFq`. -/
def call_hypergeometric_pFq (B : Backend) (a b x : FP) : Outcome FP :=
  match B.hypergeometric_pFq SpecialPolicy a b x with
  | .ok y => ⟨y, [], [⟨"hypergeometric_pFq", [a, b, x]⟩]⟩
  | .error .domain_error =>
    ⟨FP.INFINITY, sf_error "hyp1f1" SF_ERROR_DOMAIN [], [⟨"hypergeometric_pFq", [a, b, x]⟩]⟩
  | .error .overflow_error =>
    ⟨FP.INFINITY, sf_error "hyp1f1" SF_ERROR_OVERFLOW [], [⟨"hypergeometric_pFq", [a, b, x]⟩]⟩
  | .error .underflow_error =>
    ⟨FP.zero, sf_error "hyp1f1" SF_ERROR_UNDERFLOW [], [⟨"hypergeometric_pFq", [a, b, x]⟩]⟩
  | .error .other =>
    ⟨FP.NAN, sf_error "hyp1f1" SF_ERROR_OTHER [], [⟨"hypergeometric_pFq", [a, b, x]⟩]⟩

/-- The last part of `hyp1f1_wrap`: the call of `hypergeometric_1F1` and its
`catch` clauses. -/
def hyp1f1_primary (B : Backend) (a b x : FP) : Outcome FP :=
  match B.hypergeometric_1F1 SpecialPolicy a b x with
  | .ok y => ⟨y, [], [⟨"hypergeometric_1F1", [a, b, x]⟩]⟩
  | .error .domain_error =>
    ⟨FP.INFINITY, sf_error "hyp1f1" SF_ERROR_DOMAIN [], [⟨"hypergeometric_1F1", [a, b, x]⟩]⟩
  | .error .overflow_error =>
    ⟨FP.INFINITY, sf_error "hyp1f1" SF_ERROR_OVERFLOW [], [⟨"hypergeometric_1F1", [a, b, x]⟩]⟩
  | .error .underflow_error =>
    ⟨FP.zero, sf_error "hyp1f1" SF_ERROR_UNDERFLOW [], [⟨"hypergeometric_1F1", [a, b, x]⟩]⟩
  | .error .other =>
    ⟨FP.NAN, sf_error "hyp1f1" SF_ERROR_OTHER [], [⟨"hypergeometric_1F1", [a, b, x]⟩]⟩

/-- Function `hyp1f1_wrap`.  The block `if (b <= 0 && std::trunc(b) == b)` of
the source, with its two inner returns and its fall-through, is written as two
guarded returns. -/
def hyp1f1_wrap (B : Backend) (a b x : FP) : Outcome FP :=
  if a.isnan || b.isnan || x.isnan then
    ⟨FP.NAN, [], []⟩
  else if (b.le FP.zero && (FP.trunc b).eq b) && (b.ne FP.zero && a.eq b) then
    call_hypergeometric_pFq B a b x
  else if (b.le FP.zero && (FP.trunc b).eq b)
      && !(a.lt FP.zero && (FP.trunc a).eq a && a.ge b) then
    ⟨FP.INFINITY, [], []⟩
  else if a.lt FP.zero && (FP.trunc a).eq a && b.gt FP.zero && b.eq x then
    call_hypergeometric_pFq B a b x
  else
    hyp1f1_primary B a b x

/-! ## Distribution facade -/

/-- A backend call made outside any `try` block: the value is what the routine
returns, and what it throws escapes the wrapper. -/
def uncaught (r : Res) (c : Call) : Outcome Res := ⟨r, [], [c]⟩

/-- Function `beta_pdf_wrap`. -/
def beta_pdf_wrap (B : Backend) (x a b : FP) : Outcome Res :=
  if x.isfinite then
    if x.ge FP.one && b.lt FP.one then
      ⟨.ok FP.INFINITY, [], []⟩
    else if x.le FP.zero && a.lt FP.one then
      ⟨.ok FP.INFINITY, [], []⟩
    else
      uncaught (B.pdf StatsPolicy (.beta_distribution a b) x) ⟨"pdf beta_distribution", [a, b, x]⟩
  else
    ⟨.ok FP.NAN, [], []⟩

/-- Function `beta_ppf_wrap`. -/
def beta_ppf_wrap (B : Backend) (x a b : FP) : Outcome FP :=
  ibeta_inv_wrap B a b x BetaPolicyForStats

/-- Function `invgauss_ppf_wrap`. -/
def invgauss_ppf_wrap (B : Backend) (x mu s : FP) : Outcome Res :=
  uncaught (B.quantile StatsPolicy (.inverse_gaussian_distribution mu s) x)
    ⟨"quantile inverse_gaussian_distribution", [mu, s, x]⟩

/-- Function `invgauss_isf_wrap`. -/
def invgauss_isf_wrap (B : Backend) (x mu s : FP) : Outcome Res :=
  uncaught (B.quantile_complement StatsPolicy (.inverse_gaussian_distribution mu s) x)
    ⟨"quantile_complement inverse_gaussian_distribution", [mu, s, x]⟩

/-- Function `cauchy_ppf_wrap`. -/
def cauchy_ppf_wrap (B : Backend) (p loc scale : FP) : Outcome Res :=
  uncaught (B.quantile StatsPolicy (.cauchy_distribution loc scale) p)
    ⟨"quantile cauchy_distribution", [loc, scale, p]⟩

/-- Function `cauchy_isf_wrap`. -/
def cauchy_isf_wrap (B : Backend) (p loc scale : FP) : Outcome Res :=
  uncaught (B.quantile_complement StatsPolicy (.cauchy_distribution loc scale) p)
    ⟨"quantile_complement cauchy_distribution", [loc, scale, p]⟩

/-- Function `ncx2_pdf_wrap`.  Its `catch` clauses start at `overflow_error`:
a `domain_error` is caught by `catch (...)`. -/
def ncx2_pdf_wrap (B : Backend) (x k l : FP) : Outcome FP :=
  if x.isfinite then
    match B.pdf SpecialPolicy (.non_central_chi_squared_distribution k l) x with
    | .ok y => ⟨y, [], [⟨"pdf non_central_chi_squared_distribution", [k, l, x]⟩]⟩
    | .error .overflow_error =>
      ⟨FP.INFINITY, sf_error "_ncx2_pdf" SF_ERROR_OVERFLOW [],
        [⟨"pdf non_central_chi_squared_distribution", [k, l, x]⟩]⟩
    | .error .underflow_error =>
      ⟨FP.zero, sf_error "_ncx2_pdf" SF_ERROR_UNDERFLOW [],
        [⟨"pdf non_central_chi_squared_distribution", [k, l, x]⟩]⟩
    | .error _ =>
      ⟨FP.NAN, sf_error "_ncx2_pdf" SF_ERROR_OTHER [],
        [⟨"pdf non_central_chi_squared_distribution", [k, l, x]⟩]⟩
  else
    ⟨FP.NAN, [], []⟩

/-- Function `ncx2_cdf_wrap`. -/
def ncx2_cdf_wrap (B : Backend) (x k l : FP) : Outcome Res :=
  if x.isfinite then
    uncaught (B.cdf StatsPolicy (.non_central_chi_squared_distribution k l) x)
      ⟨"cdf non_central_chi_squared_distribution", [k, l, x]⟩
  else
    ⟨.ok (FP.ofInt (1 - (if x.signbit then 1 else 0))), [], []⟩

/-- Function `ncx2_ppf_wrap`. -/
def ncx2_ppf_wrap (B : Backend) (x k l : FP) : Outcome Res :=
  uncaught (B.quantile StatsPolicy (.non_central_chi_squared_distribution k l) x)
    ⟨"quantile non_central_chi_squared_distribution", [k, l, x]⟩

/-- Function `ncx2_sf_wrap`. -/
def ncx2_sf_wrap (B : Backend) (x k l : FP) : Outcome Res :=
  uncaught (B.cdf_complement StatsPolicy (.non_central_chi_squared_distribution k l) x)
    ⟨"cdf_complement non_central_chi_squared_distribution", [k, l, x]⟩

/-- Function `ncx2_isf_wrap`. -/
def ncx2_isf_wrap (B : Backend) (x k l : FP) : Outcome Res :=
  uncaught (B.quantile_complement StatsPolicy (.non_central_chi_squared_distribution k l) x)
    ⟨"quantile_complement non_central_chi_squared_distribution", [k, l, x]⟩

/-- Function `ncf_pdf_wrap`. -/
def ncf_pdf_wrap (B : Backend) (x v1 v2 l : FP) : Outcome Res :=
  if x.isfinite then
    uncaught (B.pdf StatsPolicy (.non_central_f_distribution v1 v2 l) x)
      ⟨"pdf non_central_f_distribution", [v1, v2, l, x]⟩
  else
    ⟨.ok FP.NAN, [], []⟩

/-- The final test `if ((y < 0) || (y > 1))` of the CDF wrappers that have a
`try` block, applied to the value `y` and the reports left by that block. -/
def cdf_range_check (func_name : String) (y : FP) (log : List Report) (calls : List Call) :
    Outcome FP :=
  if y.lt FP.zero || y.gt FP.one then
    ⟨FP.NAN, sf_error func_name SF_ERROR_NO_RESULT log, calls⟩
  else
    ⟨y, log, calls⟩

/-- Function `ncf_cdf_wrap` (`ncfdtr`). -/
def ncf_cdf_wrap (B : Backend) (v1 v2 l x : FP) : Outcome FP :=
  if x.isnan || v1.isnan || v2.isnan || l.isnan then
    ⟨FP.NAN, [], []⟩
  else if v1.le FP.zero || v2.le FP.zero || l.lt FP.zero || x.lt FP.zero then
    ⟨FP.NAN, sf_error "ncfdtr" SF_ERROR_DOMAIN [], []⟩
  else if x.isinf then
    ⟨FP.one, [], []⟩
  else
    match B.cdf SpecialPolicy (.non_central_f_distribution v1 v2 l) x with
    | .ok y => cdf_range_check "ncfdtr" y [] [⟨"cdf non_central_f_distribution", [v1, v2, l, x]⟩]
    | .error _ =>
      cdf_range_check "ncfdtr" FP.NAN (sf_error "ncfdtr" SF_ERROR_NO_RESULT [])
        [⟨"cdf non_central_f_distribution", [v1, v2, l, x]⟩]

/-- Function `ncf_ppf_wrap` (`ncfdtri`). -/
def ncf_ppf_wrap (B : Backend) (v1 v2 l x : FP) : Outcome FP :=
  if x.isnan || v1.isnan || v2.isnan || l.isnan then
    ⟨FP.NAN, [], []⟩
  else if v1.le FP.zero || v2.le FP.zero || l.lt FP.zero || x.lt FP.zero || x.gt FP.one then
    ⟨FP.NAN, sf_error "ncfdtri" SF_ERROR_DOMAIN [], []⟩
  else
    match B.quantile SpecialPolicy (.non_central_f_distribution v1 v2 l) x with
    | .ok y => ⟨y, [], [⟨"quantile non_central_f_distribution", [v1, v2, l, x]⟩]⟩
    | .error .domain_error =>
      ⟨FP.NAN, sf_error "ncfdtri" SF_ERROR_DOMAIN [],
        [⟨"quantile non_central_f_distribution", [v1, v2, l, x]⟩]⟩
    | .error .overflow_error =>
      ⟨FP.INFINITY, sf_error "ncfdtri" SF_ERROR_OVERFLOW [],
        [⟨"quantile non_central_f_distribution", [v1, v2, l, x]⟩]⟩
    | .error .underflow_error =>
      ⟨FP.zero, sf_error "ncfdtri" SF_ERROR_UNDERFLOW [],
        [⟨"quantile non_central_f_distribution", [v1, v2, l, x]⟩]⟩
    | .error .other =>
      ⟨FP.NAN, sf_error "ncfdtri" SF_ERROR_NO_RESULT [],
        [⟨"quantile non_central_f_distribution", [v1, v2, l, x]⟩]⟩

/-- Function `ncf_sf_wrap`. -/
def ncf_sf_wrap (B : Backend) (x v1 v2 l : FP) : Outcome Res :=
  uncaught (B.cdf_complement StatsPolicy (.non_central_f_distribution v1 v2 l) x)
    ⟨"cdf_complement non_central_f_distribution", [v1, v2, l, x]⟩

/-- Function `ncf_isf_wrap`. -/
def ncf_isf_wrap (B : Backend) (x v1 v2 l : FP) : Outcome Res :=
  uncaught (B.quantile_complement StatsPolicy (.non_central_f_distribution v1 v2 l) x)
    ⟨"quantile_complement non_central_f_distribution", [v1, v2, l, x]⟩

/-- Function `ncf_mean_double` (and `ncf_mean_float`), with `RETURN_NAN(v2, 2.0)`
expanded. -/
def ncf_mean (B : Backend) (v1 v2 l : FP) : Outcome Res :=
  if v2.le (FP.ofInt 2) then
    ⟨.ok FP.NAN, [], []⟩
  else
    uncaught (B.mean StatsPolicy (.non_central_f_distribution v1 v2 l))
      ⟨"mean non_central_f_distribution", [v1, v2, l]⟩

/-- Function `ncf_variance_double` (and `ncf_variance_float`), with `RETURN_NAN(v2, 4.0)`
expanded. -/
def ncf_variance (B : Backend) (v1 v2 l : FP) : Outcome Res :=
  if v2.le (FP.ofInt 4) then
    ⟨.ok FP.NAN, [], []⟩
  else
    uncaught (B.variance StatsPolicy (.non_central_f_distribution v1 v2 l))
      ⟨"variance non_central_f_distribution", [v1, v2, l]⟩

/-- Function `ncf_skewness_double` (and `ncf_skewness_float`), with `RETURN_NAN(v2, 6.0)`
expanded. -/
def ncf_skewness (B : Backend) (v1 v2 l : FP) : Outcome Res :=
  if v2.le (FP.ofInt 6) then
    ⟨.ok FP.NAN, [], []⟩
  else
    uncaught (B.skewness StatsPolicy (.non_central_f_distribution v1 v2 l))
      ⟨"skewness non_central_f_distribution", [v1, v2, l]⟩

/-- Function `ncf_kurtosis_excess_double` (and `ncf_kurtosis_excess_float`),
with `RETURN_NAN(v2, 8.0)`
expanded. -/
def ncf_kurtosis_excess (B : Backend) (v1 v2 l : FP) : Outcome Res :=
  if v2.le (FP.ofInt 8) then
    ⟨.ok FP.NAN, [], []⟩
  else
    uncaught (B.kurtosis_excess StatsPolicy (.non_central_f_distribution v1 v2 l))
      ⟨"kurtosis_excess non_central_f_distribution", [v1, v2, l]⟩

/-- Function `nct_cdf_wrap` (`nctdtr`). -/
def nct_cdf_wrap (B : Backend) (v l x : FP) : Outcome FP :=
  if x.isnan || v.isnan || l.isnan then
    ⟨FP.NAN, [], []⟩
  else if v.le FP.zero then
    ⟨FP.NAN, sf_error "nctdtr" SF_ERROR_DOMAIN [], []⟩
  else if x.isinf then
    ⟨if x.gt FP.zero then FP.one else FP.zero, [], []⟩
  else
    match B.cdf SpecialPolicy (.non_central_t_distribution v l) x with
    | .ok y => cdf_range_check "nctdtr" y [] [⟨"cdf non_central_t_distribution", [v, l, x]⟩]
    | .error _ =>
      cdf_range_check "nctdtr" FP.NAN (sf_error "nctdtr" SF_ERROR_NO_RESULT [])
        [⟨"cdf non_central_t_distribution", [v, l, x]⟩]

/-- Function `nct_pdf_wrap`. -/
def nct_pdf_wrap (B : Backend) (x v l : FP) : Outcome Res :=
  if x.isfinite then
    uncaught (B.pdf StatsPolicy (.non_central_t_distribution v l) x)
      ⟨"pdf non_central_t_distribution", [v, l, x]⟩
  else
    ⟨.ok FP.NAN, [], []⟩

/-- Function `nct_ppf_wrap` (`nctdtrit`). -/
def nct_ppf_wrap (B : Backend) (v l x : FP) : Outcome FP :=
  if x.isnan || v.isnan || l.isnan then
    ⟨FP.NAN, [], []⟩
  else if v.le FP.zero || x.lt FP.zero || x.gt FP.one then
    ⟨FP.NAN, sf_error "nctdtrit" SF_ERROR_DOMAIN [], []⟩
  else
    match B.quantile SpecialPolicy (.non_central_t_distribution v l) x with
    | .ok y => ⟨y, [], [⟨"quantile non_central_t_distribution", [v, l, x]⟩]⟩
    | .error .domain_error =>
      ⟨FP.NAN, sf_error "nctdtrit" SF_ERROR_DOMAIN [],
        [⟨"quantile non_central_t_distribution", [v, l, x]⟩]⟩
    | .error .overflow_error =>
      ⟨FP.INFINITY, sf_error "nctdtrit" SF_ERROR_OVERFLOW [],
        [⟨"quantile non_central_t_distribution", [v, l, x]⟩]⟩
    | .error .underflow_error =>
      ⟨FP.zero, sf_error "nctdtrit" SF_ERROR_UNDERFLOW [],
        [⟨"quantile non_central_t_distribution", [v, l, x]⟩]⟩
    | .error .other =>
      ⟨FP.NAN, sf_error "nctdtrit" SF_ERROR_NO_RESULT [],
        [⟨"quantile non_central_t_distribution", [v, l, x]⟩]⟩

/-- Function `nct_sf_wrap`. -/
def nct_sf_wrap (B : Backend) (x v l : FP) : Outcome Res :=
  uncaught (B.cdf_complement StatsPolicy (.non_central_t_distribution v l) x)
    ⟨"cdf_complement non_central_t_distribution", [v, l, x]⟩

/-- Function `nct_isf_wrap`. -/
def nct_isf_wrap (B : Backend) (x v l : FP) : Outcome Res :=
  uncaught (B.quantile_complement StatsPolicy (.non_central_t_distribution v l) x)
    ⟨"quantile_complement non_central_t_distribution", [v, l, x]⟩

/-- Function `nct_mean_double` (and `nct_mean_float`), with `RETURN_NAN(v, 1.0)`
expanded. -/
def nct_mean (B : Backend) (v l : FP) : Outcome Res :=
  if v.le (FP.ofInt 1) then
    ⟨.ok FP.NAN, [], []⟩
  else
    uncaught (B.mean StatsPolicy (.non_central_t_distribution v l))
      ⟨"mean non_central_t_distribution", [v, l]⟩

/-- Function `nct_variance_double` (and `nct_variance_float`), with `RETURN_NAN(v, 2.0)`
expanded. -/
def nct_variance (B : Backend) (v l : FP) : Outcome Res :=
  if v.le (FP.ofInt 2) then
    ⟨.ok FP.NAN, [], []⟩
  else
    uncaught (B.variance StatsPolicy (.non_central_t_distribution v l))
      ⟨"variance non_central_t_distribution", [v, l]⟩

/-- Function `nct_skewness_double` (and `nct_skewness_float`), with `RETURN_NAN(v, 3.0)`
expanded. -/
def nct_skewness (B : Backend) (v l : FP) : Outcome Res :=
  if v.le (FP.ofInt 3) then
    ⟨.ok FP.NAN, [], []⟩
  else
    uncaught (B.skewness StatsPolicy (.non_central_t_distribution v l))
      ⟨"skewness non_central_t_distribution", [v, l]⟩

/-- Function `nct_kurtosis_excess_double` (and `nct_kurtosis_excess_float`),
with `RETURN_NAN(v, 4.0)`
expanded. -/
def nct_kurtosis_excess (B : Backend) (v l : FP) : Outcome Res :=
  if v.le (FP.ofInt 4) then
    ⟨.ok FP.NAN, [], []⟩
  else
    uncaught (B.kurtosis_excess StatsPolicy (.non_central_t_distribution v l))
      ⟨"kurtosis_excess non_central_t_distribution", [v, l]⟩

/-- Function `skewnorm_cdf_wrap`. -/
def skewnorm_cdf_wrap (B : Backend) (x l sc sh : FP) : Outcome Res :=
  if x.isfinite then
    uncaught (B.cdf StatsPolicy (.skew_normal_distribution l sc sh) x)
      ⟨"cdf skew_normal_distribution", [l, sc, sh, x]⟩
  else
    ⟨.ok (FP.ofInt (1 - (if x.signbit then 1 else 0))), [], []⟩

/-- Function `skewnorm_ppf_wrap`. -/
def skewnorm_ppf_wrap (B : Backend) (x l sc sh : FP) : Outcome Res :=
  uncaught (B.quantile StatsPolicy (.skew_normal_distribution l sc sh) x)
    ⟨"quantile skew_normal_distribution", [l, sc, sh, x]⟩

/-- Function `skewnorm_isf_wrap`. -/
def skewnorm_isf_wrap (B : Backend) (x l sc sh : FP) : Outcome Res :=
  uncaught (B.quantile_complement StatsPolicy (.skew_normal_distribution l sc sh) x)
    ⟨"quantile_complement skew_normal_distribution", [l, sc, sh, x]⟩

/-- Function `binom_pmf_wrap`. -/
def binom_pmf_wrap (B : Backend) (x n p : FP) : Outcome Res :=
  if x.isfinite then
    uncaught (B.pdf StatsPolicy (.binomial_distribution n p) x)
      ⟨"pdf binomial_distribution", [n, p, x]⟩
  else
    ⟨.ok FP.NAN, [], []⟩

/-- Function `binom_cdf_wrap`. -/
def binom_cdf_wrap (B : Backend) (x n p : FP) : Outcome Res :=
  if x.isfinite then
    uncaught (B.cdf StatsPolicy (.binomial_distribution n p) x)
      ⟨"cdf binomial_distribution", [n, p, x]⟩
  else if x.isnan then
    ⟨.ok FP.NAN, [], []⟩
  else
    ⟨.ok (FP.ofInt (1 - (if x.signbit then 1 else 0))), [], []⟩

/-- Function `binom_ppf_wrap`. -/
def binom_ppf_wrap (B : Backend) (x n p : FP) : Outcome Res :=
  uncaught (B.quantile StatsPolicy (.binomial_distribution n p) x)
    ⟨"quantile binomial_distribution", [n, p, x]⟩

/-- Function `binom_sf_wrap`. -/
def binom_sf_wrap (B : Backend) (x n p : FP) : Outcome Res :=
  uncaught (B.cdf_complement StatsPolicy (.binomial_distribution n p) x)
    ⟨"cdf_complement binomial_distribution", [n, p, x]⟩

/-- Function `binom_isf_wrap`. -/
def binom_isf_wrap (B : Backend) (x n p : FP) : Outcome Res :=
  uncaught (B.quantile_complement StatsPolicy (.binomial_distribution n p) x)
    ⟨"quantile_complement binomial_distribution", [n, p, x]⟩

/-- Function `nbinom_pmf_wrap`. -/
def nbinom_pmf_wrap (B : Backend) (x r p : FP) : Outcome Res :=
  if x.isfinite then
    uncaught (B.pdf StatsPolicy (.negative_binomial_distribution r p) x)
      ⟨"pdf negative_binomial_distribution", [r, p, x]⟩
  else
    ⟨.ok FP.NAN, [], []⟩

/-- Function `nbinom_cdf_wrap`. -/
def nbinom_cdf_wrap (B : Backend) (x r p : FP) : Outcome Res :=
  if x.isfinite then
    uncaught (B.cdf StatsPolicy (.negative_binomial_distribution r p) x)
      ⟨"cdf negative_binomial_distribution", [r, p, x]⟩
  else
    ⟨.ok (FP.ofInt (1 - (if x.signbit then 1 else 0))), [], []⟩

/-- Function `nbinom_ppf_wrap`. -/
def nbinom_ppf_wrap (B : Backend) (x r p : FP) : Outcome Res :=
  uncaught (B.quantile StatsPolicy (.negative_binomial_distribution r p) x)
    ⟨"quantile negative_binomial_distribution", [r, p, x]⟩

/-- Function `nbinom_sf_wrap`. -/
def nbinom_sf_wrap (B : Backend) (x r p : FP) : Outcome Res :=
  uncaught (B.cdf_complement StatsPolicy (.negative_binomial_distribution r p) x)
    ⟨"cdf_complement negative_binomial_distribution", [r, p, x]⟩

/-- Function `nbinom_isf_wrap`. -/
def nbinom_isf_wrap (B : Backend) (x r p : FP) : Outcome Res :=
  uncaught (B.quantile_complement StatsPolicy (.negative_binomial_distribution r p) x)
    ⟨"quantile_complement negative_binomial_distribution", [r, p, x]⟩

/-- Function `nbinom_mean_double` (and `nbinom_mean_float`). -/
def nbinom_mean (B : Backend) (r p : FP) : Outcome Res :=
  uncaught (B.mean StatsPolicy (.negative_binomial_distribution r p))
    ⟨"mean negative_binomial_distribution", [r, p]⟩

/-- Function `nbinom_variance_double` (and `nbinom_variance_float`). -/
def nbinom_variance (B : Backend) (r p : FP) : Outcome Res :=
  uncaught (B.variance StatsPolicy (.negative_binomial_distribution r p))
    ⟨"variance negative_binomial_distribution", [r, p]⟩

/-- Function `nbinom_skewness_double` (and `nbinom_skewness_float`). -/
def nbinom_skewness (B : Backend) (r p : FP) : Outcome Res :=
  uncaught (B.skewness StatsPolicy (.negative_binomial_distribution r p))
    ⟨"skewness negative_binomial_distribution", [r, p]⟩

/-- Function `nbinom_kurtosis_excess_double` (and `nbinom_kurtosis_excess_float`). -/
def nbinom_kurtosis_excess (B : Backend) (r p : FP) : Outcome Res :=
  uncaught (B.kurtosis_excess StatsPolicy (.negative_binomial_distribution r p))
    ⟨"kurtosis_excess negative_binomial_distribution", [r, p]⟩

/-- Function `hypergeom_pmf_wrap`. -/
def hypergeom_pmf_wrap (B : Backend) (k n N M : FP) : Outcome Res :=
  if k.isfinite then
    uncaught (B.pdf StatsPolicy (.hypergeometric_distribution n N M) k)
      ⟨"pdf hypergeometric_distribution", [n, N, M, k]⟩
  else
    ⟨.ok FP.NAN, [], []⟩

/-- Function `hypergeom_cdf_wrap`. -/
def hypergeom_cdf_wrap (B : Backend) (k n N M : FP) : Outcome Res :=
  if k.isfinite then
    uncaught (B.cdf StatsPolicy (.hypergeometric_distribution n N M) k)
      ⟨"cdf hypergeometric_distribution", [n, N, M, k]⟩
  else
    ⟨.ok (FP.ofInt (1 - (if k.signbit then 1 else 0))), [], []⟩

/-- Function `hypergeom_sf_wrap`. -/
def hypergeom_sf_wrap (B : Backend) (k n N M : FP) : Outcome Res :=
  uncaught (B.cdf_complement StatsPolicy (.hypergeometric_distribution n N M) k)
    ⟨"cdf_complement hypergeometric_distribution", [n, N, M, k]⟩

/-- Function `hypergeom_mean_double` (and `hypergeom_mean_float`). -/
def hypergeom_mean (B : Backend) (n N M : FP) : Outcome Res :=
  uncaught (B.mean StatsPolicy (.hypergeometric_distribution n N M))
    ⟨"mean hypergeometric_distribution", [n, N, M]⟩

/-- Function `hypergeom_variance_double` (and `hypergeom_variance_float`). -/
def hypergeom_variance (B : Backend) (n N M : FP) : Outcome Res :=
  uncaught (B.variance StatsPolicy (.hypergeometric_distribution n N M))
    ⟨"variance hypergeometric_distribution", [n, N, M]⟩

/-- Function `hypergeom_skewness_double` (and `hypergeom_skewness_float`). -/
def hypergeom_skewness (B : Backend) (n N M : FP) : Outcome Res :=
  uncaught (B.skewness StatsPolicy (.hypergeometric_distribution n N M))
    ⟨"skewness hypergeometric_distribution", [n, N, M]⟩

/-- Function `landau_pdf_wrap`. -/
def landau_pdf_wrap (B : Backend) (x loc scale : FP) : Outcome Res :=
  if x.isfinite then
    uncaught (B.pdf StatsPolicy (.landau_distribution loc scale) x)
      ⟨"pdf landau_distribution", [loc, scale, x]⟩
  else
    ⟨.ok FP.NAN, [], []⟩

/-- Function `landau_cdf_wrap`. -/
def landau_cdf_wrap (B : Backend) (x loc scale : FP) : Outcome Res :=
  if x.isfinite then
    uncaught (B.cdf StatsPolicy (.landau_distribution loc scale) x)
      ⟨"cdf landau_distribution", [loc, scale, x]⟩
  else
    ⟨.ok FP.NAN, [], []⟩

/-- Function `landau_sf_wrap`. -/
def landau_sf_wrap (B : Backend) (x loc scale : FP) : Outcome Res :=
  if x.isfinite then
    uncaught (B.cdf_complement StatsPolicy (.landau_distribution loc scale) x)
      ⟨"cdf_complement landau_distribution", [loc, scale, x]⟩
  else
    ⟨.ok FP.NAN, [], []⟩

/-- Function `landau_ppf_wrap`. -/
def landau_ppf_wrap (B : Backend) (p loc scale : FP) : Outcome Res :=
  if p.isfinite then
    uncaught (B.quantile StatsPolicy (.landau_distribution loc scale) p)
      ⟨"quantile landau_distribution", [loc, scale, p]⟩
  else
    ⟨.ok FP.NAN, [], []⟩

/-- Function `landau_isf_wrap`. -/
def landau_isf_wrap (B : Backend) (p loc scale : FP) : Outcome Res :=
  if p.isfinite then
    uncaught (B.quantile_complement StatsPolicy (.landau_distribution loc scale) p)
      ⟨"quantile_complement landau_distribution", [loc, scale, p]⟩
  else
    ⟨.ok FP.NAN, [], []⟩

/-- Function `f_cdf_wrap` (`fdtr`). -/
def f_cdf_wrap (B : Backend) (dfn dfd x : FP) : Outcome FP :=
  if x.isnan || dfn.isnan || dfd.isnan then
    ⟨FP.NAN, [], []⟩
  else if dfn.le FP.zero || dfd.le FP.zero || x.lt FP.zero then
    ⟨FP.NAN, sf_error "fdtr" SF_ERROR_DOMAIN [], []⟩
  else if x.isinf then
    ⟨FP.one, [], []⟩
  else
    match B.cdf SpecialPolicy (.fisher_f_distribution dfn dfd) x with
    | .ok y => cdf_range_check "fdtr" y [] [⟨"cdf fisher_f_distribution", [dfn, dfd, x]⟩]
    | .error _ =>
      cdf_range_check "fdtr" FP.NAN (sf_error "fdtr" SF_ERROR_NO_RESULT [])
        [⟨"cdf fisher_f_distribution", [dfn, dfd, x]⟩]

/-- The final test `if (y < 0)` of `f_ppf_wrap`, applied to the value `y` and the
reports left by the `try` block. -/
def f_ppf_wrap_check (y : FP) (log : List Report) (calls : List Call) : Outcome FP :=
  if y.lt FP.zero then
    ⟨FP.NAN, sf_error "fdtri" SF_ERROR_NO_RESULT log, calls⟩
  else
    ⟨y, log, calls⟩

/-- Function `f_ppf_wrap` (`fdtri`). -/
def f_ppf_wrap (B : Backend) (dfn dfd x : FP) : Outcome FP :=
  if x.isnan || dfn.isnan || dfd.isnan then
    ⟨FP.NAN, [], []⟩
  else if dfn.le FP.zero || dfd.le FP.zero || x.lt FP.zero || x.gt FP.one then
    ⟨FP.NAN, sf_error "fdtri" SF_ERROR_DOMAIN [], []⟩
  else
    match B.quantile SpecialPolicy (.fisher_f_distribution dfn dfd) x with
    | .ok y => f_ppf_wrap_check y [] [⟨"quantile fisher_f_distribution", [dfn, dfd, x]⟩]
    | .error .domain_error =>
      f_ppf_wrap_check FP.NAN (sf_error "fdtri" SF_ERROR_DOMAIN [])
        [⟨"quantile fisher_f_distribution", [dfn, dfd, x]⟩]
    | .error .overflow_error =>
      f_ppf_wrap_check FP.INFINITY (sf_error "fdtri" SF_ERROR_OVERFLOW [])
        [⟨"quantile fisher_f_distribution", [dfn, dfd, x]⟩]
    | .error .underflow_error =>
      f_ppf_wrap_check FP.zero (sf_error "fdtri" SF_ERROR_UNDERFLOW [])
        [⟨"quantile fisher_f_distribution", [dfn, dfd, x]⟩]
    | .error .other =>
      f_ppf_wrap_check FP.NAN (sf_error "fdtri" SF_ERROR_NO_RESULT [])
        [⟨"quantile fisher_f_distribution", [dfn, dfd, x]⟩]

/-- Function `f_sf_wrap` (`fdtrc`). -/
def f_sf_wrap (B : Backend) (dfn dfd x : FP) : Outcome FP :=
  if x.isnan || dfn.isnan || dfd.isnan then
    ⟨FP.NAN, [], []⟩
  else if dfn.le FP.zero || dfd.le FP.zero || x.lt FP.zero then
    ⟨FP.NAN, sf_error "fdtrc" SF_ERROR_DOMAIN [], []⟩
  else if x.isinf then
    ⟨FP.zero, [], []⟩
  else
    match B.cdf_complement SpecialPolicy (.fisher_f_distribution dfn dfd) x with
    | .ok y => cdf_range_check "fdtrc" y []
      [⟨"cdf_complement fisher_f_distribution", [dfn, dfd, x]⟩]
    | .error _ =>
      cdf_range_check "fdtrc" FP.NAN (sf_error "fdtrc" SF_ERROR_NO_RESULT [])
        [⟨"cdf_complement fisher_f_distribution", [dfn, dfd, x]⟩]

/-! ## Properties of outcomes -/

/-- The outcome of a silent NaN: the value is NaN, nothing is reported to the
sink and no backend routine is invoked. -/
def SilentNaN (o : Outcome FP) : Prop :=
  o.value.isnan = true ∧ o.reports = [] ∧ o.calls = []

/-- The outcome of a rejection by the domain check of the operation
`func_name`: the value is NaN, `SF_ERROR_DOMAIN` is reported once under that
name and no backend routine is invoked. -/
def DomainRejected (func_name : String) (o : Outcome FP) : Prop :=
  o.value.isnan = true ∧ o.reports = [⟨func_name, SF_ERROR_DOMAIN⟩] ∧ o.calls = []

/-- The arguments for which `hyp1f1` is computed by the generalized series:
`b <= 0` is a whole number or `-Inf`, `b != 0` and `a == b`; or `a < 0` is a
whole number or `-Inf`, `b > 0` and `b == x`. -/
def hyp1f1_routed (a b x : FP) : Prop :=
  (b.le FP.zero = true ∧ (b.isInteger = true ∨ b = FP.inf true) ∧ b.eq FP.zero = false ∧
    a.eq b = true) ∨
  (a.lt FP.zero = true ∧ (a.isInteger = true ∨ a = FP.inf true) ∧ b.gt FP.zero = true ∧
    b.eq x = true)

/-- A value that is NaN or lies in the interval `[0, 1]`. -/
def UnitOrNaN (v : FP) : Prop :=
  v.isnan = true ∨ (FP.zero.le v = true ∧ v.le FP.one = true)

/-- The outcome `o` consists of the value `v` and of exactly one report, of
kind `code` under the name `func_name`. -/
def ReportsOnce (func_name : String) (code : sf_error_t) (v : FP) (o : Outcome FP) : Prop :=
  o.value = v ∧ o.reports = [⟨func_name, code⟩]

/-- The outcome `o` passes the backend result `r` through: its value is `r`,
unchanged, and nothing is reported to the sink. -/
def PassesThrough (r : Res) (o : Outcome Res) : Prop :=
  o.value = r ∧ o.reports = []

/-- The `try` block with the four `catch` clauses `domain_error`,
`overflow_error`, `underflow_error` and `...` that most wrappers share: the
outcome for the result `r` of the backend call `c`, for the operation reported
as `func_name`, whose value after a domain error is `domain_value` and whose
report after any other exception is `other_code`. -/
def catch_clauses (func_name : String) (domain_value : FP) (other_code : sf_error_t)
    (r : Res) (c : Call) : Outcome FP :=
  match r with
  | .ok y => ⟨y, [], [c]⟩
  | .error .domain_error => ⟨domain_value, [⟨func_name, SF_ERROR_DOMAIN⟩], [c]⟩
  | .error .overflow_error => ⟨FP.INFINITY, [⟨func_name, SF_ERROR_OVERFLOW⟩], [c]⟩
  | .error .underflow_error => ⟨FP.zero, [⟨func_name, SF_ERROR_UNDERFLOW⟩], [c]⟩
  | .error .other => ⟨FP.NAN, [⟨func_name, other_code⟩], [c]⟩

/-- The rows of the failure translation table for the backend result `r` and
the outcome `o` of the operation `func_name`: an overflow gives `+Inf` and one
`SF_ERROR_OVERFLOW` report, an underflow `0` and one `SF_ERROR_UNDERFLOW`
report, any exception other than these and a domain error NaN and one report
of kind `other_code`. -/
def FailureRows (func_name : String) (other_code : sf_error_t) (r : Res) (o : Outcome FP) :
    Prop :=
  (r = .error .overflow_error → ReportsOnce func_name SF_ERROR_OVERFLOW FP.INFINITY o) ∧
  (r = .error .underflow_error → ReportsOnce func_name SF_ERROR_UNDERFLOW FP.zero o) ∧
  (r = .error .other → ReportsOnce func_name other_code FP.NAN o)

/-- The outcome `o` returns a value `y` of the backend result `r` as it is,
with no report. -/
def ValuePassed (r : Res) (o : Outcome FP) : Prop :=
  ∀ y, r = .ok y → o.value = y ∧ o.reports = []

/-- A sentinel value: NaN, `+Inf`, `-Inf` or the literal `0`. -/
def Sentinel (v : FP) : Prop :=
  v.isnan = true ∨ v.isinf = true ∨ v = FP.zero

/-- The outcome `o` makes no report, or it makes exactly one report and its
value is a sentinel. -/
def Disciplined (o : Outcome FP) : Prop :=
  o.reports = [] ∨ (o.reports.length = 1 ∧ Sentinel o.value)

/-- The outcomes, at the arguments `a`, `b`, `c`, `d`, of the operations of the
layer that report to the sink: the wrappers with a domain check or a `try`
block. -/
def caught_outcomes (B : Backend) (pol : Policy) (a b c d : FP) : List (Outcome FP) :=
  [ibeta_wrap B a b c, ibetac_wrap B a b c, ibeta_inv_wrap B a b c pol, ibeta_inv B a b c,
   ibeta_inva_wrap B a b c, ibeta_invb_wrap B a b c, ibetac_inv_wrap B a b c,
   erfinv_wrap B a, powm1_wrap B a b, hyp1f1_wrap B a b c, beta_ppf_wrap B a b c,
   ncx2_pdf_wrap B a b c, ncf_cdf_wrap B a b c d, ncf_ppf_wrap B a b c d,
   nct_cdf_wrap B a b c, nct_ppf_wrap B a b c, f_cdf_wrap B a b c, f_ppf_wrap B a b c,
   f_sf_wrap B a b c]

/-- The outcomes, at the arguments `a`, `b`, `c`, `d`, of the operations of the
distribution facade that have no `try` block and no call of `sf_error`. -/
def facade_outcomes (B : Backend) (a b c d : FP) : List (Outcome Res) :=
  [beta_pdf_wrap B a b c, invgauss_ppf_wrap B a b c, invgauss_isf_wrap B a b c,
   cauchy_ppf_wrap B a b c, cauchy_isf_wrap B a b c,
   ncx2_cdf_wrap B a b c, ncx2_ppf_wrap B a b c, ncx2_sf_wrap B a b c, ncx2_isf_wrap B a b c,
   ncf_pdf_wrap B a b c d, ncf_sf_wrap B a b c d, ncf_isf_wrap B a b c d,
   ncf_mean B a b c, ncf_variance B a b c, ncf_skewness B a b c, ncf_kurtosis_excess B a b c,
   nct_pdf_wrap B a b c, nct_sf_wrap B a b c, nct_isf_wrap B a b c,
   nct_mean B a b, nct_variance B a b, nct_skewness B a b, nct_kurtosis_excess B a b,
   skewnorm_cdf_wrap B a b c d, skewnorm_ppf_wrap B a b c d, skewnorm_isf_wrap B a b c d,
   binom_pmf_wrap B a b c, binom_cdf_wrap B a b c, binom_ppf_wrap B a b c,
   binom_sf_wrap B a b c, binom_isf_wrap B a b c,
   nbinom_pmf_wrap B a b c, nbinom_cdf_wrap B a b c, nbinom_ppf_wrap B a b c,
   nbinom_sf_wrap B a b c, nbinom_isf_wrap B a b c,
   nbinom_mean B a b, nbinom_variance B a b, nbinom_skewness B a b,
   nbinom_kurtosis_excess B a b,
   hypergeom_pmf_wrap B a b c d, hypergeom_cdf_wrap B a b c d, hypergeom_sf_wrap B a b c d,
   hypergeom_mean B a b c, hypergeom_variance B a b c, hypergeom_skewness B a b c,
   landau_pdf_wrap B a b c, landau_cdf_wrap B a b c, landau_sf_wrap B a b c,
   landau_ppf_wrap B a b c, landau_isf_wrap B a b c]

/-- A finite value that is an even whole number: `m / 2^e` with `2^(e+1)`
dividing `m`. -/
def FP.isEven : FP → Bool
  | .fin _ m e => decide (m % 2 ^ (e + 1) = 0)
  | _ => false

/-! ## Order facts on floating-point values -/

namespace FP

theorem isnan_false_of_lt_left {a b : FP} (h : a.lt b = true) : a.isnan = false := by
  cases a <;> cases b <;> simp_all [FP.lt, FP.isnan]

theorem isnan_false_of_lt_right {a b : FP} (h : a.lt b = true) : b.isnan = false := by
  cases a <;> cases b <;> simp_all [FP.lt, FP.isnan]

theorem isnan_false_of_eq_left {a b : FP} (h : a.eq b = true) : a.isnan = false := by
  cases a <;> cases b <;> simp_all [FP.eq, FP.isnan]

theorem isnan_false_of_eq_right {a b : FP} (h : a.eq b = true) : b.isnan = false := by
  cases a <;> cases b <;> simp_all [FP.eq, FP.isnan]

theorem isnan_false_of_le_left {a b : FP} (h : a.le b = true) : a.isnan = false := by
  cases a <;> cases b <;> simp_all [FP.le, FP.lt, FP.eq, FP.isnan]

theorem isnan_false_of_le_right {a b : FP} (h : a.le b = true) : b.isnan = false := by
  cases a <;> cases b <;> simp_all [FP.le, FP.lt, FP.eq, FP.isnan]

theorem eq_symm (a b : FP) : a.eq b = b.eq a := by
  cases a <;> cases b <;> simp [FP.eq, eq_comm]

theorem lt_false_of_lt {a b : FP} (h : a.lt b = true) : b.lt a = false := by
  cases a <;> cases b <;> simp_all [FP.lt]
  omega

theorem eq_false_of_lt {a b : FP} (h : a.lt b = true) : a.eq b = false := by
  cases a <;> cases b <;> simp_all [FP.lt, FP.eq]
  omega

theorem lt_false_of_eq {a b : FP} (h : a.eq b = true) : a.lt b = false := by
  cases a <;> cases b <;> simp_all [FP.lt, FP.eq]

theorem lt_false_of_le {a b : FP} (h : a.le b = true) : b.lt a = false := by
  rcases Bool.or_eq_true _ _ ▸ h with h | h
  · exact lt_false_of_lt h
  · exact lt_false_of_eq (eq_symm a b ▸ h)

theorem lt_or_eq_or_gt {a b : FP} (ha : a.isnan = false) (hb : b.isnan = false) :
    a.lt b = true ∨ a.eq b = true ∨ b.lt a = true := by
  cases a <;> cases b <;> simp_all [FP.lt, FP.eq, FP.isnan]
  · rename_i n m; cases n <;> cases m <;> simp
  · omega

theorem isinf_false_of_eq_fin {a : FP} {n : Bool} {m e : ℕ} (h : a.eq (fin n m e) = true) :
    a.isinf = false := by
  cases a <;> simp_all [FP.eq, FP.isinf]

theorem zero_lt_one : zero.lt one = true := by decide

theorem isnan_NAN : NAN.isnan = true := rfl

theorem eq_one_false_of_eq_zero {a : FP} (h : a.eq zero = true) : a.eq one = false := by
  cases a with
  | nan s => rfl
  | inf n => rfl
  | fin n m e =>
    have h2 : (0 : ℤ) < 2 ^ e := by positivity
    simp only [FP.eq, zero, one, num, decide_eq_true_eq, decide_eq_false_iff_not] at h ⊢
    cases n <;> simp at h ⊢ <;> omega

theorem eq_one_false_of_lt_zero {a : FP} (h : a.lt zero = true) : a.eq one = false := by
  cases a with
  | nan s => rfl
  | inf n => rfl
  | fin n m e =>
    have h2 : (0 : ℤ) < 2 ^ e := by positivity
    simp only [FP.lt, FP.eq, zero, one, num, decide_eq_true_eq, decide_eq_false_iff_not] at h ⊢
    cases n <;> simp at h ⊢ <;> omega

theorem isInteger_of_eq_zero {y : FP} (h : y.eq zero = true) : y.isInteger = true := by
  cases y <;> simp_all [FP.eq, zero, isInteger, num]
  split_ifs at h <;> simp_all

theorem isinf_false_of_isfinite {y : FP} (h : y.isfinite = true) : y.isinf = false := by
  cases y <;> simp_all [isfinite, isinf]

theorem isnan_false_of_isfinite {y : FP} (h : y.isfinite = true) : y.isnan = false := by
  cases y <;> simp_all [isfinite, isnan]

theorem le_of_lt {a b : FP} (h : a.lt b = true) : a.le b = true := by
  simp [FP.le, h]

theorem le_false_of_lt {a b : FP} (h : a.lt b = true) : b.le a = false := by
  simp [FP.le, lt_false_of_lt h, eq_symm b a, eq_false_of_lt h]

theorem div_mul_pow_eq_iff (m e : ℕ) : m / 2 ^ e * 2 ^ e = m ↔ m % 2 ^ e = 0 := by
  have hdm := Nat.div_add_mod m (2 ^ e)
  rw [Nat.mul_comm] at hdm
  omega

/-- The test `std::trunc(y) == y` of the source holds exactly for the whole
numbers and the two infinities. -/
theorem trunc_eq_iff (y : FP) :
    (trunc y).eq y = true ↔ (y.isInteger = true ∨ y.isinf = true) := by
  cases y with
  | nan s => simp [trunc, FP.eq, isInteger, isinf]
  | inf n => simp [trunc, FP.eq, isInteger, isinf]
  | fin n m e =>
    have key := div_mul_pow_eq_iff m e
    have hc : ((m / 2 ^ e * 2 ^ e : ℕ) : ℤ) = ((m / 2 ^ e : ℕ) : ℤ) * 2 ^ e := by push_cast; rfl
    cases n
    · simp only [trunc, FP.eq, isInteger, isinf, num, decide_eq_true_eq, pow_zero, mul_one,
        or_false, Bool.false_eq_true, if_false]
      rw [← key, ← hc]
      exact Int.ofNat_inj
    · simp only [trunc, FP.eq, isInteger, isinf, num, decide_eq_true_eq, pow_zero, mul_one,
        or_false, Bool.false_eq_true, if_true, neg_mul, neg_inj]
      rw [← key, ← hc]
      exact Int.ofNat_inj

theorem trunc_eq_iff_of_le_zero {b : FP} (h : b.le zero = true) :
    (trunc b).eq b = true ↔ (b.isInteger = true ∨ b = inf true) := by
  rw [trunc_eq_iff]
  cases b with
  | nan s => simp [isinf, isInteger]
  | inf n =>
    cases n
    · simp [FP.le, FP.lt, FP.eq, zero] at h
    · simp [isinf]
  | fin n m e => simp [isinf]

end FP

/-! ## NaN guards -/

theorem silentNaN_NAN : SilentNaN ⟨FP.NAN, [], []⟩ := ⟨rfl, rfl, rfl⟩

theorem ibeta_wrap_nan (B : Backend) (a b x : FP)
    (h : a.isnan = true ∨ b.isnan = true ∨ x.isnan = true) :
    ibeta_wrap B a b x = ⟨FP.NAN, [], []⟩ := by
  rcases h with h | h | h <;> simp [ibeta_wrap, h]

theorem ibetac_wrap_nan (B : Backend) (a b x : FP)
    (h : a.isnan = true ∨ b.isnan = true ∨ x.isnan = true) :
    ibetac_wrap B a b x = ⟨FP.NAN, [], []⟩ := by
  rcases h with h | h | h <;> simp [ibetac_wrap, h]

theorem ibeta_inv_wrap_nan (B : Backend) (a b x : FP) (pol : Policy)
    (h : a.isnan = true ∨ b.isnan = true ∨ x.isnan = true) :
    ibeta_inv_wrap B a b x pol = ⟨FP.NAN, [], []⟩ := by
  rcases h with h | h | h <;> simp [ibeta_inv_wrap, h]

theorem ibeta_inva_wrap_nan (B : Backend) (a b x : FP)
    (h : a.isnan = true ∨ b.isnan = true ∨ x.isnan = true) :
    ibeta_inva_wrap B a b x = ⟨FP.NAN, [], []⟩ := by
  rcases h with h | h | h <;> simp [ibeta_inva_wrap, h]

theorem ibeta_invb_wrap_nan (B : Backend) (a b x : FP)
    (h : a.isnan = true ∨ b.isnan = true ∨ x.isnan = true) :
    ibeta_invb_wrap B a b x = ⟨FP.NAN, [], []⟩ := by
  rcases h with h | h | h <;> simp [ibeta_invb_wrap, h]

theorem ibetac_inv_wrap_nan (B : Backend) (a b x : FP)
    (h : a.isnan = true ∨ b.isnan = true ∨ x.isnan = true) :
    ibetac_inv_wrap B a b x = ⟨FP.NAN, [], []⟩ := by
  rcases h with h | h | h <;> simp [ibetac_inv_wrap, h]

theorem hyp1f1_wrap_nan (B : Backend) (a b x : FP)
    (h : a.isnan = true ∨ b.isnan = true ∨ x.isnan = true) :
    hyp1f1_wrap B a b x = ⟨FP.NAN, [], []⟩ := by
  rcases h with h | h | h <;> simp [hyp1f1_wrap, h]

theorem nct_cdf_wrap_nan (B : Backend) (a b x : FP)
    (h : a.isnan = true ∨ b.isnan = true ∨ x.isnan = true) :
    nct_cdf_wrap B a b x = ⟨FP.NAN, [], []⟩ := by
  rcases h with h | h | h <;> simp [nct_cdf_wrap, h]

theorem nct_ppf_wrap_nan (B : Backend) (a b x : FP)
    (h : a.isnan = true ∨ b.isnan = true ∨ x.isnan = true) :
    nct_ppf_wrap B a b x = ⟨FP.NAN, [], []⟩ := by
  rcases h with h | h | h <;> simp [nct_ppf_wrap, h]

theorem f_cdf_wrap_nan (B : Backend) (a b x : FP)
    (h : a.isnan = true ∨ b.isnan = true ∨ x.isnan = true) :
    f_cdf_wrap B a b x = ⟨FP.NAN, [], []⟩ := by
  rcases h with h | h | h <;> simp [f_cdf_wrap, h]

theorem f_ppf_wrap_nan (B : Backend) (a b x : FP)
    (h : a.isnan = true ∨ b.isnan = true ∨ x.isnan = true) :
    f_ppf_wrap B a b x = ⟨FP.NAN, [], []⟩ := by
  rcases h with h | h | h <;> simp [f_ppf_wrap, h]

theorem f_sf_wrap_nan (B : Backend) (a b x : FP)
    (h : a.isnan = true ∨ b.isnan = true ∨ x.isnan = true) :
    f_sf_wrap B a b x = ⟨FP.NAN, [], []⟩ := by
  rcases h with h | h | h <;> simp [f_sf_wrap, h]

theorem ncf_cdf_wrap_nan (B : Backend) (v1 v2 l x : FP)
    (h : v1.isnan = true ∨ v2.isnan = true ∨ l.isnan = true ∨ x.isnan = true) :
    ncf_cdf_wrap B v1 v2 l x = ⟨FP.NAN, [], []⟩ := by
  rcases h with h | h | h | h <;> simp [ncf_cdf_wrap, h]

theorem ncf_ppf_wrap_nan (B : Backend) (v1 v2 l x : FP)
    (h : v1.isnan = true ∨ v2.isnan = true ∨ l.isnan = true ∨ x.isnan = true) :
    ncf_ppf_wrap B v1 v2 l x = ⟨FP.NAN, [], []⟩ := by
  rcases h with h | h | h | h <;> simp [ncf_ppf_wrap, h]

theorem SilentNaN.of_eq {o : Outcome FP} (h : o = ⟨FP.NAN, [], []⟩) : SilentNaN o :=
  h ▸ silentNaN_NAN

theorem FP.eq_false_of_isnan_left {a : FP} (b : FP) (h : a.isnan = true) :
    a.eq b = false := by
  cases a <;> cases b <;> first | rfl | cases h

theorem FP.lt_false_of_isnan_left {a : FP} (b : FP) (h : a.isnan = true) :
    a.lt b = false := by
  cases a <;> cases b <;> first | rfl | cases h

theorem FP.lt_false_of_isnan_right (a : FP) {b : FP} (h : b.isnan = true) :
    a.lt b = false := by
  cases a <;> cases b <;> first | rfl | cases h

theorem powm1_try_calls (B : Backend) (x y : FP) :
    (powm1_try B x y).calls = [⟨"powm1", [x, y]⟩] := by
  unfold powm1_try
  split <;> rfl

theorem powm1_wrap_nan_reaches_backend (B : Backend) (x y : FP)
    (h : x.isnan = true ∨ y.isnan = true) (hy : y.eq FP.zero = false)
    (hx : x.eq FP.one = false) (hn : x.lt FP.zero = false) :
    powm1_wrap B x y = powm1_try B x y := by
  have h1 : (x.eq FP.zero && y.lt FP.zero) = false := by
    rcases h with h | h
    · rw [FP.eq_false_of_isnan_left _ h]; rfl
    · rw [FP.lt_false_of_isnan_left _ h]; exact Bool.and_false _
  have h2 : (x.eq FP.zero && y.gt FP.zero) = false := by
    rcases h with h | h
    · rw [FP.eq_false_of_isnan_left _ h]; rfl
    · have e : y.gt FP.zero = false := FP.lt_false_of_isnan_right _ h
      rw [e]; exact Bool.and_false _
  unfold powm1_wrap
  simp only [hy, hx, hn, h1, h2, Bool.or_self, Bool.false_and, Bool.false_eq_true, if_false]

theorem erfinv_wrap_nan (B : Backend) (s : Bool) :
    erfinv_wrap B (FP.nan s) = catch_clauses "erfinv" FP.NAN SF_ERROR_OTHER
      (B.erf_inv SpecialPolicy (FP.nan s)) ⟨"erf_inv", [FP.nan s]⟩ := by
  unfold erfinv_wrap catch_clauses
  rcases B.erf_inv SpecialPolicy (FP.nan s) with (_ | _ | _ | _) | y <;> rfl

theorem catch_clauses_calls_eq (func_name : String) (domain_value : FP)
    (other_code : sf_error_t) (r : Res) (c : Call) :
    (catch_clauses func_name domain_value other_code r c).calls = [c] := by
  unfold catch_clauses
  split <;> rfl

/-! ## C1: propagation of NaN arguments -/

/-- C1 fails at `powm1(NaN, 0)`: the first argument is NaN and the value
returned is `0`, which is not NaN. -/
theorem powm1_nan_base_zero_exponent :
    (FP.nan false).isnan = true ∧
    (powm1_wrap (Backend.const (.ok FP.NAN)) (FP.nan false) FP.zero).value = FP.zero ∧
    (powm1_wrap (Backend.const (.ok FP.NAN)) (FP.nan false) FP.zero).value.isnan = false := by
  decide

/-- C1, amended. (1) For `betainc`, `betaincc`, `betaincinv`, `betainccinv`,
`btdtria`, `btdtrib`, `hyp1f1`, `nctdtr`, `nctdtrit`, `fdtr`, `fdtri`, `fdtrc`,
the Beta quantile `beta_ppf` and, with a fourth argument, `ncfdtr` and
`ncfdtri`, one NaN argument gives NaN with no report and no backend call.
(2) The density and mass operations, `binom_cdf` and the Landau operations
return NaN, with no report and no backend call, when their first argument is
NaN.  (3) `powm1(x, y)` returns `0`, not NaN, when `y == 0` or `x == 1`, also
if the other argument is NaN.  (4) `erfinv` has no NaN check: a NaN argument is
passed to the backend routine `erf_inv`, once, and the outcome is that of the
`try` block.  (5) `powm1(x, y)` with a NaN argument, when neither `y == 0` nor
`x == 1` nor `x < 0` holds, passes its arguments to the backend routine
`powm1`, once, and the outcome is that of the `try` block.  (6) The facade
operations without any guard (`invgauss_ppf`, `invgauss_isf`, `cauchy_ppf`,
`cauchy_isf`, `ncx2_ppf`, `ncx2_sf`, `ncx2_isf`, `ncf_sf`, `ncf_isf`, `nct_sf`,
`nct_isf`, `skewnorm_ppf`, `skewnorm_isf`, `binom_ppf`, `binom_sf`, `binom_isf`,
`nbinom_ppf`, `nbinom_sf`, `nbinom_isf`, `hypergeom_sf` and the moments of the
negative binomial and hypergeometric distributions) pass every argument tuple,
NaN included, to the backend, once, and return its result with no report. -/
theorem nan_propagation_where_checked (B : Backend) (a b x : FP)
    (h : a.isnan = true ∨ b.isnan = true ∨ x.isnan = true) :
    (SilentNaN (ibeta_wrap B a b x) ∧ SilentNaN (ibetac_wrap B a b x) ∧
      SilentNaN (ibeta_inv_wrap B a b x SpecialPolicy) ∧ SilentNaN (ibetac_inv_wrap B a b x) ∧
      SilentNaN (ibeta_inva_wrap B a b x) ∧ SilentNaN (ibeta_invb_wrap B a b x) ∧
      SilentNaN (hyp1f1_wrap B a b x) ∧
      SilentNaN (nct_cdf_wrap B a b x) ∧ SilentNaN (nct_ppf_wrap B a b x) ∧
      SilentNaN (f_cdf_wrap B a b x) ∧ SilentNaN (f_ppf_wrap B a b x) ∧
      SilentNaN (f_sf_wrap B a b x) ∧ SilentNaN (beta_ppf_wrap B a b x) ∧
      (∀ l, SilentNaN (ncf_cdf_wrap B a b l x) ∧ SilentNaN (ncf_ppf_wrap B a b l x)) ∧
      (∀ s v1 v2 x', SilentNaN (ncf_cdf_wrap B v1 v2 (FP.nan s) x') ∧
        SilentNaN (ncf_ppf_wrap B v1 v2 (FP.nan s) x'))) ∧
    (∀ s p q r,
      beta_pdf_wrap B (FP.nan s) p q = ⟨.ok FP.NAN, [], []⟩ ∧
      ncx2_pdf_wrap B (FP.nan s) p q = ⟨FP.NAN, [], []⟩ ∧
      ncf_pdf_wrap B (FP.nan s) p q r = ⟨.ok FP.NAN, [], []⟩ ∧
      nct_pdf_wrap B (FP.nan s) p q = ⟨.ok FP.NAN, [], []⟩ ∧
      binom_pmf_wrap B (FP.nan s) p q = ⟨.ok FP.NAN, [], []⟩ ∧
      binom_cdf_wrap B (FP.nan s) p q = ⟨.ok FP.NAN, [], []⟩ ∧
      nbinom_pmf_wrap B (FP.nan s) p q = ⟨.ok FP.NAN, [], []⟩ ∧
      hypergeom_pmf_wrap B (FP.nan s) p q r = ⟨.ok FP.NAN, [], []⟩ ∧
      landau_pdf_wrap B (FP.nan s) p q = ⟨.ok FP.NAN, [], []⟩ ∧
      landau_cdf_wrap B (FP.nan s) p q = ⟨.ok FP.NAN, [], []⟩ ∧
      landau_sf_wrap B (FP.nan s) p q = ⟨.ok FP.NAN, [], []⟩ ∧
      landau_ppf_wrap B (FP.nan s) p q = ⟨.ok FP.NAN, [], []⟩ ∧
      landau_isf_wrap B (FP.nan s) p q = ⟨.ok FP.NAN, [], []⟩) ∧
    (∀ u v, (v.eq FP.zero = true ∨ u.eq FP.one = true) →
      powm1_wrap B u v = ⟨FP.zero, [], []⟩) ∧
    (∀ s, (erfinv_wrap B (FP.nan s)).calls = [⟨"erf_inv", [FP.nan s]⟩] ∧
      erfinv_wrap B (FP.nan s) = catch_clauses "erfinv" FP.NAN SF_ERROR_OTHER
        (B.erf_inv SpecialPolicy (FP.nan s)) ⟨"erf_inv", [FP.nan s]⟩) ∧
    (∀ u v, (u.isnan = true ∨ v.isnan = true) → v.eq FP.zero = false →
      u.eq FP.one = false → u.lt FP.zero = false →
      (powm1_wrap B u v).calls = [⟨"powm1", [u, v]⟩] ∧
      powm1_wrap B u v = powm1_try B u v) ∧
    (∀ p q r t,
      invgauss_ppf_wrap B p q r =
        ⟨B.quantile StatsPolicy (.inverse_gaussian_distribution q r) p, [],
          [⟨"quantile inverse_gaussian_distribution", [q, r, p]⟩]⟩ ∧
      invgauss_isf_wrap B p q r =
        ⟨B.quantile_complement StatsPolicy (.inverse_gaussian_distribution q r) p, [],
          [⟨"quantile_complement inverse_gaussian_distribution", [q, r, p]⟩]⟩ ∧
      cauchy_ppf_wrap B p q r =
        ⟨B.quantile StatsPolicy (.cauchy_distribution q r) p, [],
          [⟨"quantile cauchy_distribution", [q, r, p]⟩]⟩ ∧
      cauchy_isf_wrap B p q r =
        ⟨B.quantile_complement StatsPolicy (.cauchy_distribution q r) p, [],
          [⟨"quantile_complement cauchy_distribution", [q, r, p]⟩]⟩ ∧
      ncx2_ppf_wrap B p q r =
        ⟨B.quantile StatsPolicy (.non_central_chi_squared_distribution q r) p, [],
          [⟨"quantile non_central_chi_squared_distribution", [q, r, p]⟩]⟩ ∧
      ncx2_sf_wrap B p q r =
        ⟨B.cdf_complement StatsPolicy (.non_central_chi_squared_distribution q r) p, [],
          [⟨"cdf_complement non_central_chi_squared_distribution", [q, r, p]⟩]⟩ ∧
      ncx2_isf_wrap B p q r =
        ⟨B.quantile_complement StatsPolicy (.non_central_chi_squared_distribution q r) p, [],
          [⟨"quantile_complement non_central_chi_squared_distribution", [q, r, p]⟩]⟩ ∧
      ncf_sf_wrap B p q r t =
        ⟨B.cdf_complement StatsPolicy (.non_central_f_distribution q r t) p, [],
          [⟨"cdf_complement non_central_f_distribution", [q, r, t, p]⟩]⟩ ∧
      ncf_isf_wrap B p q r t =
        ⟨B.quantile_complement StatsPolicy (.non_central_f_distribution q r t) p, [],
          [⟨"quantile_complement non_central_f_distribution", [q, r, t, p]⟩]⟩ ∧
      nct_sf_wrap B p q r =
        ⟨B.cdf_complement StatsPolicy (.non_central_t_distribution q r) p, [],
          [⟨"cdf_complement non_central_t_distribution", [q, r, p]⟩]⟩ ∧
      nct_isf_wrap B p q r =
        ⟨B.quantile_complement StatsPolicy (.non_central_t_distribution q r) p, [],
          [⟨"quantile_complement non_central_t_distribution", [q, r, p]⟩]⟩ ∧
      skewnorm_ppf_wrap B p q r t =
        ⟨B.quantile StatsPolicy (.skew_normal_distribution q r t) p, [],
          [⟨"quantile skew_normal_distribution", [q, r, t, p]⟩]⟩ ∧
      skewnorm_isf_wrap B p q r t =
        ⟨B.quantile_complement StatsPolicy (.skew_normal_distribution q r t) p, [],
          [⟨"quantile_complement skew_normal_distribution", [q, r, t, p]⟩]⟩ ∧
      binom_ppf_wrap B p q r =
        ⟨B.quantile StatsPolicy (.binomial_distribution q r) p, [],
          [⟨"quantile binomial_distribution", [q, r, p]⟩]⟩ ∧
      binom_sf_wrap B p q r =
        ⟨B.cdf_complement StatsPolicy (.binomial_distribution q r) p, [],
          [⟨"cdf_complement binomial_distribution", [q, r, p]⟩]⟩ ∧
      binom_isf_wrap B p q r =
        ⟨B.quantile_complement StatsPolicy (.binomial_distribution q r) p, [],
          [⟨"quantile_complement binomial_distribution", [q, r, p]⟩]⟩ ∧
      nbinom_ppf_wrap B p q r =
        ⟨B.quantile StatsPolicy (.negative_binomial_distribution q r) p, [],
          [⟨"quantile negative_binomial_distribution", [q, r, p]⟩]⟩ ∧
      nbinom_sf_wrap B p q r =
        ⟨B.cdf_complement StatsPolicy (.negative_binomial_distribution q r) p, [],
          [⟨"cdf_complement negative_binomial_distribution", [q, r, p]⟩]⟩ ∧
      nbinom_isf_wrap B p q r =
        ⟨B.quantile_complement StatsPolicy (.negative_binomial_distribution q r) p, [],
          [⟨"quantile_complement negative_binomial_distribution", [q, r, p]⟩]⟩ ∧
      hypergeom_sf_wrap B p q r t =
        ⟨B.cdf_complement StatsPolicy (.hypergeometric_distribution q r t) p, [],
          [⟨"cdf_complement hypergeometric_distribution", [q, r, t, p]⟩]⟩ ∧
      nbinom_mean B p q =
        ⟨B.mean StatsPolicy (.negative_binomial_distribution p q), [],
          [⟨"mean negative_binomial_distribution", [p, q]⟩]⟩ ∧
      nbinom_variance B p q =
        ⟨B.variance StatsPolicy (.negative_binomial_distribution p q), [],
          [⟨"variance negative_binomial_distribution", [p, q]⟩]⟩ ∧
      nbinom_skewness B p q =
        ⟨B.skewness StatsPolicy (.negative_binomial_distribution p q), [],
          [⟨"skewness negative_binomial_distribution", [p, q]⟩]⟩ ∧
      nbinom_kurtosis_excess B p q =
        ⟨B.kurtosis_excess StatsPolicy (.negative_binomial_distribution p q), [],
          [⟨"kurtosis_excess negative_binomial_distribution", [p, q]⟩]⟩ ∧
      hypergeom_mean B p q r =
        ⟨B.mean StatsPolicy (.hypergeometric_distribution p q r), [],
          [⟨"mean hypergeometric_distribution", [p, q, r]⟩]⟩ ∧
      hypergeom_variance B p q r =
        ⟨B.variance StatsPolicy (.hypergeometric_distribution p q r), [],
          [⟨"variance hypergeometric_distribution", [p, q, r]⟩]⟩ ∧
      hypergeom_skewness B p q r =
        ⟨B.skewness StatsPolicy (.hypergeometric_distribution p q r), [],
          [⟨"skewness hypergeometric_distribution", [p, q, r]⟩]⟩) := by
  have h4 : ∀ l : FP, a.isnan = true ∨ b.isnan = true ∨ l.isnan = true ∨ x.isnan = true := by
    intro l
    rcases h with h | h | h
    · exact Or.inl h
    · exact Or.inr (Or.inl h)
    · exact Or.inr (Or.inr (Or.inr h))
  have hp : b.isnan = true ∨ x.isnan = true ∨ a.isnan = true := by
    rcases h with h | h | h
    · exact Or.inr (Or.inr h)
    · exact Or.inl h
    · exact Or.inr (Or.inl h)
  refine ⟨⟨.of_eq (ibeta_wrap_nan B a b x h), .of_eq (ibetac_wrap_nan B a b x h),
    .of_eq (ibeta_inv_wrap_nan B a b x _ h), .of_eq (ibetac_inv_wrap_nan B a b x h),
    .of_eq (ibeta_inva_wrap_nan B a b x h), .of_eq (ibeta_invb_wrap_nan B a b x h),
    .of_eq (hyp1f1_wrap_nan B a b x h),
    .of_eq (nct_cdf_wrap_nan B a b x h), .of_eq (nct_ppf_wrap_nan B a b x h),
    .of_eq (f_cdf_wrap_nan B a b x h), .of_eq (f_ppf_wrap_nan B a b x h),
    .of_eq (f_sf_wrap_nan B a b x h), .of_eq (ibeta_inv_wrap_nan B b x a _ hp),
    fun l => ⟨.of_eq (ncf_cdf_wrap_nan B a b l x (h4 l)),
      .of_eq (ncf_ppf_wrap_nan B a b l x (h4 l))⟩,
    fun s v1 v2 x' =>
      ⟨.of_eq (ncf_cdf_wrap_nan B v1 v2 (FP.nan s) x' (Or.inr (Or.inr (Or.inl rfl)))),
       .of_eq (ncf_ppf_wrap_nan B v1 v2 (FP.nan s) x' (Or.inr (Or.inr (Or.inl rfl))))⟩⟩,
    ?_, ?_, ?_, ?_, ?_⟩
  · intro s p q r
    exact ⟨rfl, rfl, rfl, rfl, rfl, rfl, rfl, rfl, rfl, rfl, rfl, rfl, rfl⟩
  · intro u v huv
    rcases huv with h' | h' <;> simp [powm1_wrap, h']
  · intro s
    have e := erfinv_wrap_nan B s
    refine ⟨?_, e⟩
    rw [e, catch_clauses_calls_eq]
  · intro u v huv hv hu hn
    have e := powm1_wrap_nan_reaches_backend B u v huv hv hu hn
    refine ⟨?_, e⟩
    rw [e, powm1_try_calls]
  · intro p q r t
    exact ⟨rfl, rfl, rfl, rfl, rfl, rfl, rfl, rfl, rfl, rfl, rfl, rfl, rfl, rfl, rfl, rfl, rfl,
      rfl, rfl, rfl, rfl, rfl, rfl, rfl, rfl, rfl, rfl⟩

/-- Witness of C1, amended: `betainc(NaN, 1, 1)` is a silent NaN, and
`erfinv(NaN)` and `powm1(NaN, 1)` invoke the backend. -/
theorem nan_propagation_where_checked_witness :
    SilentNaN (ibeta_wrap (Backend.const (.ok FP.one)) (FP.nan true) FP.one FP.one) ∧
    (erfinv_wrap (Backend.const (.ok FP.one)) (FP.nan true)).calls
      = [⟨"erf_inv", [FP.nan true]⟩] ∧
    (powm1_wrap (Backend.const (.ok FP.one)) (FP.nan true) FP.one).calls
      = [⟨"powm1", [FP.nan true, FP.one]⟩] :=
  have w := nan_propagation_where_checked (Backend.const (.ok FP.one)) (FP.nan true) FP.one
    FP.one (Or.inl rfl)
  ⟨w.1.1, (w.2.2.2.1 true).1,
    (w.2.2.2.2.1 (FP.nan true) FP.one (Or.inl rfl) (by decide) (by decide) (by decide)).1⟩

/-! ## C2: the NaN check precedes the domain check -/

/-- C2. For each of `betainc`, `betaincc`, `betaincinv`, `betainccinv`,
`btdtria`, `btdtrib`, `hyp1f1`, `nctdtr`, `nctdtrit`, `fdtr`, `fdtri`, `fdtrc`
and, with the fourth argument `l`, `ncfdtr` and `ncfdtri`: as soon as one
argument is NaN the result is NaN, nothing is reported to the sink and the
backend is not invoked, whatever the other arguments are (values outside the
domain included), so the NaN check precedes the domain check. -/
theorem nan_check_precedes_domain_check (B : Backend) (a b x : FP)
    (h : a.isnan = true ∨ b.isnan = true ∨ x.isnan = true) :
    SilentNaN (ibeta_wrap B a b x) ∧ SilentNaN (ibetac_wrap B a b x) ∧
    SilentNaN (ibeta_inv_wrap B a b x SpecialPolicy) ∧ SilentNaN (ibetac_inv_wrap B a b x) ∧
    SilentNaN (ibeta_inva_wrap B a b x) ∧ SilentNaN (ibeta_invb_wrap B a b x) ∧
    SilentNaN (hyp1f1_wrap B a b x) ∧
    SilentNaN (nct_cdf_wrap B a b x) ∧ SilentNaN (nct_ppf_wrap B a b x) ∧
    SilentNaN (f_cdf_wrap B a b x) ∧ SilentNaN (f_ppf_wrap B a b x) ∧
    SilentNaN (f_sf_wrap B a b x) ∧
    (∀ l, SilentNaN (ncf_cdf_wrap B a b l x) ∧ SilentNaN (ncf_ppf_wrap B a b l x)) ∧
    (∀ s v1 v2 x', SilentNaN (ncf_cdf_wrap B v1 v2 (FP.nan s) x') ∧
      SilentNaN (ncf_ppf_wrap B v1 v2 (FP.nan s) x')) := by
  have h4 : ∀ l : FP, a.isnan = true ∨ b.isnan = true ∨ l.isnan = true ∨ x.isnan = true := by
    intro l
    rcases h with h | h | h
    · exact Or.inl h
    · exact Or.inr (Or.inl h)
    · exact Or.inr (Or.inr (Or.inr h))
  exact ⟨.of_eq (ibeta_wrap_nan B a b x h), .of_eq (ibetac_wrap_nan B a b x h),
    .of_eq (ibeta_inv_wrap_nan B a b x _ h), .of_eq (ibetac_inv_wrap_nan B a b x h),
    .of_eq (ibeta_inva_wrap_nan B a b x h), .of_eq (ibeta_invb_wrap_nan B a b x h),
    .of_eq (hyp1f1_wrap_nan B a b x h),
    .of_eq (nct_cdf_wrap_nan B a b x h), .of_eq (nct_ppf_wrap_nan B a b x h),
    .of_eq (f_cdf_wrap_nan B a b x h), .of_eq (f_ppf_wrap_nan B a b x h),
    .of_eq (f_sf_wrap_nan B a b x h),
    fun l => ⟨.of_eq (ncf_cdf_wrap_nan B a b l x (h4 l)),
      .of_eq (ncf_ppf_wrap_nan B a b l x (h4 l))⟩,
    fun s v1 v2 x' =>
      ⟨.of_eq (ncf_cdf_wrap_nan B v1 v2 (FP.nan s) x' (Or.inr (Or.inr (Or.inl rfl)))),
       .of_eq (ncf_ppf_wrap_nan B v1 v2 (FP.nan s) x' (Or.inr (Or.inr (Or.inl rfl))))⟩⟩

/-- Witness of C2: `betainc(-1, 0, NaN)` and `ncfdtr(-1, 0, 0, NaN)`, whose other
arguments are outside the domain, are silent NaNs. -/
theorem nan_check_precedes_domain_check_witness :
    (FP.ofInt (-1)).lt FP.zero = true ∧
    SilentNaN (ibeta_wrap (Backend.const (.ok FP.one)) (FP.ofInt (-1)) FP.zero (FP.nan false)) ∧
    SilentNaN (ncf_cdf_wrap (Backend.const (.ok FP.one)) (FP.ofInt (-1)) FP.zero FP.zero
      (FP.nan false)) :=
  have w := nan_check_precedes_domain_check (Backend.const (.ok FP.one)) (FP.ofInt (-1)) FP.zero
    (FP.nan false) (Or.inr (Or.inr rfl))
  ⟨by decide, w.1, (w.2.2.2.2.2.2.2.2.2.2.2.2.1 FP.zero).1⟩

/-! ## C3: limiting cases of `betainc` -/

/-- C3. Limiting cases of `betainc` for `a >= 0`, `b >= 0`, `0 <= x <= 1`
(hence no NaN): (1) if `a == 0 && b == 0` or both are infinite, the result is a
silent NaN; (2) otherwise, if `a == 0` or `b` is `+Inf`, it is `1` when `x > 0`
and `0` when `x == 0`; (3) otherwise, if `b == 0` or `a` is `+Inf`, it is `0`
when `x < 1` and `1` when `x == 1`; nothing is reported and the backend is not
invoked.  In particular `betainc(0, b, x)` is `x > 0 ? 1 : 0` for `b > 0` and
`betainc(a, 0, x)` is `x < 1 ? 0 : 1` for `a > 0`. -/
theorem betainc_limiting_cases (B : Backend) (a b x : FP)
    (ha : a.ge FP.zero = true) (hb : b.ge FP.zero = true)
    (hx0 : x.ge FP.zero = true) (hx1 : x.le FP.one = true) :
    (((a.eq FP.zero = true ∧ b.eq FP.zero = true) ∨ (a.isinf = true ∧ b.isinf = true)) →
      SilentNaN (ibeta_wrap B a b x)) ∧
    (¬ ((a.eq FP.zero = true ∧ b.eq FP.zero = true) ∨ (a.isinf = true ∧ b.isinf = true)) →
      (a.eq FP.zero = true ∨ b = FP.INFINITY) →
        (x.gt FP.zero = true → ibeta_wrap B a b x = ⟨FP.one, [], []⟩) ∧
        (x.eq FP.zero = true → ibeta_wrap B a b x = ⟨FP.zero, [], []⟩)) ∧
    (¬ ((a.eq FP.zero = true ∧ b.eq FP.zero = true) ∨ (a.isinf = true ∧ b.isinf = true)) →
      ¬ (a.eq FP.zero = true ∨ b = FP.INFINITY) →
      (b.eq FP.zero = true ∨ a = FP.INFINITY) →
        (x.lt FP.one = true → ibeta_wrap B a b x = ⟨FP.zero, [], []⟩) ∧
        (x.eq FP.one = true → ibeta_wrap B a b x = ⟨FP.one, [], []⟩)) ∧
    (a.eq FP.zero = true → b.gt FP.zero = true →
      ibeta_wrap B a b x = ⟨if x.gt FP.zero then FP.one else FP.zero, [], []⟩) ∧
    (b.eq FP.zero = true → a.gt FP.zero = true →
      ibeta_wrap B a b x = ⟨if x.lt FP.one then FP.zero else FP.one, [], []⟩) := by
  have na : a.isnan = false := FP.isnan_false_of_le_right ha
  have nb : b.isnan = false := FP.isnan_false_of_le_right hb
  have nx : x.isnan = false := FP.isnan_false_of_le_left hx1
  have a0 : a.lt FP.zero = false := FP.lt_false_of_le ha
  have b0 : b.lt FP.zero = false := FP.lt_false_of_le hb
  have x0 : x.lt FP.zero = false := FP.lt_false_of_le hx0
  have x1 : x.gt FP.one = false := FP.lt_false_of_le hx1
  refine ⟨?_, ?_, ?_, ?_, ?_⟩
  · rintro (⟨h1, h2⟩ | ⟨h1, h2⟩) <;>
      simp [ibeta_wrap, SilentNaN, na, nb, nx, a0, b0, x0, x1, h1, h2, FP.NAN, FP.isnan]
  · intro hn h
    have c1 : ((a.eq FP.zero && b.eq FP.zero) || (a.isinf && b.isinf)) = false := by
      simpa using hn
    have c2 : (a.eq FP.zero || b.isinf) = true := by
      rcases h with h | h
      · simp [h]
      · simp [h, FP.INFINITY, FP.isinf]
    constructor
    · intro hx
      simp [ibeta_wrap, na, nb, nx, a0, b0, x0, x1, c1, c2, hx]
    · intro hx
      have hx' : x.gt FP.zero = false := FP.lt_false_of_eq (FP.eq_symm x FP.zero ▸ hx)
      simp [ibeta_wrap, na, nb, nx, a0, b0, x0, x1, c1, c2, hx']
  · intro hn hn2 h
    have c1 : ((a.eq FP.zero && b.eq FP.zero) || (a.isinf && b.isinf)) = false := by
      simpa using hn
    have hb' : b.isinf = false := by
      cases b with
      | nan s => rfl
      | inf n =>
        cases n
        · exact absurd (Or.inr rfl) hn2
        · simp [FP.ge, FP.le, FP.lt, FP.eq, FP.zero] at hb
      | fin n m e => rfl
    have c2 : (a.eq FP.zero || b.isinf) = false := by
      have : a.eq FP.zero = false := by
        cases h' : a.eq FP.zero
        · rfl
        · exact absurd (Or.inl h') hn2
      simp [this, hb']
    have c3 : (b.eq FP.zero || a.isinf) = true := by
      rcases h with h | h
      · simp [h]
      · simp [h, FP.INFINITY, FP.isinf]
    constructor
    · intro hx
      simp [ibeta_wrap, na, nb, nx, a0, b0, x0, x1, c1, c2, c3, hx]
    · intro hx
      have hx' : x.lt FP.one = false := FP.lt_false_of_eq hx
      simp [ibeta_wrap, na, nb, nx, a0, b0, x0, x1, c1, c2, c3, hx']
  · intro h0 hpos
    have hbz : b.eq FP.zero = false := FP.eq_symm FP.zero b ▸ FP.eq_false_of_lt hpos
    have hai : a.isinf = false := FP.isinf_false_of_eq_fin h0
    simp [ibeta_wrap, na, nb, nx, a0, b0, x0, x1, h0, hbz, hai]
  · intro h0 hpos
    have haz : a.eq FP.zero = false := FP.eq_symm FP.zero a ▸ FP.eq_false_of_lt hpos
    have hbi : b.isinf = false := FP.isinf_false_of_eq_fin h0
    simp [ibeta_wrap, na, nb, nx, a0, b0, x0, x1, h0, haz, hbi]

/-- Witness of C3: `betainc(0, 1, 0.5)` is `1`, with no report and no backend
call. -/
theorem betainc_limiting_cases_witness :
    ibeta_wrap (Backend.const (.ok FP.NAN)) FP.zero FP.one (FP.fin false 1 1)
      = ⟨FP.one, [], []⟩ :=
  ((betainc_limiting_cases (Backend.const (.ok FP.NAN)) FP.zero FP.one (FP.fin false 1 1)
    (by decide) (by decide) (by decide) (by decide)).2.1
      (by decide) (Or.inl (by decide))).1 (by decide)

/-! ## C5: domain validation of the incomplete-beta family -/

theorem ibeta_wrap_domainRejected_iff (B : Backend) (a b x : FP) :
    DomainRejected "betainc" (ibeta_wrap B a b x) ↔
      ((a.isnan || b.isnan || x.isnan) = false ∧
        (a.lt FP.zero || b.lt FP.zero || x.lt FP.zero || x.gt FP.one) = true) := by
  unfold ibeta_wrap DomainRejected
  generalize (a.isnan || b.isnan || x.isnan) = c1
  generalize (a.lt FP.zero || b.lt FP.zero || x.lt FP.zero || x.gt FP.one) = c2
  cases c1 <;> cases c2 <;> simp [sf_error, FP.isnan_NAN]
  all_goals split_ifs <;> first | simp | (split <;> simp [sf_error])

theorem ibetac_wrap_domainRejected_iff (B : Backend) (a b x : FP) :
    DomainRejected "betaincc" (ibetac_wrap B a b x) ↔
      ((a.isnan || b.isnan || x.isnan) = false ∧
        (a.lt FP.zero || b.lt FP.zero || x.lt FP.zero || x.gt FP.one) = true) := by
  unfold ibetac_wrap DomainRejected
  generalize (a.isnan || b.isnan || x.isnan) = c1
  generalize (a.lt FP.zero || b.lt FP.zero || x.lt FP.zero || x.gt FP.one) = c2
  cases c1 <;> cases c2 <;> simp [sf_error, FP.isnan_NAN]
  all_goals split_ifs <;> first | simp | (split <;> simp [sf_error])

theorem ibeta_inv_wrap_domainRejected_iff (B : Backend) (a b p : FP) (pol : Policy) :
    DomainRejected "betaincinv" (ibeta_inv_wrap B a b p pol) ↔
      ((a.isnan || b.isnan || p.isnan) = false ∧
        (a.le FP.zero || b.le FP.zero || p.lt FP.zero || p.gt FP.one) = true) := by
  unfold ibeta_inv_wrap DomainRejected
  generalize (a.isnan || b.isnan || p.isnan) = c1
  generalize (a.le FP.zero || b.le FP.zero || p.lt FP.zero || p.gt FP.one) = c2
  cases c1 <;> cases c2 <;> simp [sf_error, FP.isnan_NAN]
  all_goals split <;> simp [sf_error]

theorem ibetac_inv_wrap_domainRejected_iff (B : Backend) (a b p : FP) :
    DomainRejected "betainccinv" (ibetac_inv_wrap B a b p) ↔
      ((a.isnan || b.isnan || p.isnan) = false ∧
        (a.le FP.zero || b.le FP.zero || p.lt FP.zero || p.gt FP.one) = true) := by
  unfold ibetac_inv_wrap DomainRejected
  generalize (a.isnan || b.isnan || p.isnan) = c1
  generalize (a.le FP.zero || b.le FP.zero || p.lt FP.zero || p.gt FP.one) = c2
  cases c1 <;> cases c2 <;> simp [sf_error, FP.isnan_NAN]
  all_goals split <;> simp [sf_error]

/-- C5. Domain validation of the incomplete-beta family for arguments without
NaN: `betainc` and `betaincc` return NaN with one `SF_ERROR_DOMAIN` report under
their own name and without a backend call if and only if `a < 0`, `b < 0`,
`x < 0` or `x > 1`; `betaincinv` and `betainccinv` do so if and only if
`a <= 0`, `b <= 0`, `p < 0` or `p > 1`. -/
theorem incomplete_beta_domain_validation (B : Backend) (a b x : FP)
    (ha : a.isnan = false) (hb : b.isnan = false) (hx : x.isnan = false) :
    (DomainRejected "betainc" (ibeta_wrap B a b x) ↔
      (a.lt FP.zero = true ∨ b.lt FP.zero = true ∨ x.lt FP.zero = true ∨ x.gt FP.one = true)) ∧
    (DomainRejected "betaincc" (ibetac_wrap B a b x) ↔
      (a.lt FP.zero = true ∨ b.lt FP.zero = true ∨ x.lt FP.zero = true ∨ x.gt FP.one = true)) ∧
    (DomainRejected "betaincinv" (ibeta_inv_wrap B a b x SpecialPolicy) ↔
      (a.le FP.zero = true ∨ b.le FP.zero = true ∨ x.lt FP.zero = true ∨ x.gt FP.one = true)) ∧
    (DomainRejected "betainccinv" (ibetac_inv_wrap B a b x) ↔
      (a.le FP.zero = true ∨ b.le FP.zero = true ∨ x.lt FP.zero = true ∨ x.gt FP.one = true)) := by
  refine ⟨?_, ?_, ?_, ?_⟩
  · rw [ibeta_wrap_domainRejected_iff]; simp [ha, hb, hx, or_assoc]
  · rw [ibetac_wrap_domainRejected_iff]; simp [ha, hb, hx, or_assoc]
  · rw [ibeta_inv_wrap_domainRejected_iff]; simp [ha, hb, hx, or_assoc]
  · rw [ibetac_inv_wrap_domainRejected_iff]; simp [ha, hb, hx, or_assoc]

/-- Witness of C5: at `a = 0`, `b = 0`, `x = 1` the operation `betainc` accepts
its arguments and `betaincinv` rejects them. -/
theorem incomplete_beta_domain_validation_witness :
    ¬ DomainRejected "betainc" (ibeta_wrap (Backend.const (.ok FP.one)) FP.zero FP.zero FP.one) ∧
    DomainRejected "betaincinv"
      (ibeta_inv_wrap (Backend.const (.ok FP.one)) FP.zero FP.zero FP.one SpecialPolicy) :=
  have w := incomplete_beta_domain_validation (Backend.const (.ok FP.one)) FP.zero FP.zero FP.one
    rfl rfl rfl
  ⟨fun h => absurd (w.1.mp h) (by decide), w.2.2.1.mpr (Or.inl (by decide))⟩

/-! ## C4: `betaincc` mirrors `betainc` -/

/-- C4. For `a >= 0`, `b >= 0`, `0 <= x <= 1`: in a limiting case other than
the indeterminate one (`a` or `b` is `0` or infinite, but neither `a == b == 0`
nor both infinite) `betainc` and `betaincc` return, without report or backend
call, two values among `0` and `1` whose sum is `1`; in the indeterminate
cases both are silent NaNs; and, for any arguments at all, `betainc` rejects
them as a domain violation exactly when `betaincc` does. -/
theorem betaincc_mirrors_betainc (B : Backend) (a b x : FP)
    (ha : a.ge FP.zero = true) (hb : b.ge FP.zero = true)
    (hx0 : x.ge FP.zero = true) (hx1 : x.le FP.one = true) :
    (¬ ((a.eq FP.zero = true ∧ b.eq FP.zero = true) ∨ (a.isinf = true ∧ b.isinf = true)) →
      (a.eq FP.zero = true ∨ a.isinf = true ∨ b.eq FP.zero = true ∨ b.isinf = true) →
        ∃ p q : ℕ, ibeta_wrap B a b x = ⟨FP.fin false p 0, [], []⟩ ∧
          ibetac_wrap B a b x = ⟨FP.fin false q 0, [], []⟩ ∧ p + q = 1) ∧
    (((a.eq FP.zero = true ∧ b.eq FP.zero = true) ∨ (a.isinf = true ∧ b.isinf = true)) →
      SilentNaN (ibeta_wrap B a b x) ∧ SilentNaN (ibetac_wrap B a b x)) ∧
    (∀ a' b' x', DomainRejected "betainc" (ibeta_wrap B a' b' x') ↔
      DomainRejected "betaincc" (ibetac_wrap B a' b' x')) := by
  have na : a.isnan = false := FP.isnan_false_of_le_right ha
  have nb : b.isnan = false := FP.isnan_false_of_le_right hb
  have nx : x.isnan = false := FP.isnan_false_of_le_left hx1
  have a0 : a.lt FP.zero = false := FP.lt_false_of_le ha
  have b0 : b.lt FP.zero = false := FP.lt_false_of_le hb
  have x0 : x.lt FP.zero = false := FP.lt_false_of_le hx0
  have x1 : x.gt FP.one = false := FP.lt_false_of_le hx1
  refine ⟨?_, ?_, ?_⟩
  · intro hn hl
    have c1 : ((a.eq FP.zero && b.eq FP.zero) || (a.isinf && b.isinf)) = false := by
      simpa using hn
    cases c2 : (a.eq FP.zero || b.isinf)
    · have c3 : (b.eq FP.zero || a.isinf) = true := by
        simp only [Bool.or_eq_false_iff] at c2
        rcases hl with h | h | h | h
        · simp [c2.1] at h
        · simp [h]
        · simp [h]
        · simp [c2.2] at h
      cases hx : x.lt FP.one
      · refine ⟨1, 0, ?_, ?_, rfl⟩
        · show ibeta_wrap B a b x = ⟨FP.one, [], []⟩
          simp [ibeta_wrap, na, nb, nx, a0, b0, x0, x1, c1, c2, c3, hx]
        · show ibetac_wrap B a b x = ⟨FP.zero, [], []⟩
          simp [ibetac_wrap, na, nb, nx, a0, b0, x0, x1, c1, c2, c3, hx]
      · refine ⟨0, 1, ?_, ?_, rfl⟩
        · show ibeta_wrap B a b x = ⟨FP.zero, [], []⟩
          simp [ibeta_wrap, na, nb, nx, a0, b0, x0, x1, c1, c2, c3, hx]
        · show ibetac_wrap B a b x = ⟨FP.one, [], []⟩
          simp [ibetac_wrap, na, nb, nx, a0, b0, x0, x1, c1, c2, c3, hx]
    · cases hx : x.gt FP.zero
      · refine ⟨0, 1, ?_, ?_, rfl⟩
        · show ibeta_wrap B a b x = ⟨FP.zero, [], []⟩
          simp [ibeta_wrap, na, nb, nx, a0, b0, x0, x1, c1, c2, hx]
        · show ibetac_wrap B a b x = ⟨FP.one, [], []⟩
          simp [ibetac_wrap, na, nb, nx, a0, b0, x0, x1, c1, c2, hx]
      · refine ⟨1, 0, ?_, ?_, rfl⟩
        · show ibeta_wrap B a b x = ⟨FP.one, [], []⟩
          simp [ibeta_wrap, na, nb, nx, a0, b0, x0, x1, c1, c2, hx]
        · show ibetac_wrap B a b x = ⟨FP.zero, [], []⟩
          simp [ibetac_wrap, na, nb, nx, a0, b0, x0, x1, c1, c2, hx]
  · intro h
    have c1 : ((a.eq FP.zero && b.eq FP.zero) || (a.isinf && b.isinf)) = true := by
      simpa using h
    constructor
    · simp [ibeta_wrap, SilentNaN, na, nb, nx, a0, b0, x0, x1, c1, FP.isnan_NAN]
    · simp [ibetac_wrap, SilentNaN, na, nb, nx, a0, b0, x0, x1, c1, FP.isnan_NAN]
  · intro a' b' x'
    rw [ibeta_wrap_domainRejected_iff, ibetac_wrap_domainRejected_iff]

/-- Witness of C4: `betainc(+Inf, 1, 0.5) = 0` and `betaincc(+Inf, 1, 0.5) = 1`
(the two values the theorem provides sum to `1`). -/
theorem betaincc_mirrors_betainc_witness :
    ∃ p q : ℕ,
      ibeta_wrap (Backend.const (.ok FP.NAN)) FP.INFINITY FP.one (FP.fin false 1 1)
        = ⟨FP.fin false p 0, [], []⟩ ∧
      ibetac_wrap (Backend.const (.ok FP.NAN)) FP.INFINITY FP.one (FP.fin false 1 1)
        = ⟨FP.fin false q 0, [], []⟩ ∧ p + q = 1 :=
  (betaincc_mirrors_betainc (Backend.const (.ok FP.NAN)) FP.INFINITY FP.one (FP.fin false 1 1)
    (by decide) (by decide) (by decide) (by decide)).1 (by decide) (Or.inr (Or.inl (by decide)))

/-! ## C6 to C9: the pre-checks of `powm1` -/

/-- C6. For all `x` and `y`, NaN and infinities included: if `y == 0` or
`x == 1` then `powm1(x, y)` returns `0`, reports nothing and does not invoke the
backend; in particular `powm1(x, 0) = 0`, `powm1(1, y) = 0` and
`powm1(0, 0) = 0`. -/
theorem powm1_zero_exponent_or_unit_base (B : Backend) (x y : FP)
    (h : y.eq FP.zero = true ∨ x.eq FP.one = true) :
    powm1_wrap B x y = ⟨FP.zero, [], []⟩ := by
  rcases h with h | h <;> simp [powm1_wrap, h]

/-- Witness of C6: `powm1(NaN, 0) = 0`. -/
theorem powm1_zero_exponent_or_unit_base_witness :
    powm1_wrap (Backend.const (.error .other)) (FP.nan false) FP.zero = ⟨FP.zero, [], []⟩ :=
  powm1_zero_exponent_or_unit_base (Backend.const (.error .other)) (FP.nan false) FP.zero
    (Or.inl (by decide))

/-- C7. When `x == 0` (either zero): for `y < 0`, `-Inf` included, `powm1(x, y)`
returns `+Inf` and reports `SF_ERROR_DOMAIN` once; for `y > 0`, `+Inf` included,
it returns `-1` and reports nothing; the backend is not invoked in either
case. -/
theorem powm1_zero_base (B : Backend) (x y : FP) (hx : x.eq FP.zero = true) :
    (y.lt FP.zero = true →
      powm1_wrap B x y = ⟨FP.INFINITY, [⟨"powm1", SF_ERROR_DOMAIN⟩], []⟩) ∧
    (y.gt FP.zero = true → powm1_wrap B x y = ⟨FP.ofInt (-1), [], []⟩) := by
  have hx1 : x.eq FP.one = false := FP.eq_one_false_of_eq_zero hx
  constructor
  · intro hy
    have hy0 : y.eq FP.zero = false := FP.eq_false_of_lt hy
    simp [powm1_wrap, hx, hx1, hy, hy0, sf_error]
  · intro hy
    have hy0 : y.eq FP.zero = false := FP.eq_symm FP.zero y ▸ FP.eq_false_of_lt hy
    have hy1 : y.lt FP.zero = false := FP.lt_false_of_lt hy
    simp [powm1_wrap, hx, hx1, hy, hy0, hy1]

/-- Witness of C7: `powm1(-0, -Inf)` is `+Inf` with one `SF_ERROR_DOMAIN` report
and `powm1(-0, +Inf)` is `-1` with none. -/
theorem powm1_zero_base_witness :
    powm1_wrap (Backend.const (.ok FP.one)) (FP.fin true 0 0) (FP.inf true)
      = ⟨FP.INFINITY, [⟨"powm1", SF_ERROR_DOMAIN⟩], []⟩ ∧
    powm1_wrap (Backend.const (.ok FP.one)) (FP.fin true 0 0) (FP.inf false)
      = ⟨FP.ofInt (-1), [], []⟩ :=
  ⟨(powm1_zero_base (Backend.const (.ok FP.one)) (FP.fin true 0 0) (FP.inf true)
      (by decide)).1 (by decide),
   (powm1_zero_base (Backend.const (.ok FP.one)) (FP.fin true 0 0) (FP.inf false)
      (by decide)).2 (by decide)⟩

/-- C8 fails at `powm1(0, -1)`: the exponent is negative, the only report is
`SF_ERROR_DOMAIN`, and `SF_ERROR_OVERFLOW` is not reported. -/
theorem powm1_zero_base_negative_exponent_no_overflow_report :
    (FP.ofInt (-1)).lt FP.zero = true ∧
    (powm1_wrap (Backend.const (.ok FP.one)) FP.zero (FP.ofInt (-1))).reports
      = [⟨"powm1", SF_ERROR_DOMAIN⟩] ∧
    (⟨"powm1", SF_ERROR_OVERFLOW⟩ : Report) ∉
      (powm1_wrap (Backend.const (.ok FP.one)) FP.zero (FP.ofInt (-1))).reports := by
  decide

/-- C8, amended. For `x == 0` and every `y < 0`, `powm1(x, y)` returns `+Inf`
and its only report is `SF_ERROR_DOMAIN` under the name `powm1`: no report of
kind `SF_ERROR_OVERFLOW` is made. -/
theorem powm1_zero_base_negative_exponent_reports_domain (B : Backend) (x y : FP)
    (hx : x.eq FP.zero = true) (hy : y.lt FP.zero = true) :
    (powm1_wrap B x y).value = FP.INFINITY ∧
    (powm1_wrap B x y).reports = [⟨"powm1", SF_ERROR_DOMAIN⟩] ∧
    (∀ r ∈ (powm1_wrap B x y).reports, r.code ≠ SF_ERROR_OVERFLOW) := by
  have hx1 : x.eq FP.one = false := FP.eq_one_false_of_eq_zero hx
  have hy0 : y.eq FP.zero = false := FP.eq_false_of_lt hy
  simp [powm1_wrap, hx, hx1, hy, hy0, sf_error]

/-- Witness of C8, amended: `powm1(0, -0.5)`. -/
theorem powm1_zero_base_negative_exponent_reports_domain_witness :
    (powm1_wrap (Backend.const (.error .overflow_error)) FP.zero (FP.fin true 1 1)).value
      = FP.INFINITY ∧
    (powm1_wrap (Backend.const (.error .overflow_error)) FP.zero (FP.fin true 1 1)).reports
      = [⟨"powm1", SF_ERROR_DOMAIN⟩] :=
  have w := powm1_zero_base_negative_exponent_reports_domain
    (Backend.const (.error .overflow_error)) FP.zero (FP.fin true 1 1) (by decide) (by decide)
  ⟨w.1, w.2.1⟩

/-- C9. For `x < 0`, `-Inf` included: if `y` is finite and not a whole number,
`powm1(x, y)` returns NaN, reports `SF_ERROR_DOMAIN` once and does not invoke
the backend; if `y` is a whole number other than zero, the pre-checks report
nothing and the call goes to the backend, whose `try` block gives the
outcome (the value of the backend with no report when it returns one). -/
theorem powm1_negative_base (B : Backend) (x y : FP) (hx : x.lt FP.zero = true) :
    (y.isfinite = true → y.isInteger = false →
      powm1_wrap B x y = ⟨FP.NAN, [⟨"powm1", SF_ERROR_DOMAIN⟩], []⟩) ∧
    (y.isInteger = true → y.eq FP.zero = false →
      powm1_wrap B x y = powm1_try B x y ∧
      (powm1_wrap B x y).calls = [⟨"powm1", [x, y]⟩] ∧
      (∀ z, B.powm1 SpecialPolicy x y = .ok z →
        powm1_wrap B x y = ⟨z, [], [⟨"powm1", [x, y]⟩]⟩)) := by
  have hx1 : x.eq FP.one = false := FP.eq_one_false_of_lt_zero hx
  have hx0 : x.eq FP.zero = false := FP.eq_false_of_lt hx
  constructor
  · intro hf hi
    have hy0 : y.eq FP.zero = false := by
      cases h : y.eq FP.zero
      · rfl
      · rw [FP.isInteger_of_eq_zero h] at hi; cases hi
    have ht : (FP.trunc y).eq y = false := by
      cases h : (FP.trunc y).eq y
      · rfl
      · rcases (FP.trunc_eq_iff y).mp h with h' | h'
        · rw [h'] at hi; cases hi
        · rw [FP.isinf_false_of_isfinite hf] at h'; cases h'
    simp [powm1_wrap, hx, hx0, hx1, hy0, FP.ne, ht, sf_error]
  · intro hi hy0
    have ht : (FP.trunc y).eq y = true := (FP.trunc_eq_iff y).mpr (Or.inl hi)
    have e : powm1_wrap B x y = powm1_try B x y := by
      simp [powm1_wrap, hx, hx0, hx1, hy0, FP.ne, ht]
    refine ⟨e, ?_, ?_⟩
    · rw [e]; unfold powm1_try; split <;> rfl
    · intro z hz
      rw [e]; unfold powm1_try; rw [hz]

/-- Witness of C9: `powm1(-2, 0.5)` is rejected before the backend is called,
and `powm1(-2, 3)` is the value of the backend. -/
theorem powm1_negative_base_witness :
    powm1_wrap (Backend.const (.ok FP.one)) (FP.ofInt (-2)) (FP.fin false 1 1)
      = ⟨FP.NAN, [⟨"powm1", SF_ERROR_DOMAIN⟩], []⟩ ∧
    powm1_wrap (Backend.const (.ok FP.one)) (FP.ofInt (-2)) (FP.ofInt 3)
      = ⟨FP.one, [], [⟨"powm1", [FP.ofInt (-2), FP.ofInt 3]⟩]⟩ :=
  ⟨(powm1_negative_base (Backend.const (.ok FP.one)) (FP.ofInt (-2)) (FP.fin false 1 1)
      (by decide)).1 (by decide) (by decide),
   ((powm1_negative_base (Backend.const (.ok FP.one)) (FP.ofInt (-2)) (FP.ofInt 3)
      (by decide)).2 (by decide) (by decide)).2.2 FP.one rfl⟩

/-! ## C10: routing of `hyp1f1` to the generalized series -/

theorem hyp1f1_wrap_routing (B : Backend) (a b x : FP)
    (ha : a.isnan = false) (hb : b.isnan = false) (hx : x.isnan = false) :
    (hyp1f1_routed a b x → hyp1f1_wrap B a b x = call_hypergeometric_pFq B a b x) ∧
    (¬ hyp1f1_routed a b x →
      ∀ c ∈ (hyp1f1_wrap B a b x).calls, c.routine ≠ "hypergeometric_pFq") ∧
    (call_hypergeometric_pFq B a b x).calls = [⟨"hypergeometric_pFq", [a, b, x]⟩] ∧
    (∀ r ∈ (call_hypergeometric_pFq B a b x).reports, r.func_name = "hyp1f1") := by
  refine ⟨?_, ?_, ?_, ?_⟩
  · rintro (⟨h1, h2, h3, h4⟩ | ⟨h1, h2, h3, h4⟩)
    · have ht : (FP.trunc b).eq b = true := (FP.trunc_eq_iff_of_le_zero h1).mpr h2
      simp [hyp1f1_wrap, ha, hb, hx, h1, ht, FP.ne, h3, h4]
    · have hb0 : b.le FP.zero = false := FP.le_false_of_lt h3
      have ht : (FP.trunc a).eq a = true :=
        (FP.trunc_eq_iff_of_le_zero (FP.le_of_lt h1)).mpr h2
      have h3' : b.gt FP.zero = true := h3
      simp [hyp1f1_wrap, ha, hb, hx, hb0, h1, ht, h3', h4]
  · intro hn c hc
    have k1 : ((b.le FP.zero && (FP.trunc b).eq b) && (b.ne FP.zero && a.eq b)) = false := by
      cases hk : ((b.le FP.zero && (FP.trunc b).eq b) && (b.ne FP.zero && a.eq b))
      · rfl
      · simp only [Bool.and_eq_true, FP.ne, Bool.not_eq_true'] at hk
        exact absurd (Or.inl ⟨hk.1.1, (FP.trunc_eq_iff_of_le_zero hk.1.1).mp hk.1.2,
          hk.2.1, hk.2.2⟩) hn
    have k2 : (a.lt FP.zero && (FP.trunc a).eq a && b.gt FP.zero && b.eq x) = false := by
      cases hk : (a.lt FP.zero && (FP.trunc a).eq a && b.gt FP.zero && b.eq x)
      · rfl
      · simp only [Bool.and_eq_true] at hk
        exact absurd (Or.inr ⟨hk.1.1.1,
          (FP.trunc_eq_iff_of_le_zero (FP.le_of_lt hk.1.1.1)).mp hk.1.1.2, hk.1.2, hk.2⟩) hn
    unfold hyp1f1_wrap at hc
    rw [if_neg (by simp [ha, hb, hx]), if_neg (by simp [k1])] at hc
    split_ifs at hc
    · simp at hc
    · simp [k2] at *
    · unfold hyp1f1_primary at hc
      split at hc <;> simp at hc <;> simp [hc]
  · unfold call_hypergeometric_pFq; split <;> rfl
  · intro r hr
    unfold call_hypergeometric_pFq at hr
    split at hr <;> simp [sf_error] at hr <;> simp [hr]

theorem FP.eq_self_of_not_nan {b : FP} (h : b.isnan = false) : b.eq b = true := by
  cases b with
  | nan s => cases h
  | inf n => simp [FP.eq]
  | fin n m e => simp [FP.eq]

theorem FP.eq_neg_inf {a : FP} (h : a.eq (FP.inf true) = true) : a = FP.inf true := by
  cases a with
  | nan s => cases h
  | inf n => cases n <;> first | rfl | cases h
  | fin n m e => cases h

theorem hyp1f1_routed_iff_of_ne_neg_inf (a b x : FP) (ha : a ≠ FP.inf true) :
    hyp1f1_routed a b x ↔
      ((b.le FP.zero = true ∧ b.isInteger = true ∧ b.eq FP.zero = false ∧ a.eq b = true) ∨
        (a.lt FP.zero = true ∧ a.isInteger = true ∧ b.gt FP.zero = true ∧ b.eq x = true)) := by
  unfold hyp1f1_routed
  constructor
  · rintro (⟨h1, h2, h3, h4⟩ | ⟨h1, h2, h3, h4⟩)
    · rcases h2 with h2 | h2
      · exact Or.inl ⟨h1, h2, h3, h4⟩
      · rw [h2] at h4
        exact absurd (FP.eq_neg_inf h4) ha
    · rcases h2 with h2 | h2
      · exact Or.inr ⟨h1, h2, h3, h4⟩
      · exact absurd h2 ha
  · rintro (⟨h1, h2, h3, h4⟩ | ⟨h1, h2, h3, h4⟩)
    · exact Or.inl ⟨h1, Or.inl h2, h3, h4⟩
    · exact Or.inr ⟨h1, Or.inl h2, h3, h4⟩

/-- C10 is not met by the code at `a = -Inf`. The tests `std::trunc(b) == b`
and `std::trunc(a) == a`, which the comments of `hyp1f1_wrap` describe as
"a non-positive integer" and "a negative integer", also hold for `-Inf`, which
is not a whole number: `hyp1f1(-Inf, -Inf, x)` for every `x` that is not NaN,
and `hyp1f1(-Inf, b, b)` for every `b > 0`, are routed to `hypergeometric_pFq`,
which is invoked once.  For arguments without NaN and every `a` other than
`-Inf` the routing is as C10 states: the outcome is that of
`call_hypergeometric_pFq` when `b <= 0` is a whole number, `b != 0` and
`a == b`, or when `a < 0` is a whole number, `b > 0` and `b == x`, and in every
other case `hypergeometric_pFq` is not invoked. -/
theorem hyp1f1_routing_admits_negative_infinity (B : Backend) (a b x : FP) :
    (FP.inf true).isInteger = false ∧
    (x.isnan = false →
      hyp1f1_wrap B (FP.inf true) (FP.inf true) x
        = call_hypergeometric_pFq B (FP.inf true) (FP.inf true) x) ∧
    (b.gt FP.zero = true →
      hyp1f1_wrap B (FP.inf true) b b = call_hypergeometric_pFq B (FP.inf true) b b) ∧
    (call_hypergeometric_pFq B a b x).calls = [⟨"hypergeometric_pFq", [a, b, x]⟩] ∧
    (a.isnan = false → b.isnan = false → x.isnan = false → a ≠ FP.inf true →
      (((b.le FP.zero = true ∧ b.isInteger = true ∧ b.eq FP.zero = false ∧ a.eq b = true) ∨
          (a.lt FP.zero = true ∧ a.isInteger = true ∧ b.gt FP.zero = true ∧ b.eq x = true)) →
        hyp1f1_wrap B a b x = call_hypergeometric_pFq B a b x) ∧
      (¬ ((b.le FP.zero = true ∧ b.isInteger = true ∧ b.eq FP.zero = false ∧ a.eq b = true) ∨
          (a.lt FP.zero = true ∧ a.isInteger = true ∧ b.gt FP.zero = true ∧ b.eq x = true)) →
        ∀ c ∈ (hyp1f1_wrap B a b x).calls, c.routine ≠ "hypergeometric_pFq")) := by
  refine ⟨rfl, ?_, ?_, ?_, ?_⟩
  · intro hx
    exact (hyp1f1_wrap_routing B (FP.inf true) (FP.inf true) x rfl rfl hx).1
      (Or.inl ⟨by decide, Or.inr rfl, by decide, by decide⟩)
  · intro hb
    have hn : b.isnan = false := FP.isnan_false_of_lt_right hb
    exact (hyp1f1_wrap_routing B (FP.inf true) b b rfl hn hn).1
      (Or.inr ⟨by decide, Or.inr rfl, hb, FP.eq_self_of_not_nan hn⟩)
  · unfold call_hypergeometric_pFq; split <;> rfl
  · intro ha hb hx hne
    have r := hyp1f1_wrap_routing B a b x ha hb hx
    have e := hyp1f1_routed_iff_of_ne_neg_inf a b x hne
    exact ⟨fun h => r.1 (e.mpr h), fun h => r.2.1 (fun h' => h (e.mp h'))⟩

/-- Witness of C10: `hyp1f1(-Inf, -Inf, 0)` and `hyp1f1(-Inf, 1, 1)` invoke
`hypergeometric_pFq` although `-Inf` is not a whole number, and `hyp1f1(-2, -2,
1)` is routed to it as C10 states. -/
theorem hyp1f1_routing_admits_negative_infinity_witness :
    (FP.inf true).isInteger = false ∧
    (hyp1f1_wrap (Backend.const (.ok FP.one)) (FP.inf true) (FP.inf true) FP.zero).calls
      = [⟨"hypergeometric_pFq", [FP.inf true, FP.inf true, FP.zero]⟩] ∧
    (hyp1f1_wrap (Backend.const (.ok FP.one)) (FP.inf true) FP.one FP.one).calls
      = [⟨"hypergeometric_pFq", [FP.inf true, FP.one, FP.one]⟩] ∧
    hyp1f1_wrap (Backend.const (.ok FP.one)) (FP.ofInt (-2)) (FP.ofInt (-2)) FP.one
      = call_hypergeometric_pFq (Backend.const (.ok FP.one)) (FP.ofInt (-2)) (FP.ofInt (-2))
          FP.one :=
  have w := hyp1f1_routing_admits_negative_infinity (Backend.const (.ok FP.one))
    (FP.ofInt (-2)) (FP.ofInt (-2)) FP.one
  have w0 := hyp1f1_routing_admits_negative_infinity (Backend.const (.ok FP.one))
    (FP.inf true) FP.one FP.zero
  ⟨w.1, by rw [w0.2.1 rfl]; rfl, by rw [w0.2.2.1 (by decide)]; rfl,
    (w.2.2.2.2 rfl rfl rfl (by decide)).1
      (Or.inl ⟨by decide, by decide, by decide, by decide⟩)⟩

/-! ## C11 and C12: `hyp1f1` at the poles of `b` -/

theorem FP.ge_false_of_neg_inf {a b : FP} (ha : a.lt FP.zero = true) (hi : a.isinf = true)
    (hb : b.isInteger = true) : a.ge b = false := by
  cases a with
  | nan s => simp [FP.isinf] at hi
  | fin n m e => simp [FP.isinf] at hi
  | inf n =>
    cases b with
    | nan s => simp [FP.isInteger] at hb
    | inf k => simp [FP.isInteger] at hb
    | fin k m e =>
      cases n
      · simp [FP.lt, FP.zero] at ha
      · simp [FP.ge, FP.le, FP.lt, FP.eq]

/-- C11. For `a`, `b`, `x` without NaN and `b` a whole number with `b <= 0`
(zero included): unless `b != 0` and `a == b`, if `a` is not a whole number
with `a <= 0` and `a >= b`, then `hyp1f1(a, b, x)` returns `+Inf`, reports
nothing and invokes neither `hypergeometric_1F1` nor `hypergeometric_pFq`. -/
theorem hyp1f1_pole_returns_infinity (B : Backend) (a b x : FP)
    (ha : a.isnan = false) (hx : x.isnan = false)
    (hb0 : b.le FP.zero = true) (hbi : b.isInteger = true)
    (hne : ¬ (b.eq FP.zero = false ∧ a.eq b = true))
    (hna : ¬ (a.le FP.zero = true ∧ a.isInteger = true ∧ a.ge b = true)) :
    hyp1f1_wrap B a b x = ⟨FP.INFINITY, [], []⟩ := by
  have hb : b.isnan = false := FP.isnan_false_of_le_left hb0
  have ht : (FP.trunc b).eq b = true := (FP.trunc_eq_iff b).mpr (Or.inl hbi)
  have r1 : (b.ne FP.zero && a.eq b) = false := by
    cases h1 : b.eq FP.zero <;> cases h2 : a.eq b <;> simp [FP.ne, h1]
    exact hne ⟨h1, h2⟩
  have g : (a.lt FP.zero && (FP.trunc a).eq a && a.ge b) = false := by
    cases h : (a.lt FP.zero && (FP.trunc a).eq a && a.ge b)
    · rfl
    · simp only [Bool.and_eq_true] at h
      obtain ⟨⟨h1, h2⟩, h3⟩ := h
      rcases (FP.trunc_eq_iff a).mp h2 with hi | hi
      · exact absurd ⟨FP.le_of_lt h1, hi, h3⟩ hna
      · rw [FP.ge_false_of_neg_inf h1 hi hbi] at h3
        cases h3
  simp [hyp1f1_wrap, ha, hb, hx, hb0, ht, r1, g]

/-- Witness of C11: `hyp1f1(0.5, -2, 1)` is `+Inf` with no report and no backend
call. -/
theorem hyp1f1_pole_returns_infinity_witness :
    hyp1f1_wrap (Backend.const (.ok FP.one)) (FP.fin false 1 1) (FP.ofInt (-2)) FP.one
      = ⟨FP.INFINITY, [], []⟩ :=
  hyp1f1_pole_returns_infinity (Backend.const (.ok FP.one)) (FP.fin false 1 1) (FP.ofInt (-2))
    FP.one rfl rfl (by decide) (by decide) (by decide) (by decide)

/-- C12 fails at `hyp1f1(0, -1, 1)`: `a = 0` and `b = -1` are whole numbers with
`b <= a <= 0` and `a != b`, yet the call is short-circuited to `+Inf` and
`hypergeometric_1F1` is not invoked. -/
theorem hyp1f1_zero_a_short_circuited :
    FP.zero.isInteger = true ∧ FP.zero.le FP.zero = true ∧
    (FP.ofInt (-1)).isInteger = true ∧ (FP.ofInt (-1)).le FP.zero = true ∧
    FP.zero.ge (FP.ofInt (-1)) = true ∧ FP.zero.eq (FP.ofInt (-1)) = false ∧
    hyp1f1_wrap (Backend.const (.ok FP.one)) FP.zero (FP.ofInt (-1)) FP.one
      = ⟨FP.INFINITY, [], []⟩ := by
  decide

/-- C12, amended. For `x` without NaN, `b` a whole number with `b <= 0` and `a`
a whole number with `a < 0` (zero excluded) and `a >= b`, other than the case
`a == b != 0`, `hyp1f1(a, b, x)` is not short-circuited to `+Inf`: its outcome
is that of the `try` block around `hypergeometric_1F1`, which is invoked once
and whose value, when it returns one, is returned with no report. -/
theorem hyp1f1_negative_a_uses_primary (B : Backend) (a b x : FP)
    (hx : x.isnan = false)
    (hb0 : b.le FP.zero = true) (hbi : b.isInteger = true)
    (ha0 : a.lt FP.zero = true) (hai : a.isInteger = true) (hab : a.ge b = true)
    (hne : ¬ (b.eq FP.zero = false ∧ a.eq b = true)) :
    hyp1f1_wrap B a b x = hyp1f1_primary B a b x ∧
    (hyp1f1_wrap B a b x).calls = [⟨"hypergeometric_1F1", [a, b, x]⟩] ∧
    (∀ y, B.hypergeometric_1F1 SpecialPolicy a b x = .ok y →
      hyp1f1_wrap B a b x = ⟨y, [], [⟨"hypergeometric_1F1", [a, b, x]⟩]⟩) := by
  have ha : a.isnan = false := FP.isnan_false_of_lt_left ha0
  have hb : b.isnan = false := FP.isnan_false_of_le_left hb0
  have ht : (FP.trunc b).eq b = true := (FP.trunc_eq_iff b).mpr (Or.inl hbi)
  have hta : (FP.trunc a).eq a = true := (FP.trunc_eq_iff a).mpr (Or.inl hai)
  have r1 : (b.ne FP.zero && a.eq b) = false := by
    cases h1 : b.eq FP.zero <;> cases h2 : a.eq b <;> simp [FP.ne, h1]
    exact hne ⟨h1, h2⟩
  have hbg : b.gt FP.zero = false := FP.lt_false_of_le hb0
  have e : hyp1f1_wrap B a b x = hyp1f1_primary B a b x := by
    simp [hyp1f1_wrap, ha, hb, hx, hb0, ht, r1, ha0, hta, hab, hbg]
  refine ⟨e, ?_, ?_⟩
  · rw [e]; unfold hyp1f1_primary; split <;> rfl
  · intro y hy
    rw [e]; unfold hyp1f1_primary; rw [hy]

/-- Witness of C12, amended: `hyp1f1(-1, -2, 1)` is the value of
`hypergeometric_1F1`. -/
theorem hyp1f1_negative_a_uses_primary_witness :
    hyp1f1_wrap (Backend.const (.ok FP.two)) (FP.ofInt (-1)) (FP.ofInt (-2)) FP.one
      = ⟨FP.two, [], [⟨"hypergeometric_1F1", [FP.ofInt (-1), FP.ofInt (-2), FP.one]⟩]⟩ :=
  (hyp1f1_negative_a_uses_primary (Backend.const (.ok FP.two)) (FP.ofInt (-1)) (FP.ofInt (-2))
    FP.one rfl (by decide) (by decide) (by decide) (by decide) (by decide) (by decide)).2.2
      FP.two rfl

/-! ## C16: domain validation of the F and non-central families -/

theorem f_cdf_wrap_domainRejected_iff (B : Backend) (dfn dfd x : FP) :
    DomainRejected "fdtr" (f_cdf_wrap B dfn dfd x) ↔
      ((x.isnan || dfn.isnan || dfd.isnan) = false ∧
        (dfn.le FP.zero || dfd.le FP.zero || x.lt FP.zero) = true) := by
  unfold f_cdf_wrap DomainRejected
  generalize (x.isnan || dfn.isnan || dfd.isnan) = c1
  generalize (dfn.le FP.zero || dfd.le FP.zero || x.lt FP.zero) = c2
  cases c1 <;> cases c2 <;> simp [sf_error, FP.isnan_NAN]
  split_ifs
  · simp
  · split <;> simp [cdf_range_check] <;> split_ifs <;> simp

theorem f_sf_wrap_domainRejected_iff (B : Backend) (dfn dfd x : FP) :
    DomainRejected "fdtrc" (f_sf_wrap B dfn dfd x) ↔
      ((x.isnan || dfn.isnan || dfd.isnan) = false ∧
        (dfn.le FP.zero || dfd.le FP.zero || x.lt FP.zero) = true) := by
  unfold f_sf_wrap DomainRejected
  generalize (x.isnan || dfn.isnan || dfd.isnan) = c1
  generalize (dfn.le FP.zero || dfd.le FP.zero || x.lt FP.zero) = c2
  cases c1 <;> cases c2 <;> simp [sf_error, FP.isnan_NAN]
  split_ifs
  · simp
  · split <;> simp [cdf_range_check] <;> split_ifs <;> simp

theorem ncf_cdf_wrap_domainRejected_iff (B : Backend) (v1 v2 l x : FP) :
    DomainRejected "ncfdtr" (ncf_cdf_wrap B v1 v2 l x) ↔
      ((x.isnan || v1.isnan || v2.isnan || l.isnan) = false ∧
        (v1.le FP.zero || v2.le FP.zero || l.lt FP.zero || x.lt FP.zero) = true) := by
  unfold ncf_cdf_wrap DomainRejected
  generalize (x.isnan || v1.isnan || v2.isnan || l.isnan) = c1
  generalize (v1.le FP.zero || v2.le FP.zero || l.lt FP.zero || x.lt FP.zero) = c2
  cases c1 <;> cases c2 <;> simp [sf_error, FP.isnan_NAN]
  split_ifs
  · simp
  · split <;> simp [cdf_range_check] <;> split_ifs <;> simp

theorem nct_cdf_wrap_domainRejected_iff (B : Backend) (v l x : FP) :
    DomainRejected "nctdtr" (nct_cdf_wrap B v l x) ↔
      ((x.isnan || v.isnan || l.isnan) = false ∧ v.le FP.zero = true) := by
  unfold nct_cdf_wrap DomainRejected
  generalize (x.isnan || v.isnan || l.isnan) = c1
  generalize v.le FP.zero = c2
  cases c1 <;> cases c2 <;> simp [sf_error, FP.isnan_NAN]
  split_ifs
  · simp
  · simp
  · split <;> simp [cdf_range_check] <;> split_ifs <;> simp

theorem f_ppf_wrap_domainRejected_iff (B : Backend) (dfn dfd x : FP) :
    DomainRejected "fdtri" (f_ppf_wrap B dfn dfd x) ↔
      ((x.isnan || dfn.isnan || dfd.isnan) = false ∧
        (dfn.le FP.zero || dfd.le FP.zero || x.lt FP.zero || x.gt FP.one) = true) := by
  unfold f_ppf_wrap DomainRejected
  generalize (x.isnan || dfn.isnan || dfd.isnan) = c1
  generalize (dfn.le FP.zero || dfd.le FP.zero || x.lt FP.zero || x.gt FP.one) = c2
  cases c1 <;> cases c2 <;> simp [sf_error, FP.isnan_NAN]
  split <;> simp [f_ppf_wrap_check] <;> split_ifs <;> simp

theorem ncf_ppf_wrap_domainRejected_iff (B : Backend) (v1 v2 l x : FP) :
    DomainRejected "ncfdtri" (ncf_ppf_wrap B v1 v2 l x) ↔
      ((x.isnan || v1.isnan || v2.isnan || l.isnan) = false ∧
        (v1.le FP.zero || v2.le FP.zero || l.lt FP.zero || x.lt FP.zero || x.gt FP.one)
          = true) := by
  unfold ncf_ppf_wrap DomainRejected
  generalize (x.isnan || v1.isnan || v2.isnan || l.isnan) = c1
  generalize (v1.le FP.zero || v2.le FP.zero || l.lt FP.zero || x.lt FP.zero || x.gt FP.one)
    = c2
  cases c1 <;> cases c2 <;> simp [sf_error, FP.isnan_NAN]
  split <;> simp

theorem nct_ppf_wrap_domainRejected_iff (B : Backend) (v l x : FP) :
    DomainRejected "nctdtrit" (nct_ppf_wrap B v l x) ↔
      ((x.isnan || v.isnan || l.isnan) = false ∧
        (v.le FP.zero || x.lt FP.zero || x.gt FP.one) = true) := by
  unfold nct_ppf_wrap DomainRejected
  generalize (x.isnan || v.isnan || l.isnan) = c1
  generalize (v.le FP.zero || x.lt FP.zero || x.gt FP.one) = c2
  cases c1 <;> cases c2 <;> simp [sf_error, FP.isnan_NAN]
  split <;> simp


/-- C16. Domain validation of the F and non-central families for arguments
without NaN: the operation returns NaN with one `SF_ERROR_DOMAIN` report under
its own name and without a backend call if and only if, for `fdtr` and `fdtrc`,
`dfn <= 0`, `dfd <= 0` or `x < 0`; for `fdtri`, `dfn <= 0`, `dfd <= 0`, `p < 0`
or `p > 1`; for `ncfdtr`, `v1 <= 0`, `v2 <= 0`, `nc < 0` or `x < 0`; for
`ncfdtri`, `v1 <= 0`, `v2 <= 0`, `nc < 0`, `p < 0` or `p > 1`; for `nctdtr`,
`v <= 0`; for `nctdtrit`, `v <= 0`, `p < 0` or `p > 1`. -/
theorem f_and_noncentral_domain_validation (B : Backend) (a b c x : FP)
    (ha : a.isnan = false) (hb : b.isnan = false) (hc : c.isnan = false)
    (hx : x.isnan = false) :
    (DomainRejected "fdtr" (f_cdf_wrap B a b x) ↔
      (a.le FP.zero = true ∨ b.le FP.zero = true ∨ x.lt FP.zero = true)) ∧
    (DomainRejected "fdtrc" (f_sf_wrap B a b x) ↔
      (a.le FP.zero = true ∨ b.le FP.zero = true ∨ x.lt FP.zero = true)) ∧
    (DomainRejected "fdtri" (f_ppf_wrap B a b x) ↔
      (a.le FP.zero = true ∨ b.le FP.zero = true ∨ x.lt FP.zero = true ∨
        x.gt FP.one = true)) ∧
    (DomainRejected "ncfdtr" (ncf_cdf_wrap B a b c x) ↔
      (a.le FP.zero = true ∨ b.le FP.zero = true ∨ c.lt FP.zero = true ∨
        x.lt FP.zero = true)) ∧
    (DomainRejected "ncfdtri" (ncf_ppf_wrap B a b c x) ↔
      (a.le FP.zero = true ∨ b.le FP.zero = true ∨ c.lt FP.zero = true ∨
        x.lt FP.zero = true ∨ x.gt FP.one = true)) ∧
    (DomainRejected "nctdtr" (nct_cdf_wrap B a b x) ↔ a.le FP.zero = true) ∧
    (DomainRejected "nctdtrit" (nct_ppf_wrap B a b x) ↔
      (a.le FP.zero = true ∨ x.lt FP.zero = true ∨ x.gt FP.one = true)) := by
  refine ⟨?_, ?_, ?_, ?_, ?_, ?_, ?_⟩
  · rw [f_cdf_wrap_domainRejected_iff]; simp [ha, hb, hx, or_assoc]
  · rw [f_sf_wrap_domainRejected_iff]; simp [ha, hb, hx, or_assoc]
  · rw [f_ppf_wrap_domainRejected_iff]; simp [ha, hb, hx, or_assoc]
  · rw [ncf_cdf_wrap_domainRejected_iff]; simp [ha, hb, hc, hx, or_assoc]
  · rw [ncf_ppf_wrap_domainRejected_iff]; simp [ha, hb, hc, hx, or_assoc]
  · rw [nct_cdf_wrap_domainRejected_iff]; simp [ha, hb, hx]
  · rw [nct_ppf_wrap_domainRejected_iff]; simp [ha, hb, hx, or_assoc]

/-- Witness of C16: with `dfn = 1`, `dfd = 0`, `x = 0.5` the operation `fdtr`
rejects its arguments (`dfd <= 0`), and `nctdtr(1, 0, 0.5)` accepts them. -/
theorem f_and_noncentral_domain_validation_witness :
    DomainRejected "fdtr" (f_cdf_wrap (Backend.const (.ok FP.one)) FP.one FP.zero
      (FP.fin false 1 1)) ∧
    ¬ DomainRejected "nctdtr" (nct_cdf_wrap (Backend.const (.ok FP.one)) FP.one FP.zero
      (FP.fin false 1 1)) :=
  have w := f_and_noncentral_domain_validation (Backend.const (.ok FP.one)) FP.one FP.zero
    FP.zero (FP.fin false 1 1) rfl rfl rfl rfl
  ⟨w.1.mpr (Or.inr (Or.inl (by decide))),
   fun h => absurd (w.2.2.2.2.2.1.mp h) (by decide)⟩

/-! ## C13: `ncfdtr` at infinite `x` -/

/-- C13. For `v1 > 0`, `v2 > 0` and `nc >= 0` (hence no NaN),
`ncf_cdf(v1, v2, nc, +Inf)` returns exactly `1.0`, reports nothing and does not
invoke the backend; for every `x < 0`, `-Inf` included, it returns NaN with one
`SF_ERROR_DOMAIN` report and no backend call: the sign test comes before the
test of infinity. -/
theorem ncf_cdf_at_infinity (B : Backend) (v1 v2 nc : FP)
    (h1 : v1.gt FP.zero = true) (h2 : v2.gt FP.zero = true) (h3 : nc.ge FP.zero = true) :
    ncf_cdf_wrap B v1 v2 nc FP.INFINITY = ⟨FP.one, [], []⟩ ∧
    (∀ x, x.lt FP.zero = true → DomainRejected "ncfdtr" (ncf_cdf_wrap B v1 v2 nc x)) ∧
    DomainRejected "ncfdtr" (ncf_cdf_wrap B v1 v2 nc (FP.inf true)) := by
  have n1 : v1.isnan = false := FP.isnan_false_of_lt_right h1
  have n2 : v2.isnan = false := FP.isnan_false_of_lt_right h2
  have n3 : nc.isnan = false := FP.isnan_false_of_le_right h3
  have d1 : v1.le FP.zero = false := FP.le_false_of_lt h1
  have d2 : v2.le FP.zero = false := FP.le_false_of_lt h2
  have d3 : nc.lt FP.zero = false := FP.lt_false_of_le h3
  have neg : ∀ x, x.lt FP.zero = true → DomainRejected "ncfdtr" (ncf_cdf_wrap B v1 v2 nc x) := by
    intro x hx
    rw [ncf_cdf_wrap_domainRejected_iff]
    simp [n1, n2, n3, FP.isnan_false_of_lt_left hx, hx]
  refine ⟨?_, neg, neg _ (by decide)⟩
  have i1 : FP.INFINITY.isnan = false := rfl
  have i2 : FP.INFINITY.lt FP.zero = false := by decide
  have i3 : FP.INFINITY.isinf = true := rfl
  simp [ncf_cdf_wrap, n1, n2, n3, d1, d2, d3, i1, i2, i3]

/-- Witness of C13: `ncf_cdf(1, 2, 0, +Inf) = 1` and `ncf_cdf(1, 2, 0, -Inf)` is a
domain violation. -/
theorem ncf_cdf_at_infinity_witness :
    ncf_cdf_wrap (Backend.const (.error .other)) FP.one FP.two FP.zero FP.INFINITY
      = ⟨FP.one, [], []⟩ ∧
    DomainRejected "ncfdtr"
      (ncf_cdf_wrap (Backend.const (.error .other)) FP.one FP.two FP.zero (FP.inf true)) :=
  have w := ncf_cdf_at_infinity (Backend.const (.error .other)) FP.one FP.two FP.zero
    (by decide) (by decide) (by decide)
  ⟨w.1, w.2.2⟩


/-! ## C14: the range check of the CDF wrappers -/

theorem FP.unitOrNaN_of_not_lt_gt {y : FP} (h0 : y.lt FP.zero = false)
    (h1 : y.gt FP.one = false) : UnitOrNaN y := by
  cases hn : y.isnan
  · right
    constructor
    · rcases FP.lt_or_eq_or_gt (a := FP.zero) (b := y) rfl hn with h | h | h
      · simp [FP.le, h]
      · simp [FP.le, h]
      · rw [h0] at h; cases h
    · rcases FP.lt_or_eq_or_gt (a := y) (b := FP.one) hn rfl with h | h | h
      · simp [FP.le, h]
      · simp [FP.le, h]
      · have h1' : FP.one.lt y = false := h1
        rw [h1'] at h; cases h
  · exact Or.inl hn

theorem cdf_range_check_value (func_name : String) (y : FP) (log : List Report)
    (calls : List Call) : UnitOrNaN (cdf_range_check func_name y log calls).value := by
  unfold cdf_range_check
  split_ifs with h
  · left; rfl
  · simp only [Bool.or_eq_true, not_or, Bool.not_eq_true] at h
    exact FP.unitOrNaN_of_not_lt_gt h.1 h.2

theorem cdf_range_check_out_of_range (func_name : String) (y : FP) (log : List Report)
    (calls : List Call) (h : y.lt FP.zero = true ∨ y.gt FP.one = true) :
    cdf_range_check func_name y log calls
      = ⟨FP.NAN, log ++ [⟨func_name, SF_ERROR_NO_RESULT⟩], calls⟩ := by
  unfold cdf_range_check
  rw [if_pos (by simpa using h)]
  rfl

theorem cdf_range_check_NAN (func_name : String) (log : List Report) (calls : List Call) :
    cdf_range_check func_name FP.NAN log calls = ⟨FP.NAN, log, calls⟩ := rfl

theorem unitOrNaN_NAN : UnitOrNaN FP.NAN := Or.inl rfl

theorem unitOrNaN_one : UnitOrNaN FP.one := Or.inr ⟨by decide, by decide⟩

theorem unitOrNaN_zero : UnitOrNaN FP.zero := Or.inr ⟨by decide, by decide⟩

theorem ncf_cdf_wrap_of_calls (B : Backend) (v1 v2 l x : FP)
    (hc : (ncf_cdf_wrap B v1 v2 l x).calls ≠ []) :
    (∀ y, B.cdf SpecialPolicy (.non_central_f_distribution v1 v2 l) x = .ok y →
      ncf_cdf_wrap B v1 v2 l x = cdf_range_check "ncfdtr" y []
        [⟨"cdf non_central_f_distribution", [v1, v2, l, x]⟩]) ∧
    (∀ t, B.cdf SpecialPolicy (.non_central_f_distribution v1 v2 l) x = .error t →
      ncf_cdf_wrap B v1 v2 l x = ⟨FP.NAN, [⟨"ncfdtr", SF_ERROR_NO_RESULT⟩],
        [⟨"cdf non_central_f_distribution", [v1, v2, l, x]⟩]⟩) := by
  unfold ncf_cdf_wrap at hc ⊢
  split_ifs at hc ⊢ <;> simp at hc
  constructor
  · intro y hy; rw [hy]
  · intro t ht; rw [ht]; rfl

theorem nct_cdf_wrap_of_calls (B : Backend) (v l x : FP)
    (hc : (nct_cdf_wrap B v l x).calls ≠ []) :
    (∀ y, B.cdf SpecialPolicy (.non_central_t_distribution v l) x = .ok y →
      nct_cdf_wrap B v l x = cdf_range_check "nctdtr" y []
        [⟨"cdf non_central_t_distribution", [v, l, x]⟩]) ∧
    (∀ t, B.cdf SpecialPolicy (.non_central_t_distribution v l) x = .error t →
      nct_cdf_wrap B v l x = ⟨FP.NAN, [⟨"nctdtr", SF_ERROR_NO_RESULT⟩],
        [⟨"cdf non_central_t_distribution", [v, l, x]⟩]⟩) := by
  unfold nct_cdf_wrap at hc ⊢
  split_ifs at hc ⊢ <;> simp at hc
  constructor
  · intro y hy; rw [hy]
  · intro t ht; rw [ht]; rfl

theorem f_cdf_wrap_of_calls (B : Backend) (dfn dfd x : FP)
    (hc : (f_cdf_wrap B dfn dfd x).calls ≠ []) :
    (∀ y, B.cdf SpecialPolicy (.fisher_f_distribution dfn dfd) x = .ok y →
      f_cdf_wrap B dfn dfd x = cdf_range_check "fdtr" y []
        [⟨"cdf fisher_f_distribution", [dfn, dfd, x]⟩]) ∧
    (∀ t, B.cdf SpecialPolicy (.fisher_f_distribution dfn dfd) x = .error t →
      f_cdf_wrap B dfn dfd x = ⟨FP.NAN, [⟨"fdtr", SF_ERROR_NO_RESULT⟩],
        [⟨"cdf fisher_f_distribution", [dfn, dfd, x]⟩]⟩) := by
  unfold f_cdf_wrap at hc ⊢
  split_ifs at hc ⊢ <;> simp at hc
  constructor
  · intro y hy; rw [hy]
  · intro t ht; rw [ht]; rfl

theorem f_sf_wrap_of_calls (B : Backend) (dfn dfd x : FP)
    (hc : (f_sf_wrap B dfn dfd x).calls ≠ []) :
    (∀ y, B.cdf_complement SpecialPolicy (.fisher_f_distribution dfn dfd) x = .ok y →
      f_sf_wrap B dfn dfd x = cdf_range_check "fdtrc" y []
        [⟨"cdf_complement fisher_f_distribution", [dfn, dfd, x]⟩]) ∧
    (∀ t, B.cdf_complement SpecialPolicy (.fisher_f_distribution dfn dfd) x = .error t →
      f_sf_wrap B dfn dfd x = ⟨FP.NAN, [⟨"fdtrc", SF_ERROR_NO_RESULT⟩],
        [⟨"cdf_complement fisher_f_distribution", [dfn, dfd, x]⟩]⟩) := by
  unfold f_sf_wrap at hc ⊢
  split_ifs at hc ⊢ <;> simp at hc
  constructor
  · intro y hy; rw [hy]
  · intro t ht; rw [ht]; rfl


/-- C14. For `ncfdtr`, `nctdtr`, `fdtr` and `fdtrc`, for all arguments and every
behaviour of the backend (any value returned, any exception thrown), the value
returned is NaN or lies in `[0, 1]`; and whenever the backend is invoked and
returns a value `y` with `y < 0` or `y > 1`, the operation returns NaN and
makes exactly one report, `SF_ERROR_NO_RESULT` under its own name. -/
theorem cdf_value_in_unit_interval_or_nan (B : Backend) (a b c x : FP) :
    UnitOrNaN (ncf_cdf_wrap B a b c x).value ∧ UnitOrNaN (nct_cdf_wrap B a b x).value ∧
    UnitOrNaN (f_cdf_wrap B a b x).value ∧ UnitOrNaN (f_sf_wrap B a b x).value ∧
    (∀ y, (ncf_cdf_wrap B a b c x).calls ≠ [] →
      B.cdf SpecialPolicy (.non_central_f_distribution a b c) x = .ok y →
      (y.lt FP.zero = true ∨ y.gt FP.one = true) →
        ReportsOnce "ncfdtr" SF_ERROR_NO_RESULT FP.NAN (ncf_cdf_wrap B a b c x)) ∧
    (∀ y, (nct_cdf_wrap B a b x).calls ≠ [] →
      B.cdf SpecialPolicy (.non_central_t_distribution a b) x = .ok y →
      (y.lt FP.zero = true ∨ y.gt FP.one = true) →
        ReportsOnce "nctdtr" SF_ERROR_NO_RESULT FP.NAN (nct_cdf_wrap B a b x)) ∧
    (∀ y, (f_cdf_wrap B a b x).calls ≠ [] →
      B.cdf SpecialPolicy (.fisher_f_distribution a b) x = .ok y →
      (y.lt FP.zero = true ∨ y.gt FP.one = true) →
        ReportsOnce "fdtr" SF_ERROR_NO_RESULT FP.NAN (f_cdf_wrap B a b x)) ∧
    (∀ y, (f_sf_wrap B a b x).calls ≠ [] →
      B.cdf_complement SpecialPolicy (.fisher_f_distribution a b) x = .ok y →
      (y.lt FP.zero = true ∨ y.gt FP.one = true) →
        ReportsOnce "fdtrc" SF_ERROR_NO_RESULT FP.NAN (f_sf_wrap B a b x)) := by
  refine ⟨?_, ?_, ?_, ?_, ?_, ?_, ?_, ?_⟩
  · unfold ncf_cdf_wrap
    split_ifs
    · exact unitOrNaN_NAN
    · exact unitOrNaN_NAN
    · exact unitOrNaN_one
    · split <;> exact cdf_range_check_value _ _ _ _
  · unfold nct_cdf_wrap
    split_ifs
    · exact unitOrNaN_NAN
    · exact unitOrNaN_NAN
    · exact unitOrNaN_one
    · exact unitOrNaN_zero
    · split <;> exact cdf_range_check_value _ _ _ _
  · unfold f_cdf_wrap
    split_ifs
    · exact unitOrNaN_NAN
    · exact unitOrNaN_NAN
    · exact unitOrNaN_one
    · split <;> exact cdf_range_check_value _ _ _ _
  · unfold f_sf_wrap
    split_ifs
    · exact unitOrNaN_NAN
    · exact unitOrNaN_NAN
    · exact unitOrNaN_zero
    · split <;> exact cdf_range_check_value _ _ _ _
  · intro y hc hy hr
    rw [(ncf_cdf_wrap_of_calls B a b c x hc).1 y hy, cdf_range_check_out_of_range _ _ _ _ hr]
    exact ⟨rfl, rfl⟩
  · intro y hc hy hr
    rw [(nct_cdf_wrap_of_calls B a b x hc).1 y hy, cdf_range_check_out_of_range _ _ _ _ hr]
    exact ⟨rfl, rfl⟩
  · intro y hc hy hr
    rw [(f_cdf_wrap_of_calls B a b x hc).1 y hy, cdf_range_check_out_of_range _ _ _ _ hr]
    exact ⟨rfl, rfl⟩
  · intro y hc hy hr
    rw [(f_sf_wrap_of_calls B a b x hc).1 y hy, cdf_range_check_out_of_range _ _ _ _ hr]
    exact ⟨rfl, rfl⟩

/-- Witness of C14: with a backend that returns `2`, `fdtr(1, 1, 0.5)` invokes
the backend, returns NaN and reports `SF_ERROR_NO_RESULT` once. -/
theorem cdf_value_in_unit_interval_or_nan_witness :
    (f_cdf_wrap (Backend.const (.ok FP.two)) FP.one FP.one (FP.fin false 1 1)).calls ≠ [] ∧
    FP.two.gt FP.one = true ∧
    ReportsOnce "fdtr" SF_ERROR_NO_RESULT FP.NAN
      (f_cdf_wrap (Backend.const (.ok FP.two)) FP.one FP.one (FP.fin false 1 1)) :=
  ⟨by decide, by decide,
   (cdf_value_in_unit_interval_or_nan (Backend.const (.ok FP.two)) FP.one FP.one FP.zero
      (FP.fin false 1 1)).2.2.2.2.2.2.1 FP.two (by decide) rfl (Or.inr (by decide))⟩


/-! ## C15: the facade CDF and survival operations have no range check -/

/-- C15 fails at `ncx2_cdf(1, 1, 1)` with a backend that returns `2`: the value
`2 > 1` is returned to the caller as it is and nothing is reported. -/
theorem ncx2_cdf_surfaces_out_of_range_value :
    FP.two.gt FP.one = true ∧
    ncx2_cdf_wrap (Backend.const (.ok FP.two)) FP.one FP.one FP.one
      = ⟨.ok FP.two, [], [⟨"cdf non_central_chi_squared_distribution",
          [FP.one, FP.one, FP.one]⟩]⟩ := by
  decide

/-- C15, amended. Among the CDF and survival operations only `ncfdtr`,
`nctdtr`, `fdtr` and `fdtrc` replace a backend value `y < 0` or `y > 1` by NaN
and report `SF_ERROR_NO_RESULT`.  The operations `ncx2_sf`, `ncf_sf`, `nct_sf`,
`binom_sf`, `nbinom_sf`, `hypergeom_sf` for every first argument, and
`ncx2_cdf`, `skewnorm_cdf`, `binom_cdf`, `nbinom_cdf`, `hypergeom_cdf`,
`landau_cdf`, `landau_sf` for a finite first argument, return what the backend
returns, unchanged, and report nothing. -/
theorem facade_cdf_sf_pass_through (B : Backend) (x p q r : FP) :
    (PassesThrough (B.cdf_complement StatsPolicy (.non_central_chi_squared_distribution p q) x)
        (ncx2_sf_wrap B x p q) ∧
      PassesThrough (B.cdf_complement StatsPolicy (.non_central_f_distribution p q r) x)
        (ncf_sf_wrap B x p q r) ∧
      PassesThrough (B.cdf_complement StatsPolicy (.non_central_t_distribution p q) x)
        (nct_sf_wrap B x p q) ∧
      PassesThrough (B.cdf_complement StatsPolicy (.binomial_distribution p q) x)
        (binom_sf_wrap B x p q) ∧
      PassesThrough (B.cdf_complement StatsPolicy (.negative_binomial_distribution p q) x)
        (nbinom_sf_wrap B x p q) ∧
      PassesThrough (B.cdf_complement StatsPolicy (.hypergeometric_distribution p q r) x)
        (hypergeom_sf_wrap B x p q r)) ∧
    (x.isfinite = true →
      PassesThrough (B.cdf StatsPolicy (.non_central_chi_squared_distribution p q) x)
        (ncx2_cdf_wrap B x p q) ∧
      PassesThrough (B.cdf StatsPolicy (.skew_normal_distribution p q r) x)
        (skewnorm_cdf_wrap B x p q r) ∧
      PassesThrough (B.cdf StatsPolicy (.binomial_distribution p q) x)
        (binom_cdf_wrap B x p q) ∧
      PassesThrough (B.cdf StatsPolicy (.negative_binomial_distribution p q) x)
        (nbinom_cdf_wrap B x p q) ∧
      PassesThrough (B.cdf StatsPolicy (.hypergeometric_distribution p q r) x)
        (hypergeom_cdf_wrap B x p q r) ∧
      PassesThrough (B.cdf StatsPolicy (.landau_distribution p q) x)
        (landau_cdf_wrap B x p q) ∧
      PassesThrough (B.cdf_complement StatsPolicy (.landau_distribution p q) x)
        (landau_sf_wrap B x p q)) ∧
    (∀ y, (y.lt FP.zero = true ∨ y.gt FP.one = true) →
      ((ncf_cdf_wrap B p q r x).calls ≠ [] →
        B.cdf SpecialPolicy (.non_central_f_distribution p q r) x = .ok y →
          ReportsOnce "ncfdtr" SF_ERROR_NO_RESULT FP.NAN (ncf_cdf_wrap B p q r x)) ∧
      ((nct_cdf_wrap B p q x).calls ≠ [] →
        B.cdf SpecialPolicy (.non_central_t_distribution p q) x = .ok y →
          ReportsOnce "nctdtr" SF_ERROR_NO_RESULT FP.NAN (nct_cdf_wrap B p q x)) ∧
      ((f_cdf_wrap B p q x).calls ≠ [] →
        B.cdf SpecialPolicy (.fisher_f_distribution p q) x = .ok y →
          ReportsOnce "fdtr" SF_ERROR_NO_RESULT FP.NAN (f_cdf_wrap B p q x)) ∧
      ((f_sf_wrap B p q x).calls ≠ [] →
        B.cdf_complement SpecialPolicy (.fisher_f_distribution p q) x = .ok y →
          ReportsOnce "fdtrc" SF_ERROR_NO_RESULT FP.NAN (f_sf_wrap B p q x))) := by
  refine ⟨⟨⟨rfl, rfl⟩, ⟨rfl, rfl⟩, ⟨rfl, rfl⟩, ⟨rfl, rfl⟩, ⟨rfl, rfl⟩, ⟨rfl, rfl⟩⟩, ?_, ?_⟩
  · intro hx
    simp [PassesThrough, ncx2_cdf_wrap, skewnorm_cdf_wrap, binom_cdf_wrap, nbinom_cdf_wrap,
      hypergeom_cdf_wrap, landau_cdf_wrap, landau_sf_wrap, uncaught, hx]
  · intro y hr
    refine ⟨?_, ?_, ?_, ?_⟩
    · intro hc hy
      rw [(ncf_cdf_wrap_of_calls B p q r x hc).1 y hy, cdf_range_check_out_of_range _ _ _ _ hr]
      exact ⟨rfl, rfl⟩
    · intro hc hy
      rw [(nct_cdf_wrap_of_calls B p q x hc).1 y hy, cdf_range_check_out_of_range _ _ _ _ hr]
      exact ⟨rfl, rfl⟩
    · intro hc hy
      rw [(f_cdf_wrap_of_calls B p q x hc).1 y hy, cdf_range_check_out_of_range _ _ _ _ hr]
      exact ⟨rfl, rfl⟩
    · intro hc hy
      rw [(f_sf_wrap_of_calls B p q x hc).1 y hy, cdf_range_check_out_of_range _ _ _ _ hr]
      exact ⟨rfl, rfl⟩

/-- Witness of C15, amended: with a backend that returns `-1`, `binom_cdf(1, 2,
0.5)` returns `-1` and `nctdtr(1, 0, 0.5)` returns NaN with one
`SF_ERROR_NO_RESULT` report. -/
theorem facade_cdf_sf_pass_through_witness :
    PassesThrough (.ok (FP.ofInt (-1)))
      (binom_cdf_wrap (Backend.const (.ok (FP.ofInt (-1)))) FP.one FP.two (FP.fin false 1 1)) ∧
    ReportsOnce "nctdtr" SF_ERROR_NO_RESULT FP.NAN
      (nct_cdf_wrap (Backend.const (.ok (FP.ofInt (-1)))) FP.one FP.zero (FP.fin false 1 1)) :=
  ⟨((facade_cdf_sf_pass_through (Backend.const (.ok (FP.ofInt (-1)))) FP.one FP.two
      (FP.fin false 1 1) FP.zero).2.1 (by decide)).2.2.1,
   ((facade_cdf_sf_pass_through (Backend.const (.ok (FP.ofInt (-1)))) (FP.fin false 1 1)
      FP.one FP.zero FP.zero).2.2 (FP.ofInt (-1)) (Or.inl (by decide))).2.1 (by decide) rfl⟩


/-! ## C17: existence thresholds of the moments -/

theorem FP.num_ofInt (z : ℤ) : (FP.ofInt z).num = z := by
  simp only [FP.ofInt, FP.num, decide_eq_true_eq]
  split_ifs <;> omega

theorem FP.le_ofInt_mono {v : FP} {m n : ℤ} (hmn : m ≤ n) (h : v.le (FP.ofInt m) = true) :
    v.le (FP.ofInt n) = true := by
  cases v with
  | nan s => simp [FP.le, FP.lt, FP.eq] at h
  | inf k =>
    cases k
    · simp [FP.le, FP.lt, FP.eq, FP.ofInt] at h
    · simp [FP.le, FP.lt, FP.eq, FP.ofInt]
  | fin k mv e =>
    have hm := FP.num_ofInt m
    have hn := FP.num_ofInt n
    have h2 : (0 : ℤ) ≤ 2 ^ e := by positivity
    have hmul : m * 2 ^ e ≤ n * 2 ^ e := mul_le_mul_of_nonneg_right hmn h2
    simp only [FP.ofInt] at hm hn
    simp only [FP.le, FP.lt, FP.eq, FP.ofInt, Bool.or_eq_true, decide_eq_true_eq, hm, hn,
      pow_zero, mul_one] at h ⊢
    omega


/-- C17. Existence thresholds of the moments.  (1) `nct_mean`, `nct_variance`,
`nct_skewness`, `nct_kurtosis_excess` return NaN without invoking the backend
when `v <= 1`, `2`, `3`, `4`, and `ncf_mean`, `ncf_variance`, `ncf_skewness`,
`ncf_kurtosis_excess` when `v2 <= 2`, `4`, `6`, `8`.  (2) When the parameter is
above its threshold (hence not NaN) the backend is invoked and what it returns
is returned unchanged, with no report.  (3) Whenever a higher moment of a
family invokes the backend, so does every lower moment of that family. -/
theorem moment_existence_thresholds (B : Backend) (v l v1 v2 : FP) :
    ((v.le (FP.ofInt 1) = true → nct_mean B v l = ⟨.ok FP.NAN, [], []⟩) ∧
      (v.le (FP.ofInt 2) = true → nct_variance B v l = ⟨.ok FP.NAN, [], []⟩) ∧
      (v.le (FP.ofInt 3) = true → nct_skewness B v l = ⟨.ok FP.NAN, [], []⟩) ∧
      (v.le (FP.ofInt 4) = true → nct_kurtosis_excess B v l = ⟨.ok FP.NAN, [], []⟩) ∧
      (v2.le (FP.ofInt 2) = true → ncf_mean B v1 v2 l = ⟨.ok FP.NAN, [], []⟩) ∧
      (v2.le (FP.ofInt 4) = true → ncf_variance B v1 v2 l = ⟨.ok FP.NAN, [], []⟩) ∧
      (v2.le (FP.ofInt 6) = true → ncf_skewness B v1 v2 l = ⟨.ok FP.NAN, [], []⟩) ∧
      (v2.le (FP.ofInt 8) = true → ncf_kurtosis_excess B v1 v2 l = ⟨.ok FP.NAN, [], []⟩)) ∧
    ((v.gt (FP.ofInt 1) = true →
        PassesThrough (B.mean StatsPolicy (.non_central_t_distribution v l)) (nct_mean B v l) ∧
        (nct_mean B v l).calls ≠ []) ∧
      (v.gt (FP.ofInt 2) = true →
        PassesThrough (B.variance StatsPolicy (.non_central_t_distribution v l))
          (nct_variance B v l) ∧
        (nct_variance B v l).calls ≠ []) ∧
      (v.gt (FP.ofInt 3) = true →
        PassesThrough (B.skewness StatsPolicy (.non_central_t_distribution v l))
          (nct_skewness B v l) ∧
        (nct_skewness B v l).calls ≠ []) ∧
      (v.gt (FP.ofInt 4) = true →
        PassesThrough (B.kurtosis_excess StatsPolicy (.non_central_t_distribution v l))
          (nct_kurtosis_excess B v l) ∧
        (nct_kurtosis_excess B v l).calls ≠ []) ∧
      (v2.gt (FP.ofInt 2) = true →
        PassesThrough (B.mean StatsPolicy (.non_central_f_distribution v1 v2 l))
          (ncf_mean B v1 v2 l) ∧
        (ncf_mean B v1 v2 l).calls ≠ []) ∧
      (v2.gt (FP.ofInt 4) = true →
        PassesThrough (B.variance StatsPolicy (.non_central_f_distribution v1 v2 l))
          (ncf_variance B v1 v2 l) ∧
        (ncf_variance B v1 v2 l).calls ≠ []) ∧
      (v2.gt (FP.ofInt 6) = true →
        PassesThrough (B.skewness StatsPolicy (.non_central_f_distribution v1 v2 l))
          (ncf_skewness B v1 v2 l) ∧
        (ncf_skewness B v1 v2 l).calls ≠ []) ∧
      (v2.gt (FP.ofInt 8) = true →
        PassesThrough (B.kurtosis_excess StatsPolicy (.non_central_f_distribution v1 v2 l))
          (ncf_kurtosis_excess B v1 v2 l) ∧
        (ncf_kurtosis_excess B v1 v2 l).calls ≠ [])) ∧
    (((nct_kurtosis_excess B v l).calls ≠ [] → (nct_skewness B v l).calls ≠ []) ∧
      ((nct_skewness B v l).calls ≠ [] → (nct_variance B v l).calls ≠ []) ∧
      ((nct_variance B v l).calls ≠ [] → (nct_mean B v l).calls ≠ []) ∧
      ((ncf_kurtosis_excess B v1 v2 l).calls ≠ [] → (ncf_skewness B v1 v2 l).calls ≠ []) ∧
      ((ncf_skewness B v1 v2 l).calls ≠ [] → (ncf_variance B v1 v2 l).calls ≠ []) ∧
      ((ncf_variance B v1 v2 l).calls ≠ [] → (ncf_mean B v1 v2 l).calls ≠ [])) := by
  refine ⟨⟨?_, ?_, ?_, ?_, ?_, ?_, ?_, ?_⟩, ⟨?_, ?_, ?_, ?_, ?_, ?_, ?_, ?_⟩,
    ⟨?_, ?_, ?_, ?_, ?_, ?_⟩⟩
  · intro h; simp [nct_mean, h]
  · intro h; simp [nct_variance, h]
  · intro h; simp [nct_skewness, h]
  · intro h; simp [nct_kurtosis_excess, h]
  · intro h; simp [ncf_mean, h]
  · intro h; simp [ncf_variance, h]
  · intro h; simp [ncf_skewness, h]
  · intro h; simp [ncf_kurtosis_excess, h]
  · intro h; simp [nct_mean, FP.le_false_of_lt h, uncaught, PassesThrough]
  · intro h; simp [nct_variance, FP.le_false_of_lt h, uncaught, PassesThrough]
  · intro h; simp [nct_skewness, FP.le_false_of_lt h, uncaught, PassesThrough]
  · intro h; simp [nct_kurtosis_excess, FP.le_false_of_lt h, uncaught, PassesThrough]
  · intro h; simp [ncf_mean, FP.le_false_of_lt h, uncaught, PassesThrough]
  · intro h; simp [ncf_variance, FP.le_false_of_lt h, uncaught, PassesThrough]
  · intro h; simp [ncf_skewness, FP.le_false_of_lt h, uncaught, PassesThrough]
  · intro h; simp [ncf_kurtosis_excess, FP.le_false_of_lt h, uncaught, PassesThrough]
  · intro h
    cases h3 : v.le (FP.ofInt 3)
    · simp [nct_skewness, h3, uncaught]
    · have h4 := FP.le_ofInt_mono (show (3 : ℤ) ≤ 4 by decide) h3
      simp [nct_kurtosis_excess, h4] at h
  · intro h
    cases h3 : v.le (FP.ofInt 2)
    · simp [nct_variance, h3, uncaught]
    · have h4 := FP.le_ofInt_mono (show (2 : ℤ) ≤ 3 by decide) h3
      simp [nct_skewness, h4] at h
  · intro h
    cases h3 : v.le (FP.ofInt 1)
    · simp [nct_mean, h3, uncaught]
    · have h4 := FP.le_ofInt_mono (show (1 : ℤ) ≤ 2 by decide) h3
      simp [nct_variance, h4] at h
  · intro h
    cases h3 : v2.le (FP.ofInt 6)
    · simp [ncf_skewness, h3, uncaught]
    · have h4 := FP.le_ofInt_mono (show (6 : ℤ) ≤ 8 by decide) h3
      simp [ncf_kurtosis_excess, h4] at h
  · intro h
    cases h3 : v2.le (FP.ofInt 4)
    · simp [ncf_variance, h3, uncaught]
    · have h4 := FP.le_ofInt_mono (show (4 : ℤ) ≤ 6 by decide) h3
      simp [ncf_skewness, h4] at h
  · intro h
    cases h3 : v2.le (FP.ofInt 2)
    · simp [ncf_mean, h3, uncaught]
    · have h4 := FP.le_ofInt_mono (show (2 : ℤ) ≤ 4 by decide) h3
      simp [ncf_variance, h4] at h

/-- Witness of C17: `nct_variance(1, 0)` is NaN without a backend call, and
`nct_variance(3, 0)` is what the backend returns. -/
theorem moment_existence_thresholds_witness :
    nct_variance (Backend.const (.ok FP.two)) FP.one FP.zero = ⟨.ok FP.NAN, [], []⟩ ∧
    PassesThrough (.ok FP.two) (nct_variance (Backend.const (.ok FP.two)) (FP.ofInt 3) FP.zero) :=
  ⟨(moment_existence_thresholds (Backend.const (.ok FP.two)) FP.one FP.zero FP.one
      FP.one).1.2.1 (by decide),
   ((moment_existence_thresholds (Backend.const (.ok FP.two)) (FP.ofInt 3) FP.zero FP.one
      FP.one).2.1.2.1 (by decide)).1⟩


/-! ## C18: the Beta density at the ends of its support -/

/-- C18 fails at `beta_pdf(+Inf, 1, 0.5)`: `x >= 1` and `b < 1` hold, yet the
value returned is NaN, not `+Inf`, because `x` is not finite. -/
theorem beta_pdf_at_infinite_x :
    FP.INFINITY.ge FP.one = true ∧ (FP.fin false 1 1).lt FP.one = true ∧
    beta_pdf_wrap (Backend.const (.ok FP.one)) FP.INFINITY FP.one (FP.fin false 1 1)
      = ⟨.ok FP.NAN, [], []⟩ := by
  decide

/-- C18, amended. For every finite `x` and every `a`, `b` such that `x >= 1`
and `b < 1`, or `x <= 0` and `a < 1`, `beta_pdf(x, a, b)` returns `+Inf`
without invoking the backend (and without report). -/
theorem beta_pdf_boundary_infinity (B : Backend) (x a b : FP) (hx : x.isfinite = true)
    (h : (x.ge FP.one = true ∧ b.lt FP.one = true) ∨
      (x.le FP.zero = true ∧ a.lt FP.one = true)) :
    beta_pdf_wrap B x a b = ⟨.ok FP.INFINITY, [], []⟩ := by
  rcases h with ⟨h1, h2⟩ | ⟨h1, h2⟩
  · simp [beta_pdf_wrap, hx, h1, h2]
  · simp [beta_pdf_wrap, hx, h1, h2]

/-- Witness of C18, amended: `beta_pdf(0, 0.5, 2)` is `+Inf`. -/
theorem beta_pdf_boundary_infinity_witness :
    beta_pdf_wrap (Backend.const (.ok FP.one)) FP.zero (FP.fin false 1 1) FP.two
      = ⟨.ok FP.INFINITY, [], []⟩ :=
  beta_pdf_boundary_infinity (Backend.const (.ok FP.one)) FP.zero (FP.fin false 1 1) FP.two
    (by decide) (Or.inr ⟨by decide, by decide⟩)


/-! ## C19 and C20: translation of backend failures -/

theorem catch_clauses_table (func_name : String) (domain_value : FP) (other_code : sf_error_t)
    (r : Res) (c : Call) :
    FailureRows func_name other_code r (catch_clauses func_name domain_value other_code r c) ∧
    ValuePassed r (catch_clauses func_name domain_value other_code r c) ∧
    (r = .error .domain_error → ReportsOnce func_name SF_ERROR_DOMAIN domain_value
      (catch_clauses func_name domain_value other_code r c)) := by
  rcases r with (_ | _ | _ | _) | y <;>
    simp [catch_clauses, FailureRows, ValuePassed, ReportsOnce]

theorem ibeta_wrap_of_calls (B : Backend) (a b x : FP)
    (hc : (ibeta_wrap B a b x).calls ≠ []) :
    ibeta_wrap B a b x = catch_clauses "betainc" FP.NAN SF_ERROR_OTHER
      (B.ibeta SpecialPolicy a b x) ⟨"ibeta", [a, b, x]⟩ := by
  unfold ibeta_wrap at hc ⊢
  split_ifs at hc ⊢ <;> simp at hc
  unfold catch_clauses
  rcases B.ibeta SpecialPolicy a b x with (_ | _ | _ | _) | y <;> rfl

theorem ibetac_wrap_of_calls (B : Backend) (a b x : FP)
    (hc : (ibetac_wrap B a b x).calls ≠ []) :
    ibetac_wrap B a b x = catch_clauses "betaincc" FP.NAN SF_ERROR_OTHER
      (B.ibetac default_policy a b x) ⟨"ibetac", [a, b, x]⟩ := by
  unfold ibetac_wrap at hc ⊢
  split_ifs at hc ⊢ <;> simp at hc
  unfold catch_clauses
  rcases B.ibetac default_policy a b x with (_ | _ | _ | _) | y <;> rfl

theorem ibeta_inv_wrap_of_calls (B : Backend) (a b p : FP) (pol : Policy)
    (hc : (ibeta_inv_wrap B a b p pol).calls ≠ []) :
    ibeta_inv_wrap B a b p pol = catch_clauses "betaincinv" FP.NAN SF_ERROR_OTHER
      (B.ibeta_inv pol a b p) ⟨"ibeta_inv", [a, b, p]⟩ := by
  unfold ibeta_inv_wrap at hc ⊢
  split_ifs at hc ⊢ <;> simp at hc
  unfold catch_clauses
  rcases B.ibeta_inv pol a b p with (_ | _ | _ | _) | y <;> rfl

theorem ibeta_inva_wrap_of_calls (B : Backend) (p b x : FP)
    (hc : (ibeta_inva_wrap B p b x).calls ≠ []) :
    ibeta_inva_wrap B p b x = catch_clauses "btdtria" FP.NAN SF_ERROR_OTHER
      (B.ibeta_inva SpecialPolicy b x p) ⟨"ibeta_inva", [b, x, p]⟩ := by
  unfold ibeta_inva_wrap at hc ⊢
  split_ifs at hc ⊢ <;> simp at hc
  unfold catch_clauses
  rcases B.ibeta_inva SpecialPolicy b x p with (_ | _ | _ | _) | y <;> rfl

theorem ibeta_invb_wrap_of_calls (B : Backend) (a p x : FP)
    (hc : (ibeta_invb_wrap B a p x).calls ≠ []) :
    ibeta_invb_wrap B a p x = catch_clauses "btdtrib" FP.NAN SF_ERROR_OTHER
      (B.ibeta_invb SpecialPolicy a x p) ⟨"ibeta_invb", [a, x, p]⟩ := by
  unfold ibeta_invb_wrap at hc ⊢
  split_ifs at hc ⊢ <;> simp at hc
  unfold catch_clauses
  rcases B.ibeta_invb SpecialPolicy a x p with (_ | _ | _ | _) | y <;> rfl

theorem ibetac_inv_wrap_of_calls (B : Backend) (a b p : FP)
    (hc : (ibetac_inv_wrap B a b p).calls ≠ []) :
    ibetac_inv_wrap B a b p = catch_clauses "betainccinv" FP.NAN SF_ERROR_OTHER
      (B.ibetac_inv SpecialPolicy a b p) ⟨"ibetac_inv", [a, b, p]⟩ := by
  unfold ibetac_inv_wrap at hc ⊢
  split_ifs at hc ⊢ <;> simp at hc
  unfold catch_clauses
  rcases B.ibetac_inv SpecialPolicy a b p with (_ | _ | _ | _) | y <;> rfl

theorem erfinv_wrap_of_calls (B : Backend) (x : FP)
    (hc : (erfinv_wrap B x).calls ≠ []) :
    erfinv_wrap B x = catch_clauses "erfinv" FP.NAN SF_ERROR_OTHER
      (B.erf_inv SpecialPolicy x) ⟨"erf_inv", [x]⟩ := by
  unfold erfinv_wrap at hc ⊢
  split_ifs at hc ⊢ <;> simp at hc
  unfold catch_clauses
  rcases B.erf_inv SpecialPolicy x with (_ | _ | _ | _) | y <;> rfl

theorem ncf_ppf_wrap_of_calls (B : Backend) (v1 v2 l x : FP)
    (hc : (ncf_ppf_wrap B v1 v2 l x).calls ≠ []) :
    ncf_ppf_wrap B v1 v2 l x = catch_clauses "ncfdtri" FP.NAN SF_ERROR_NO_RESULT
      (B.quantile SpecialPolicy (.non_central_f_distribution v1 v2 l) x)
      ⟨"quantile non_central_f_distribution", [v1, v2, l, x]⟩ := by
  unfold ncf_ppf_wrap at hc ⊢
  split_ifs at hc ⊢ <;> simp at hc
  unfold catch_clauses
  rcases B.quantile SpecialPolicy (.non_central_f_distribution v1 v2 l) x
    with (_ | _ | _ | _) | y <;> rfl

theorem nct_ppf_wrap_of_calls (B : Backend) (v l x : FP)
    (hc : (nct_ppf_wrap B v l x).calls ≠ []) :
    nct_ppf_wrap B v l x = catch_clauses "nctdtrit" FP.NAN SF_ERROR_NO_RESULT
      (B.quantile SpecialPolicy (.non_central_t_distribution v l) x)
      ⟨"quantile non_central_t_distribution", [v, l, x]⟩ := by
  unfold nct_ppf_wrap at hc ⊢
  split_ifs at hc ⊢ <;> simp at hc
  unfold catch_clauses
  rcases B.quantile SpecialPolicy (.non_central_t_distribution v l) x
    with (_ | _ | _ | _) | y <;> rfl

theorem powm1_wrap_of_calls (B : Backend) (x y : FP) (hc : (powm1_wrap B x y).calls ≠ []) :
    powm1_wrap B x y = powm1_try B x y := by
  unfold powm1_wrap at hc ⊢
  split_ifs at hc ⊢ <;> simp at hc
  rfl

theorem hyp1f1_primary_eq (B : Backend) (a b x : FP) :
    hyp1f1_primary B a b x = catch_clauses "hyp1f1" FP.INFINITY SF_ERROR_OTHER
      (B.hypergeometric_1F1 SpecialPolicy a b x) ⟨"hypergeometric_1F1", [a, b, x]⟩ := by
  unfold hyp1f1_primary catch_clauses
  rcases B.hypergeometric_1F1 SpecialPolicy a b x with (_ | _ | _ | _) | y <;> rfl

theorem call_hypergeometric_pFq_eq (B : Backend) (a b x : FP) :
    call_hypergeometric_pFq B a b x = catch_clauses "hyp1f1" FP.INFINITY SF_ERROR_OTHER
      (B.hypergeometric_pFq SpecialPolicy a b x) ⟨"hypergeometric_pFq", [a, b, x]⟩ := by
  unfold call_hypergeometric_pFq catch_clauses
  rcases B.hypergeometric_pFq SpecialPolicy a b x with (_ | _ | _ | _) | y <;> rfl

theorem catch_clauses_calls (func_name : String) (domain_value : FP) (other_code : sf_error_t)
    (r : Res) (c : Call) : (catch_clauses func_name domain_value other_code r c).calls = [c] := by
  rcases r with (_ | _ | _ | _) | y <;> rfl

theorem hyp1f1_wrap_of_calls_primary (B : Backend) (a b x : FP)
    (hc : (hyp1f1_wrap B a b x).calls = [⟨"hypergeometric_1F1", [a, b, x]⟩]) :
    hyp1f1_wrap B a b x = hyp1f1_primary B a b x := by
  unfold hyp1f1_wrap at hc ⊢
  split_ifs at hc ⊢
  · rw [call_hypergeometric_pFq_eq, catch_clauses_calls] at hc
    simp at hc
  · rw [call_hypergeometric_pFq_eq, catch_clauses_calls] at hc
    simp at hc
  · rfl

theorem hyp1f1_wrap_of_calls_pFq (B : Backend) (a b x : FP)
    (hc : (hyp1f1_wrap B a b x).calls = [⟨"hypergeometric_pFq", [a, b, x]⟩]) :
    hyp1f1_wrap B a b x = call_hypergeometric_pFq B a b x := by
  unfold hyp1f1_wrap at hc ⊢
  split_ifs at hc ⊢
  · rfl
  · rfl
  · rw [hyp1f1_primary_eq, catch_clauses_calls] at hc
    simp at hc

theorem f_ppf_wrap_of_calls (B : Backend) (dfn dfd x : FP)
    (hc : (f_ppf_wrap B dfn dfd x).calls ≠ []) :
    f_ppf_wrap B dfn dfd x =
      f_ppf_wrap_check
        (catch_clauses "fdtri" FP.NAN SF_ERROR_NO_RESULT
          (B.quantile SpecialPolicy (.fisher_f_distribution dfn dfd) x)
          ⟨"quantile fisher_f_distribution", [dfn, dfd, x]⟩).value
        (catch_clauses "fdtri" FP.NAN SF_ERROR_NO_RESULT
          (B.quantile SpecialPolicy (.fisher_f_distribution dfn dfd) x)
          ⟨"quantile fisher_f_distribution", [dfn, dfd, x]⟩).reports
        [⟨"quantile fisher_f_distribution", [dfn, dfd, x]⟩] := by
  unfold f_ppf_wrap at hc ⊢
  split_ifs at hc ⊢ <;> simp at hc
  unfold catch_clauses
  rcases B.quantile SpecialPolicy (.fisher_f_distribution dfn dfd) x with (_ | _ | _ | _) | y <;>
    rfl


/-- C19 fails for `hyp1f1` and for `fdtr`: when the backend throws a domain
error, `hyp1f1(1, 1, 1)` reports `SF_ERROR_DOMAIN` but returns `+Inf`, not NaN,
and `fdtr(1, 1, 0.5)` returns NaN but reports `SF_ERROR_NO_RESULT`, not
`SF_ERROR_DOMAIN`. -/
theorem hyp1f1_and_fdtr_on_backend_domain_error :
    hyp1f1_wrap (Backend.const (.error .domain_error)) FP.one FP.one FP.one
      = ⟨FP.INFINITY, [⟨"hyp1f1", SF_ERROR_DOMAIN⟩],
          [⟨"hypergeometric_1F1", [FP.one, FP.one, FP.one]⟩]⟩ ∧
    FP.INFINITY.isnan = false ∧
    f_cdf_wrap (Backend.const (.error .domain_error)) FP.one FP.one (FP.fin false 1 1)
      = ⟨FP.NAN, [⟨"fdtr", SF_ERROR_NO_RESULT⟩],
          [⟨"cdf fisher_f_distribution", [FP.one, FP.one, FP.fin false 1 1]⟩]⟩ := by
  decide

/-- C19, amended. When the backend is invoked and throws a domain error:
`betainc`, `betaincc`, `betaincinv`, `betainccinv`, `btdtria`, `btdtrib`,
`erfinv`, `powm1`, `ncfdtri`, `nctdtrit` and `fdtri` report `SF_ERROR_DOMAIN`
once and return NaN; `hyp1f1` reports `SF_ERROR_DOMAIN` once and returns
`+Inf`, whichever of its two backends was invoked; `ncfdtr`, `nctdtr`, `fdtr`
and `fdtrc` report `SF_ERROR_NO_RESULT` once and return NaN. -/
theorem backend_domain_error_translation (B : Backend) (a b c x : FP) :
    (((ibeta_wrap B a b x).calls ≠ [] → B.ibeta SpecialPolicy a b x = .error .domain_error →
        ReportsOnce "betainc" SF_ERROR_DOMAIN FP.NAN (ibeta_wrap B a b x)) ∧
      ((ibetac_wrap B a b x).calls ≠ [] → B.ibetac default_policy a b x = .error .domain_error →
        ReportsOnce "betaincc" SF_ERROR_DOMAIN FP.NAN (ibetac_wrap B a b x)) ∧
      ((ibeta_inv_wrap B a b x SpecialPolicy).calls ≠ [] →
        B.ibeta_inv SpecialPolicy a b x = .error .domain_error →
        ReportsOnce "betaincinv" SF_ERROR_DOMAIN FP.NAN (ibeta_inv_wrap B a b x SpecialPolicy)) ∧
      ((ibetac_inv_wrap B a b x).calls ≠ [] →
        B.ibetac_inv SpecialPolicy a b x = .error .domain_error →
        ReportsOnce "betainccinv" SF_ERROR_DOMAIN FP.NAN (ibetac_inv_wrap B a b x)) ∧
      ((ibeta_inva_wrap B a b x).calls ≠ [] →
        B.ibeta_inva SpecialPolicy b x a = .error .domain_error →
        ReportsOnce "btdtria" SF_ERROR_DOMAIN FP.NAN (ibeta_inva_wrap B a b x)) ∧
      ((ibeta_invb_wrap B a b x).calls ≠ [] →
        B.ibeta_invb SpecialPolicy a x b = .error .domain_error →
        ReportsOnce "btdtrib" SF_ERROR_DOMAIN FP.NAN (ibeta_invb_wrap B a b x)) ∧
      ((erfinv_wrap B x).calls ≠ [] → B.erf_inv SpecialPolicy x = .error .domain_error →
        ReportsOnce "erfinv" SF_ERROR_DOMAIN FP.NAN (erfinv_wrap B x)) ∧
      ((powm1_wrap B a b).calls ≠ [] → B.powm1 SpecialPolicy a b = .error .domain_error →
        ReportsOnce "powm1" SF_ERROR_DOMAIN FP.NAN (powm1_wrap B a b)) ∧
      ((ncf_ppf_wrap B a b c x).calls ≠ [] →
        B.quantile SpecialPolicy (.non_central_f_distribution a b c) x = .error .domain_error →
        ReportsOnce "ncfdtri" SF_ERROR_DOMAIN FP.NAN (ncf_ppf_wrap B a b c x)) ∧
      ((nct_ppf_wrap B a b x).calls ≠ [] →
        B.quantile SpecialPolicy (.non_central_t_distribution a b) x = .error .domain_error →
        ReportsOnce "nctdtrit" SF_ERROR_DOMAIN FP.NAN (nct_ppf_wrap B a b x)) ∧
      ((f_ppf_wrap B a b x).calls ≠ [] →
        B.quantile SpecialPolicy (.fisher_f_distribution a b) x = .error .domain_error →
        ReportsOnce "fdtri" SF_ERROR_DOMAIN FP.NAN (f_ppf_wrap B a b x))) ∧
    (((hyp1f1_wrap B a b x).calls = [⟨"hypergeometric_1F1", [a, b, x]⟩] →
        B.hypergeometric_1F1 SpecialPolicy a b x = .error .domain_error →
        ReportsOnce "hyp1f1" SF_ERROR_DOMAIN FP.INFINITY (hyp1f1_wrap B a b x)) ∧
      ((hyp1f1_wrap B a b x).calls = [⟨"hypergeometric_pFq", [a, b, x]⟩] →
        B.hypergeometric_pFq SpecialPolicy a b x = .error .domain_error →
        ReportsOnce "hyp1f1" SF_ERROR_DOMAIN FP.INFINITY (hyp1f1_wrap B a b x))) ∧
    (((ncf_cdf_wrap B a b c x).calls ≠ [] →
        B.cdf SpecialPolicy (.non_central_f_distribution a b c) x = .error .domain_error →
        ReportsOnce "ncfdtr" SF_ERROR_NO_RESULT FP.NAN (ncf_cdf_wrap B a b c x)) ∧
      ((nct_cdf_wrap B a b x).calls ≠ [] →
        B.cdf SpecialPolicy (.non_central_t_distribution a b) x = .error .domain_error →
        ReportsOnce "nctdtr" SF_ERROR_NO_RESULT FP.NAN (nct_cdf_wrap B a b x)) ∧
      ((f_cdf_wrap B a b x).calls ≠ [] →
        B.cdf SpecialPolicy (.fisher_f_distribution a b) x = .error .domain_error →
        ReportsOnce "fdtr" SF_ERROR_NO_RESULT FP.NAN (f_cdf_wrap B a b x)) ∧
      ((f_sf_wrap B a b x).calls ≠ [] →
        B.cdf_complement SpecialPolicy (.fisher_f_distribution a b) x = .error .domain_error →
        ReportsOnce "fdtrc" SF_ERROR_NO_RESULT FP.NAN (f_sf_wrap B a b x))) := by
  refine ⟨⟨?_, ?_, ?_, ?_, ?_, ?_, ?_, ?_, ?_, ?_, ?_⟩, ⟨?_, ?_⟩, ⟨?_, ?_, ?_, ?_⟩⟩
  · intro hc hr
    rw [ibeta_wrap_of_calls B a b x hc]
    exact (catch_clauses_table _ _ _ _ _).2.2 hr
  · intro hc hr
    rw [ibetac_wrap_of_calls B a b x hc]
    exact (catch_clauses_table _ _ _ _ _).2.2 hr
  · intro hc hr
    rw [ibeta_inv_wrap_of_calls B a b x _ hc]
    exact (catch_clauses_table _ _ _ _ _).2.2 hr
  · intro hc hr
    rw [ibetac_inv_wrap_of_calls B a b x hc]
    exact (catch_clauses_table _ _ _ _ _).2.2 hr
  · intro hc hr
    rw [ibeta_inva_wrap_of_calls B a b x hc]
    exact (catch_clauses_table _ _ _ _ _).2.2 hr
  · intro hc hr
    rw [ibeta_invb_wrap_of_calls B a b x hc]
    exact (catch_clauses_table _ _ _ _ _).2.2 hr
  · intro hc hr
    rw [erfinv_wrap_of_calls B x hc]
    exact (catch_clauses_table _ _ _ _ _).2.2 hr
  · intro hc hr
    rw [powm1_wrap_of_calls B a b hc]
    unfold powm1_try
    rw [hr]
    exact ⟨rfl, rfl⟩
  · intro hc hr
    rw [ncf_ppf_wrap_of_calls B a b c x hc]
    exact (catch_clauses_table _ _ _ _ _).2.2 hr
  · intro hc hr
    rw [nct_ppf_wrap_of_calls B a b x hc]
    exact (catch_clauses_table _ _ _ _ _).2.2 hr
  · intro hc hr
    rw [f_ppf_wrap_of_calls B a b x hc, hr]
    exact ⟨rfl, rfl⟩
  · intro hc hr
    rw [hyp1f1_wrap_of_calls_primary B a b x hc, hyp1f1_primary_eq]
    exact (catch_clauses_table _ _ _ _ _).2.2 hr
  · intro hc hr
    rw [hyp1f1_wrap_of_calls_pFq B a b x hc, call_hypergeometric_pFq_eq]
    exact (catch_clauses_table _ _ _ _ _).2.2 hr
  · intro hc hr
    rw [(ncf_cdf_wrap_of_calls B a b c x hc).2 _ hr]
    exact ⟨rfl, rfl⟩
  · intro hc hr
    rw [(nct_cdf_wrap_of_calls B a b x hc).2 _ hr]
    exact ⟨rfl, rfl⟩
  · intro hc hr
    rw [(f_cdf_wrap_of_calls B a b x hc).2 _ hr]
    exact ⟨rfl, rfl⟩
  · intro hc hr
    rw [(f_sf_wrap_of_calls B a b x hc).2 _ hr]
    exact ⟨rfl, rfl⟩

/-- Witness of C19, amended: with a backend that throws a domain error,
`betainc(1, 1, 0.5)` invokes it, reports `SF_ERROR_DOMAIN` once and returns
NaN. -/
theorem backend_domain_error_translation_witness :
    (ibeta_wrap (Backend.const (.error .domain_error)) FP.one FP.one (FP.fin false 1 1)).calls
      ≠ [] ∧
    ReportsOnce "betainc" SF_ERROR_DOMAIN FP.NAN
      (ibeta_wrap (Backend.const (.error .domain_error)) FP.one FP.one (FP.fin false 1 1)) :=
  ⟨by decide,
   (backend_domain_error_translation (Backend.const (.error .domain_error)) FP.one FP.one
      FP.zero (FP.fin false 1 1)).1.1 (by decide) rfl⟩


/-- C20 fails for `fdtri`: when the backend returns the value `-1` without
failure, `fdtri(1, 1, 0.5)` does not pass it through: it returns NaN and
reports `SF_ERROR_NO_RESULT`. -/
theorem fdtri_negative_backend_value_not_passed :
    (FP.ofInt (-1)).lt FP.zero = true ∧
    f_ppf_wrap (Backend.const (.ok (FP.ofInt (-1)))) FP.one FP.one (FP.fin false 1 1)
      = ⟨FP.NAN, [⟨"fdtri", SF_ERROR_NO_RESULT⟩],
          [⟨"quantile fisher_f_distribution", [FP.one, FP.one, FP.fin false 1 1]⟩]⟩ := by
  decide

/-- C20, amended. When the backend is invoked: for `betainc`, `betaincc`,
`betaincinv`, `betainccinv`, `btdtria`, `btdtrib`, `erfinv` and `hyp1f1` (with
either of its backends) an overflow gives `+Inf` with one `SF_ERROR_OVERFLOW`
report, an underflow `0` with one `SF_ERROR_UNDERFLOW` report, any other
exception than a domain error NaN with one `SF_ERROR_OTHER` report, and a
value returned is passed through with no report; for `ncfdtri` and `nctdtrit`
the same holds with `SF_ERROR_NO_RESULT` in place of `SF_ERROR_OTHER`; for
`fdtri` too, except that a returned value `y < 0` is replaced by NaN with one
`SF_ERROR_NO_RESULT` report.  Every report is made under the operation's own
name. -/
theorem backend_failure_translation_table (B : Backend) (a b c x : FP) :
    (((ibeta_wrap B a b x).calls ≠ [] →
        FailureRows "betainc" SF_ERROR_OTHER (B.ibeta SpecialPolicy a b x) (ibeta_wrap B a b x) ∧
        ValuePassed (B.ibeta SpecialPolicy a b x) (ibeta_wrap B a b x)) ∧
      ((ibetac_wrap B a b x).calls ≠ [] →
        FailureRows "betaincc" SF_ERROR_OTHER (B.ibetac default_policy a b x)
          (ibetac_wrap B a b x) ∧
        ValuePassed (B.ibetac default_policy a b x) (ibetac_wrap B a b x)) ∧
      ((ibeta_inv_wrap B a b x SpecialPolicy).calls ≠ [] →
        FailureRows "betaincinv" SF_ERROR_OTHER (B.ibeta_inv SpecialPolicy a b x)
          (ibeta_inv_wrap B a b x SpecialPolicy) ∧
        ValuePassed (B.ibeta_inv SpecialPolicy a b x) (ibeta_inv_wrap B a b x SpecialPolicy)) ∧
      ((ibetac_inv_wrap B a b x).calls ≠ [] →
        FailureRows "betainccinv" SF_ERROR_OTHER (B.ibetac_inv SpecialPolicy a b x)
          (ibetac_inv_wrap B a b x) ∧
        ValuePassed (B.ibetac_inv SpecialPolicy a b x) (ibetac_inv_wrap B a b x)) ∧
      ((ibeta_inva_wrap B a b x).calls ≠ [] →
        FailureRows "btdtria" SF_ERROR_OTHER (B.ibeta_inva SpecialPolicy b x a)
          (ibeta_inva_wrap B a b x) ∧
        ValuePassed (B.ibeta_inva SpecialPolicy b x a) (ibeta_inva_wrap B a b x)) ∧
      ((ibeta_invb_wrap B a b x).calls ≠ [] →
        FailureRows "btdtrib" SF_ERROR_OTHER (B.ibeta_invb SpecialPolicy a x b)
          (ibeta_invb_wrap B a b x) ∧
        ValuePassed (B.ibeta_invb SpecialPolicy a x b) (ibeta_invb_wrap B a b x)) ∧
      ((erfinv_wrap B x).calls ≠ [] →
        FailureRows "erfinv" SF_ERROR_OTHER (B.erf_inv SpecialPolicy x) (erfinv_wrap B x) ∧
        ValuePassed (B.erf_inv SpecialPolicy x) (erfinv_wrap B x))) ∧
    (((hyp1f1_wrap B a b x).calls = [⟨"hypergeometric_1F1", [a, b, x]⟩] →
        FailureRows "hyp1f1" SF_ERROR_OTHER (B.hypergeometric_1F1 SpecialPolicy a b x)
          (hyp1f1_wrap B a b x) ∧
        ValuePassed (B.hypergeometric_1F1 SpecialPolicy a b x) (hyp1f1_wrap B a b x)) ∧
      ((hyp1f1_wrap B a b x).calls = [⟨"hypergeometric_pFq", [a, b, x]⟩] →
        FailureRows "hyp1f1" SF_ERROR_OTHER (B.hypergeometric_pFq SpecialPolicy a b x)
          (hyp1f1_wrap B a b x) ∧
        ValuePassed (B.hypergeometric_pFq SpecialPolicy a b x) (hyp1f1_wrap B a b x))) ∧
    (((ncf_ppf_wrap B a b c x).calls ≠ [] →
        FailureRows "ncfdtri" SF_ERROR_NO_RESULT
          (B.quantile SpecialPolicy (.non_central_f_distribution a b c) x)
          (ncf_ppf_wrap B a b c x) ∧
        ValuePassed (B.quantile SpecialPolicy (.non_central_f_distribution a b c) x)
          (ncf_ppf_wrap B a b c x)) ∧
      ((nct_ppf_wrap B a b x).calls ≠ [] →
        FailureRows "nctdtrit" SF_ERROR_NO_RESULT
          (B.quantile SpecialPolicy (.non_central_t_distribution a b) x)
          (nct_ppf_wrap B a b x) ∧
        ValuePassed (B.quantile SpecialPolicy (.non_central_t_distribution a b) x)
          (nct_ppf_wrap B a b x)) ∧
      ((f_ppf_wrap B a b x).calls ≠ [] →
        FailureRows "fdtri" SF_ERROR_NO_RESULT
          (B.quantile SpecialPolicy (.fisher_f_distribution a b) x) (f_ppf_wrap B a b x) ∧
        (∀ y, B.quantile SpecialPolicy (.fisher_f_distribution a b) x = .ok y →
          (y.lt FP.zero = false →
            (f_ppf_wrap B a b x).value = y ∧ (f_ppf_wrap B a b x).reports = []) ∧
          (y.lt FP.zero = true →
            ReportsOnce "fdtri" SF_ERROR_NO_RESULT FP.NAN (f_ppf_wrap B a b x))))) := by
  refine ⟨⟨?_, ?_, ?_, ?_, ?_, ?_, ?_⟩, ⟨?_, ?_⟩, ⟨?_, ?_, ?_⟩⟩
  · intro hc
    rw [ibeta_wrap_of_calls B a b x hc]
    exact ⟨(catch_clauses_table _ _ _ _ _).1, (catch_clauses_table _ _ _ _ _).2.1⟩
  · intro hc
    rw [ibetac_wrap_of_calls B a b x hc]
    exact ⟨(catch_clauses_table _ _ _ _ _).1, (catch_clauses_table _ _ _ _ _).2.1⟩
  · intro hc
    rw [ibeta_inv_wrap_of_calls B a b x _ hc]
    exact ⟨(catch_clauses_table _ _ _ _ _).1, (catch_clauses_table _ _ _ _ _).2.1⟩
  · intro hc
    rw [ibetac_inv_wrap_of_calls B a b x hc]
    exact ⟨(catch_clauses_table _ _ _ _ _).1, (catch_clauses_table _ _ _ _ _).2.1⟩
  · intro hc
    rw [ibeta_inva_wrap_of_calls B a b x hc]
    exact ⟨(catch_clauses_table _ _ _ _ _).1, (catch_clauses_table _ _ _ _ _).2.1⟩
  · intro hc
    rw [ibeta_invb_wrap_of_calls B a b x hc]
    exact ⟨(catch_clauses_table _ _ _ _ _).1, (catch_clauses_table _ _ _ _ _).2.1⟩
  · intro hc
    rw [erfinv_wrap_of_calls B x hc]
    exact ⟨(catch_clauses_table _ _ _ _ _).1, (catch_clauses_table _ _ _ _ _).2.1⟩
  · intro hc
    rw [hyp1f1_wrap_of_calls_primary B a b x hc, hyp1f1_primary_eq]
    exact ⟨(catch_clauses_table _ _ _ _ _).1, (catch_clauses_table _ _ _ _ _).2.1⟩
  · intro hc
    rw [hyp1f1_wrap_of_calls_pFq B a b x hc, call_hypergeometric_pFq_eq]
    exact ⟨(catch_clauses_table _ _ _ _ _).1, (catch_clauses_table _ _ _ _ _).2.1⟩
  · intro hc
    rw [ncf_ppf_wrap_of_calls B a b c x hc]
    exact ⟨(catch_clauses_table _ _ _ _ _).1, (catch_clauses_table _ _ _ _ _).2.1⟩
  · intro hc
    rw [nct_ppf_wrap_of_calls B a b x hc]
    exact ⟨(catch_clauses_table _ _ _ _ _).1, (catch_clauses_table _ _ _ _ _).2.1⟩
  · intro hc
    rw [f_ppf_wrap_of_calls B a b x hc]
    refine ⟨⟨?_, ?_, ?_⟩, ?_⟩
    · intro hr; rw [hr]; exact ⟨rfl, rfl⟩
    · intro hr; rw [hr]; exact ⟨rfl, rfl⟩
    · intro hr; rw [hr]; exact ⟨rfl, rfl⟩
    · intro y hr
      rw [hr]
      constructor
      · intro hy
        simp [catch_clauses, f_ppf_wrap_check, hy]
      · intro hy
        simp [catch_clauses, f_ppf_wrap_check, hy, ReportsOnce, sf_error]

/-- Witness of C20, amended: with a backend that throws an overflow error,
`betaincinv(1, 1, 0.5)` invokes it, returns `+Inf` and reports
`SF_ERROR_OVERFLOW` once. -/
theorem backend_failure_translation_table_witness :
    (ibeta_inv_wrap (Backend.const (.error .overflow_error)) FP.one FP.one (FP.fin false 1 1)
      SpecialPolicy).calls ≠ [] ∧
    ReportsOnce "betaincinv" SF_ERROR_OVERFLOW FP.INFINITY
      (ibeta_inv_wrap (Backend.const (.error .overflow_error)) FP.one FP.one (FP.fin false 1 1)
        SpecialPolicy) :=
  ⟨by decide,
   ((backend_failure_translation_table (Backend.const (.error .overflow_error)) FP.one FP.one
      FP.zero (FP.fin false 1 1)).1.2.2.1 (by decide)).1.1 rfl⟩

/-! ## C23: domain validation of `btdtria` and `btdtrib` -/

theorem ibeta_inva_wrap_domainRejected_iff (B : Backend) (p b x : FP) :
    DomainRejected "btdtria" (ibeta_inva_wrap B p b x) ↔
      ((p.isnan || b.isnan || x.isnan) = false ∧
        (b.le FP.zero || x.le FP.zero || p.lt FP.zero || p.gt FP.one) = true) := by
  unfold ibeta_inva_wrap DomainRejected
  generalize (p.isnan || b.isnan || x.isnan) = c1
  generalize (b.le FP.zero || x.le FP.zero || p.lt FP.zero || p.gt FP.one) = c2
  cases c1 <;> cases c2 <;> simp [sf_error, FP.isnan_NAN]
  all_goals split <;> simp [sf_error]

theorem ibeta_invb_wrap_domainRejected_iff (B : Backend) (a p x : FP) :
    DomainRejected "btdtrib" (ibeta_invb_wrap B a p x) ↔
      ((p.isnan || a.isnan || x.isnan) = false ∧
        (a.le FP.zero || x.le FP.zero || p.lt FP.zero || p.gt FP.one) = true) := by
  unfold ibeta_invb_wrap DomainRejected
  generalize (p.isnan || a.isnan || x.isnan) = c1
  generalize (a.le FP.zero || x.le FP.zero || p.lt FP.zero || p.gt FP.one) = c2
  cases c1 <;> cases c2 <;> simp [sf_error, FP.isnan_NAN]
  all_goals split <;> simp [sf_error]

/-- C23 fails at `btdtria(0.5, 1, 0)` and at `btdtria(0.5, 1, 2)`: with `b > 0`
and `0 <= p <= 1`, the argument `x = 0` lies in `[0, 1]` and is rejected as a
domain violation, and the argument `x = 2 > 1` is not rejected: the backend is
invoked. -/
theorem btdtria_rejects_zero_and_accepts_two :
    FP.one.le FP.zero = false ∧ (FP.fin false 1 1).lt FP.zero = false ∧
    (FP.fin false 1 1).gt FP.one = false ∧
    FP.zero.lt FP.zero = false ∧ FP.zero.gt FP.one = false ∧
    DomainRejected "btdtria"
      (ibeta_inva_wrap (Backend.const (.ok FP.one)) (FP.fin false 1 1) FP.one FP.zero) ∧
    FP.two.gt FP.one = true ∧
    ibeta_inva_wrap (Backend.const (.ok FP.one)) (FP.fin false 1 1) FP.one FP.two
      = ⟨FP.one, [], [⟨"ibeta_inva", [FP.one, FP.two, FP.fin false 1 1]⟩]⟩ := by
  refine ⟨by decide, by decide, by decide, by decide, by decide, ?_, by decide, by decide⟩
  exact ⟨by decide, by decide, by decide⟩

/-- C23, amended. For arguments without NaN, `btdtria(p, b, x)` returns NaN
with one `SF_ERROR_DOMAIN` report under its own name and without a backend call
if and only if `b <= 0`, `x <= 0`, `p < 0` or `p > 1`, and `btdtrib(a, p, x)`
if and only if `a <= 0`, `x <= 0`, `p < 0` or `p > 1`: `x = 0` is rejected and
no upper bound on `x` is tested. -/
theorem btdtria_btdtrib_domain_validation (B : Backend) (p q x : FP)
    (hp : p.isnan = false) (hq : q.isnan = false) (hx : x.isnan = false) :
    (DomainRejected "btdtria" (ibeta_inva_wrap B p q x) ↔
      (q.le FP.zero = true ∨ x.le FP.zero = true ∨ p.lt FP.zero = true ∨
        p.gt FP.one = true)) ∧
    (DomainRejected "btdtrib" (ibeta_invb_wrap B q p x) ↔
      (q.le FP.zero = true ∨ x.le FP.zero = true ∨ p.lt FP.zero = true ∨
        p.gt FP.one = true)) := by
  constructor
  · rw [ibeta_inva_wrap_domainRejected_iff]; simp [hp, hq, hx, or_assoc]
  · rw [ibeta_invb_wrap_domainRejected_iff]; simp [hp, hq, hx, or_assoc]

/-- Witness of C23, amended: `btdtrib(1, 0.5, 0)` is rejected (`x <= 0`) and
`btdtrib(1, 0.5, 2)` is not. -/
theorem btdtria_btdtrib_domain_validation_witness :
    DomainRejected "btdtrib"
      (ibeta_invb_wrap (Backend.const (.ok FP.one)) FP.one (FP.fin false 1 1) FP.zero) ∧
    ¬ DomainRejected "btdtrib"
      (ibeta_invb_wrap (Backend.const (.ok FP.one)) FP.one (FP.fin false 1 1) FP.two) :=
  ⟨(btdtria_btdtrib_domain_validation (Backend.const (.ok FP.one)) (FP.fin false 1 1) FP.one
      FP.zero rfl rfl rfl).2.mpr (Or.inr (Or.inl (by decide))),
   fun h => absurd ((btdtria_btdtrib_domain_validation (Backend.const (.ok FP.one))
      (FP.fin false 1 1) FP.one FP.two rfl rfl rfl).2.mp h) (by decide)⟩


/-! ## C21, C22 and C26: the overflow handler of `powm1` -/

theorem sentinel_NAN : Sentinel FP.NAN := Or.inl rfl

theorem sentinel_INFINITY : Sentinel FP.INFINITY := Or.inr (Or.inl rfl)

theorem sentinel_neg_INFINITY : Sentinel (FP.neg FP.INFINITY) := Or.inr (Or.inl rfl)

theorem sentinel_zero : Sentinel FP.zero := Or.inr (Or.inr rfl)

theorem powm1_wrap_reached (B : Backend) (x y : FP) (hc : (powm1_wrap B x y).calls ≠ []) :
    y.eq FP.zero = false ∧ x.eq FP.one = false ∧
    (x.eq FP.zero && y.lt FP.zero) = false ∧ (x.eq FP.zero && y.gt FP.zero) = false ∧
    (x.lt FP.zero && (FP.trunc y).ne y) = false := by
  unfold powm1_wrap at hc
  split_ifs at hc with h1 h2 h3 h4
  · exact absurd rfl hc
  · exact absurd rfl hc
  · exact absurd rfl hc
  · exact absurd rfl hc
  · simp only [Bool.not_eq_true] at h1 h2 h3 h4
    simp only [Bool.or_eq_false_iff] at h1
    exact ⟨h1.1, h1.2, h2, h3, h4⟩

theorem powm1_wrap_overflow (B : Backend) (x y : FP) (hc : (powm1_wrap B x y).calls ≠ [])
    (hr : B.powm1 SpecialPolicy x y = .error .overflow_error) :
    powm1_wrap B x y
      = ⟨powm1_overflow_value x y, [⟨"powm1", SF_ERROR_OVERFLOW⟩], [⟨"powm1", [x, y]⟩]⟩ := by
  rw [powm1_wrap_of_calls B x y hc]
  unfold powm1_try
  rw [hr]
  rfl

theorem powm1_overflow_value_of_neg (x y : FP) (hy : y.lt FP.zero = true)
    (hx : (x.eq FP.zero && y.lt FP.zero) = false) : powm1_overflow_value x y = FP.zero := by
  have hx0 : x.eq FP.zero = false := by simpa [hy] using hx
  unfold powm1_overflow_value
  split_ifs <;> first | rfl | simp_all

theorem powm1_overflow_value_of_not_neg (x y : FP) (hy : y.lt FP.zero = false)
    (hy0 : y.eq FP.zero = false) :
    powm1_overflow_value x y = FP.INFINITY ∨ powm1_overflow_value x y = FP.neg FP.INFINITY := by
  unfold powm1_overflow_value
  simp only [hy, hy0, Bool.false_eq_true, if_false]
  split_ifs <;> first | exact Or.inl rfl | exact Or.inr rfl

theorem FP.fmod_two_eq_zero_iff (n : Bool) (m e : ℕ) :
    (FP.fmod (FP.fin n m e) FP.two).eq FP.zero = true ↔ (FP.fin n m e).isEven = true := by
  have h2 : 2 * 2 ^ e = 2 ^ (e + 1) := by rw [pow_succ]; ring
  simp only [FP.fmod, FP.two, FP.zero, FP.eq, FP.isEven, FP.num, decide_eq_true_eq]
  simp only [show (2 : ℕ) ≠ 0 by decide, if_false, pow_zero, mul_one, zero_mul, h2]
  generalize m % 2 ^ (e + 1) = k
  cases n <;>
    simp only [Bool.false_eq_true, if_false, if_true, decide_eq_true_eq, Nat.cast_zero,
      zero_mul] <;>
    omega


/-- C21 fails at `powm1(2, -1)` with a backend that throws an overflow error:
`SF_ERROR_OVERFLOW` is reported and the value returned is `0`, which is finite
and not an infinity. -/
theorem powm1_overflow_negative_exponent_returns_zero :
    powm1_wrap (Backend.const (.error .overflow_error)) FP.two (FP.ofInt (-1))
      = ⟨FP.zero, [⟨"powm1", SF_ERROR_OVERFLOW⟩], [⟨"powm1", [FP.two, FP.ofInt (-1)]⟩]⟩ ∧
    FP.zero.isfinite = true ∧ FP.zero.isinf = false := by
  decide

/-- C21, amended. For every `x` and `y` for which the backend is invoked and
throws an overflow error, `powm1(x, y)` makes exactly one report,
`SF_ERROR_OVERFLOW`; it returns `+Inf` or `-Inf` when `y < 0` does not hold, and
the finite value `0` when `y < 0`. -/
theorem powm1_overflow_outcome (B : Backend) (x y : FP)
    (hc : (powm1_wrap B x y).calls ≠ [])
    (hr : B.powm1 SpecialPolicy x y = .error .overflow_error) :
    (powm1_wrap B x y).reports = [⟨"powm1", SF_ERROR_OVERFLOW⟩] ∧
    (y.lt FP.zero = true → (powm1_wrap B x y).value = FP.zero) ∧
    (y.lt FP.zero = false →
      (powm1_wrap B x y).value = FP.INFINITY ∨
      (powm1_wrap B x y).value = FP.neg FP.INFINITY) := by
  have hreach := powm1_wrap_reached B x y hc
  rw [powm1_wrap_overflow B x y hc hr]
  refine ⟨rfl, ?_, ?_⟩
  · intro hy
    exact powm1_overflow_value_of_neg x y hy hreach.2.2.1
  · intro hy
    exact powm1_overflow_value_of_not_neg x y hy hreach.1

/-- Witness of C21, amended: with a backend that throws an overflow error,
`powm1(-2, 3)` reports `SF_ERROR_OVERFLOW` once and returns `-Inf`. -/
theorem powm1_overflow_outcome_witness :
    (powm1_wrap (Backend.const (.error .overflow_error)) (FP.ofInt (-2)) (FP.ofInt 3)).reports
      = [⟨"powm1", SF_ERROR_OVERFLOW⟩] ∧
    (powm1_wrap (Backend.const (.error .overflow_error)) (FP.ofInt (-2)) (FP.ofInt 3)).value
      = FP.neg FP.INFINITY :=
  have w := powm1_overflow_outcome (Backend.const (.error .overflow_error)) (FP.ofInt (-2))
    (FP.ofInt 3) (by decide) rfl
  ⟨w.1, by decide⟩

/-- C22 fails at `powm1(2, 3)` with a backend that throws an overflow error:
the call is not aborted, the exception is caught, the sentinel `+Inf` is
returned and `SF_ERROR_OVERFLOW` is reported to the sink. -/
theorem powm1_overflow_is_caught :
    powm1_wrap (Backend.const (.error .overflow_error)) FP.two (FP.ofInt 3)
      = ⟨FP.INFINITY, [⟨"powm1", SF_ERROR_OVERFLOW⟩], [⟨"powm1", [FP.two, FP.ofInt 3]⟩]⟩ := by
  decide

/-- C22, amended. A backend overflow during `powm1` is caught like every other
backend failure: whatever the backend throws, `powm1` returns a value, which is
a sentinel (NaN, an infinity or `0`), and makes exactly one report under the
name `powm1`: `SF_ERROR_OVERFLOW` for an overflow, `SF_ERROR_DOMAIN` with NaN
for a domain error, `SF_ERROR_UNDERFLOW` with `0` for an underflow and
`SF_ERROR_OTHER` with NaN for anything else. -/
theorem powm1_backend_failures_are_caught (B : Backend) (x y : FP)
    (hc : (powm1_wrap B x y).calls ≠ []) :
    (B.powm1 SpecialPolicy x y = .error .overflow_error →
      ReportsOnce "powm1" SF_ERROR_OVERFLOW (powm1_overflow_value x y) (powm1_wrap B x y) ∧
      Sentinel (powm1_wrap B x y).value) ∧
    (B.powm1 SpecialPolicy x y = .error .domain_error →
      ReportsOnce "powm1" SF_ERROR_DOMAIN FP.NAN (powm1_wrap B x y)) ∧
    (B.powm1 SpecialPolicy x y = .error .underflow_error →
      ReportsOnce "powm1" SF_ERROR_UNDERFLOW FP.zero (powm1_wrap B x y)) ∧
    (B.powm1 SpecialPolicy x y = .error .other →
      ReportsOnce "powm1" SF_ERROR_OTHER FP.NAN (powm1_wrap B x y)) ∧
    (∀ t, B.powm1 SpecialPolicy x y = .error t →
      ∃ code, (powm1_wrap B x y).reports = [⟨"powm1", code⟩]) := by
  have hreach := powm1_wrap_reached B x y hc
  have e := powm1_wrap_of_calls B x y hc
  refine ⟨?_, ?_, ?_, ?_, ?_⟩
  · intro hr
    rw [powm1_wrap_overflow B x y hc hr]
    refine ⟨⟨rfl, rfl⟩, ?_⟩
    show Sentinel (powm1_overflow_value x y)
    cases hy : y.lt FP.zero
    · rcases powm1_overflow_value_of_not_neg x y hy hreach.1 with h | h
      · rw [h]; exact sentinel_INFINITY
      · rw [h]; exact sentinel_neg_INFINITY
    · rw [powm1_overflow_value_of_neg x y hy hreach.2.2.1]; exact sentinel_zero
  · intro hr; rw [e]; unfold powm1_try; rw [hr]; exact ⟨rfl, rfl⟩
  · intro hr; rw [e]; unfold powm1_try; rw [hr]; exact ⟨rfl, rfl⟩
  · intro hr; rw [e]; unfold powm1_try; rw [hr]; exact ⟨rfl, rfl⟩
  · intro t hr
    rw [e]; unfold powm1_try; rw [hr]
    cases t
    · exact ⟨SF_ERROR_DOMAIN, rfl⟩
    · exact ⟨SF_ERROR_OVERFLOW, rfl⟩
    · exact ⟨SF_ERROR_UNDERFLOW, rfl⟩
    · exact ⟨SF_ERROR_OTHER, rfl⟩

/-- Witness of C22, amended: with a backend that throws an overflow error,
`powm1(2, -1)` returns the sentinel `0` with one `SF_ERROR_OVERFLOW` report. -/
theorem powm1_backend_failures_are_caught_witness :
    ReportsOnce "powm1" SF_ERROR_OVERFLOW (powm1_overflow_value FP.two (FP.ofInt (-1)))
      (powm1_wrap (Backend.const (.error .overflow_error)) FP.two (FP.ofInt (-1))) ∧
    Sentinel (powm1_wrap (Backend.const (.error .overflow_error)) FP.two (FP.ofInt (-1))).value :=
  (powm1_backend_failures_are_caught (Backend.const (.error .overflow_error)) FP.two
    (FP.ofInt (-1)) (by decide)).1 rfl

/-- C26. When the backend is invoked for `powm1(x, y)` and throws an overflow
error: the value returned is `+Inf` if `x > 0` and `y > 0`; if `x < 0` a finite
`y` is a whole number, and for such a `y > 0` the value is `+Inf` when `y` is
even and `-Inf` when `y` is odd; for `y < 0` the value is `0`. -/
theorem powm1_overflow_sign_selection (B : Backend) (x y : FP)
    (hc : (powm1_wrap B x y).calls ≠ [])
    (hr : B.powm1 SpecialPolicy x y = .error .overflow_error) :
    (x.gt FP.zero = true → y.gt FP.zero = true → (powm1_wrap B x y).value = FP.INFINITY) ∧
    (x.lt FP.zero = true → y.isfinite = true → y.isInteger = true) ∧
    (x.lt FP.zero = true → y.gt FP.zero = true → y.isInteger = true →
      (y.isEven = true → (powm1_wrap B x y).value = FP.INFINITY) ∧
      (y.isEven = false → (powm1_wrap B x y).value = FP.neg FP.INFINITY)) ∧
    (y.lt FP.zero = true → (powm1_wrap B x y).value = FP.zero) := by
  have hreach := powm1_wrap_reached B x y hc
  rw [powm1_wrap_overflow B x y hc hr]
  refine ⟨?_, ?_, ?_, ?_⟩
  · intro hx hy
    have hy1 : y.lt FP.zero = false := FP.lt_false_of_lt hy
    show powm1_overflow_value x y = FP.INFINITY
    simp [powm1_overflow_value, hx, hy1, hreach.1]
  · intro hx hf
    have ht : (FP.trunc y).eq y = true := by
      have h := hreach.2.2.2.2
      simpa [hx, FP.ne] using h
    rcases (FP.trunc_eq_iff y).mp ht with h | h
    · exact h
    · rw [FP.isinf_false_of_isfinite hf] at h; cases h
  · intro hx hy hi
    have hy1 : y.lt FP.zero = false := FP.lt_false_of_lt hy
    have hx1 : x.gt FP.zero = false := FP.lt_false_of_lt hx
    have hx0 : x.eq FP.zero = false := FP.eq_false_of_lt hx
    show (y.isEven = true → powm1_overflow_value x y = FP.INFINITY) ∧
      (y.isEven = false → powm1_overflow_value x y = FP.neg FP.INFINITY)
    cases y with
    | nan s => simp [FP.isInteger] at hi
    | inf n => simp [FP.isInteger] at hi
    | fin n m e =>
      have hf := FP.fmod_two_eq_zero_iff n m e
      constructor
      · intro he
        simp [powm1_overflow_value, hx1, hx0, hy1, hreach.1, hf.mpr he]
      · intro he
        have hf' : (FP.fmod (FP.fin n m e) FP.two).eq FP.zero = false := by
          cases h : (FP.fmod (FP.fin n m e) FP.two).eq FP.zero
          · rfl
          · rw [hf.mp h] at he; cases he
        simp [powm1_overflow_value, hx1, hx0, hy1, hreach.1, hf']
  · intro hy
    exact powm1_overflow_value_of_neg x y hy hreach.2.2.1

/-- Witness of C26: with a backend that throws an overflow error, `powm1(-2, 4)`
returns `+Inf` and `powm1(-2, 3)` returns `-Inf`. -/
theorem powm1_overflow_sign_selection_witness :
    (powm1_wrap (Backend.const (.error .overflow_error)) (FP.ofInt (-2)) (FP.ofInt 4)).value
      = FP.INFINITY ∧
    (powm1_wrap (Backend.const (.error .overflow_error)) (FP.ofInt (-2)) (FP.ofInt 3)).value
      = FP.neg FP.INFINITY :=
  ⟨((powm1_overflow_sign_selection (Backend.const (.error .overflow_error)) (FP.ofInt (-2))
      (FP.ofInt 4) (by decide) rfl).2.2.1 (by decide) (by decide) (by decide)).1 (by decide),
   ((powm1_overflow_sign_selection (Backend.const (.error .overflow_error)) (FP.ofInt (-2))
      (FP.ofInt 3) (by decide) rfl).2.2.1 (by decide) (by decide) (by decide)).2 (by decide)⟩


/-! ## C24 and C25: one report at most, and a sentinel with each report -/

theorem powm1_overflow_value_sentinel (x y : FP) (hy0 : y.eq FP.zero = false) :
    Sentinel (powm1_overflow_value x y) := by
  cases hy : y.lt FP.zero
  · rcases powm1_overflow_value_of_not_neg x y hy hy0 with h | h
    · rw [h]; exact sentinel_INFINITY
    · rw [h]; exact sentinel_neg_INFINITY
  · unfold powm1_overflow_value
    simp only [hy, if_true]
    split_ifs
    · exact sentinel_zero
    · exact sentinel_INFINITY
    · exact sentinel_zero
    · exact sentinel_zero

theorem disciplined_silent (v : FP) (c : List Call) : Disciplined ⟨v, [], c⟩ := Or.inl rfl

theorem disciplined_of_sentinel {v : FP} (r : Report) (c : List Call) (h : Sentinel v) :
    Disciplined ⟨v, [r], c⟩ := Or.inr ⟨rfl, h⟩

theorem Disciplined.length_le_one {o : Outcome FP} (h : Disciplined o) :
    o.reports.length ≤ 1 := by
  rcases h with h | h
  · rw [h]; exact Nat.zero_le 1
  · exact le_of_eq h.1

theorem Disciplined.sentinel {o : Outcome FP} (h : Disciplined o) (hr : o.reports ≠ []) :
    Sentinel o.value := by
  rcases h with h | h
  · exact absurd h hr
  · exact h.2

theorem catch_clauses_disciplined (func_name : String) (domain_value : FP)
    (other_code : sf_error_t) (r : Res) (c : Call) (hd : Sentinel domain_value) :
    Disciplined (catch_clauses func_name domain_value other_code r c) := by
  unfold catch_clauses
  split
  · exact disciplined_silent _ _
  · exact disciplined_of_sentinel _ _ hd
  · exact disciplined_of_sentinel _ _ sentinel_INFINITY
  · exact disciplined_of_sentinel _ _ sentinel_zero
  · exact disciplined_of_sentinel _ _ sentinel_NAN

theorem cdf_range_check_disciplined (func_name : String) (y : FP) (calls : List Call) :
    Disciplined (cdf_range_check func_name y [] calls) := by
  unfold cdf_range_check
  split_ifs
  · exact disciplined_of_sentinel _ _ sentinel_NAN
  · exact disciplined_silent _ _


theorem f_ppf_wrap_check_disciplined (y : FP) (calls : List Call) :
    Disciplined (f_ppf_wrap_check y [] calls) := by
  unfold f_ppf_wrap_check
  split_ifs
  · exact disciplined_of_sentinel _ _ sentinel_NAN
  · exact disciplined_silent _ _

theorem ibeta_wrap_disciplined (B : Backend) (a b x : FP) :
    Disciplined (ibeta_wrap B a b x) := by
  unfold ibeta_wrap
  split_ifs
  all_goals try split
  all_goals first
    | exact disciplined_silent _ _
    | exact disciplined_of_sentinel _ _ sentinel_NAN
    | exact disciplined_of_sentinel _ _ sentinel_INFINITY
    | exact disciplined_of_sentinel _ _ sentinel_zero

theorem ibetac_wrap_disciplined (B : Backend) (a b x : FP) :
    Disciplined (ibetac_wrap B a b x) := by
  unfold ibetac_wrap
  split_ifs
  all_goals try split
  all_goals first
    | exact disciplined_silent _ _
    | exact disciplined_of_sentinel _ _ sentinel_NAN
    | exact disciplined_of_sentinel _ _ sentinel_INFINITY
    | exact disciplined_of_sentinel _ _ sentinel_zero

theorem ibeta_inv_wrap_disciplined (B : Backend) (a b p : FP) (pol : Policy) :
    Disciplined (ibeta_inv_wrap B a b p pol) := by
  unfold ibeta_inv_wrap
  split_ifs
  all_goals try split
  all_goals first
    | exact disciplined_silent _ _
    | exact disciplined_of_sentinel _ _ sentinel_NAN
    | exact disciplined_of_sentinel _ _ sentinel_INFINITY
    | exact disciplined_of_sentinel _ _ sentinel_zero

theorem ibeta_inva_wrap_disciplined (B : Backend) (p b x : FP) :
    Disciplined (ibeta_inva_wrap B p b x) := by
  unfold ibeta_inva_wrap
  split_ifs
  all_goals try split
  all_goals first
    | exact disciplined_silent _ _
    | exact disciplined_of_sentinel _ _ sentinel_NAN
    | exact disciplined_of_sentinel _ _ sentinel_INFINITY
    | exact disciplined_of_sentinel _ _ sentinel_zero

theorem ibeta_invb_wrap_disciplined (B : Backend) (a p x : FP) :
    Disciplined (ibeta_invb_wrap B a p x) := by
  unfold ibeta_invb_wrap
  split_ifs
  all_goals try split
  all_goals first
    | exact disciplined_silent _ _
    | exact disciplined_of_sentinel _ _ sentinel_NAN
    | exact disciplined_of_sentinel _ _ sentinel_INFINITY
    | exact disciplined_of_sentinel _ _ sentinel_zero

theorem ibetac_inv_wrap_disciplined (B : Backend) (a b p : FP) :
    Disciplined (ibetac_inv_wrap B a b p) := by
  unfold ibetac_inv_wrap
  split_ifs
  all_goals try split
  all_goals first
    | exact disciplined_silent _ _
    | exact disciplined_of_sentinel _ _ sentinel_NAN
    | exact disciplined_of_sentinel _ _ sentinel_INFINITY
    | exact disciplined_of_sentinel _ _ sentinel_zero

theorem erfinv_wrap_disciplined (B : Backend) (x : FP) :
    Disciplined (erfinv_wrap B x) := by
  unfold erfinv_wrap
  split_ifs
  all_goals try split
  all_goals first
    | exact disciplined_silent _ _
    | exact disciplined_of_sentinel _ _ sentinel_NAN
    | exact disciplined_of_sentinel _ _ sentinel_INFINITY
    | exact disciplined_of_sentinel _ _ sentinel_zero

theorem powm1_wrap_disciplined (B : Backend) (x y : FP) :
    Disciplined (powm1_wrap B x y) := by
  unfold powm1_wrap
  split_ifs with h1 h2 h3 h4
  · exact disciplined_silent _ _
  · exact disciplined_of_sentinel _ _ sentinel_INFINITY
  · exact disciplined_silent _ _
  · exact disciplined_of_sentinel _ _ sentinel_NAN
  · have hy0 : y.eq FP.zero = false := by
      simp only [Bool.not_eq_true, Bool.or_eq_false_iff] at h1
      exact h1.1
    unfold powm1_try
    split
    · exact disciplined_silent _ _
    · exact disciplined_of_sentinel _ _ sentinel_NAN
    · exact disciplined_of_sentinel _ _ (powm1_overflow_value_sentinel x y hy0)
    · exact disciplined_of_sentinel _ _ sentinel_zero
    · exact disciplined_of_sentinel _ _ sentinel_NAN

theorem call_hypergeometric_pFq_disciplined (B : Backend) (a b x : FP) :
    Disciplined (call_hypergeometric_pFq B a b x) := by
  unfold call_hypergeometric_pFq
  split
  all_goals first
    | exact disciplined_silent _ _
    | exact disciplined_of_sentinel _ _ sentinel_NAN
    | exact disciplined_of_sentinel _ _ sentinel_INFINITY
    | exact disciplined_of_sentinel _ _ sentinel_zero

theorem hyp1f1_primary_disciplined (B : Backend) (a b x : FP) :
    Disciplined (hyp1f1_primary B a b x) := by
  unfold hyp1f1_primary
  split
  all_goals first
    | exact disciplined_silent _ _
    | exact disciplined_of_sentinel _ _ sentinel_NAN
    | exact disciplined_of_sentinel _ _ sentinel_INFINITY
    | exact disciplined_of_sentinel _ _ sentinel_zero

theorem hyp1f1_wrap_disciplined (B : Backend) (a b x : FP) :
    Disciplined (hyp1f1_wrap B a b x) := by
  unfold hyp1f1_wrap
  split_ifs
  all_goals first
    | exact disciplined_silent _ _
    | exact call_hypergeometric_pFq_disciplined B a b x
    | exact hyp1f1_primary_disciplined B a b x

theorem ncx2_pdf_wrap_disciplined (B : Backend) (x k l : FP) :
    Disciplined (ncx2_pdf_wrap B x k l) := by
  unfold ncx2_pdf_wrap
  split_ifs
  all_goals try split
  all_goals first
    | exact disciplined_silent _ _
    | exact disciplined_of_sentinel _ _ sentinel_NAN
    | exact disciplined_of_sentinel _ _ sentinel_INFINITY
    | exact disciplined_of_sentinel _ _ sentinel_zero

theorem ncf_cdf_wrap_disciplined (B : Backend) (v1 v2 l x : FP) :
    Disciplined (ncf_cdf_wrap B v1 v2 l x) := by
  unfold ncf_cdf_wrap
  split_ifs
  all_goals try split
  all_goals first
    | exact disciplined_silent _ _
    | exact disciplined_of_sentinel _ _ sentinel_NAN
    | exact cdf_range_check_disciplined _ _ _

theorem nct_cdf_wrap_disciplined (B : Backend) (v l x : FP) :
    Disciplined (nct_cdf_wrap B v l x) := by
  unfold nct_cdf_wrap
  split_ifs
  all_goals try split
  all_goals first
    | exact disciplined_silent _ _
    | exact disciplined_of_sentinel _ _ sentinel_NAN
    | exact cdf_range_check_disciplined _ _ _

theorem f_cdf_wrap_disciplined (B : Backend) (dfn dfd x : FP) :
    Disciplined (f_cdf_wrap B dfn dfd x) := by
  unfold f_cdf_wrap
  split_ifs
  all_goals try split
  all_goals first
    | exact disciplined_silent _ _
    | exact disciplined_of_sentinel _ _ sentinel_NAN
    | exact cdf_range_check_disciplined _ _ _

theorem f_sf_wrap_disciplined (B : Backend) (dfn dfd x : FP) :
    Disciplined (f_sf_wrap B dfn dfd x) := by
  unfold f_sf_wrap
  split_ifs
  all_goals try split
  all_goals first
    | exact disciplined_silent _ _
    | exact disciplined_of_sentinel _ _ sentinel_NAN
    | exact cdf_range_check_disciplined _ _ _

theorem ncf_ppf_wrap_disciplined (B : Backend) (v1 v2 l x : FP) :
    Disciplined (ncf_ppf_wrap B v1 v2 l x) := by
  unfold ncf_ppf_wrap
  split_ifs
  all_goals try split
  all_goals first
    | exact disciplined_silent _ _
    | exact disciplined_of_sentinel _ _ sentinel_NAN
    | exact disciplined_of_sentinel _ _ sentinel_INFINITY
    | exact disciplined_of_sentinel _ _ sentinel_zero

theorem nct_ppf_wrap_disciplined (B : Backend) (v l x : FP) :
    Disciplined (nct_ppf_wrap B v l x) := by
  unfold nct_ppf_wrap
  split_ifs
  all_goals try split
  all_goals first
    | exact disciplined_silent _ _
    | exact disciplined_of_sentinel _ _ sentinel_NAN
    | exact disciplined_of_sentinel _ _ sentinel_INFINITY
    | exact disciplined_of_sentinel _ _ sentinel_zero

theorem f_ppf_wrap_disciplined (B : Backend) (dfn dfd x : FP) :
    Disciplined (f_ppf_wrap B dfn dfd x) := by
  unfold f_ppf_wrap
  split_ifs
  all_goals try split
  all_goals first
    | exact disciplined_silent _ _
    | exact f_ppf_wrap_check_disciplined _ _
    | exact disciplined_of_sentinel _ _ sentinel_NAN
    | exact disciplined_of_sentinel _ _ sentinel_INFINITY
    | exact disciplined_of_sentinel _ _ sentinel_zero


theorem caught_outcomes_disciplined (B : Backend) (pol : Policy) (a b c d : FP) :
    ∀ o ∈ caught_outcomes B pol a b c d, Disciplined o := by
  intro o ho
  simp only [caught_outcomes, List.mem_cons, List.mem_singleton] at ho
  rcases ho with h | h | h | h | h | h | h | h | h | h | h | h | h | h | h | h | h | h | h | h
    <;> first | subst h | exact absurd h (List.not_mem_nil o)
  · exact ibeta_wrap_disciplined B a b c
  · exact ibetac_wrap_disciplined B a b c
  · exact ibeta_inv_wrap_disciplined B a b c pol
  · exact ibeta_inv_wrap_disciplined B a b c SpecialPolicy
  · exact ibeta_inva_wrap_disciplined B a b c
  · exact ibeta_invb_wrap_disciplined B a b c
  · exact ibetac_inv_wrap_disciplined B a b c
  · exact erfinv_wrap_disciplined B a
  · exact powm1_wrap_disciplined B a b
  · exact hyp1f1_wrap_disciplined B a b c
  · exact ibeta_inv_wrap_disciplined B b c a BetaPolicyForStats
  · exact ncx2_pdf_wrap_disciplined B a b c
  · exact ncf_cdf_wrap_disciplined B a b c d
  · exact ncf_ppf_wrap_disciplined B a b c d
  · exact nct_cdf_wrap_disciplined B a b c
  · exact nct_ppf_wrap_disciplined B a b c
  · exact f_cdf_wrap_disciplined B a b c
  · exact f_ppf_wrap_disciplined B a b c
  · exact f_sf_wrap_disciplined B a b c

theorem facade_outcomes_silent (B : Backend) (a b c d : FP) :
    ∀ o ∈ facade_outcomes B a b c d, o.reports = [] := by
  unfold facade_outcomes
  simp only [List.forall_mem_cons, List.not_mem_nil, false_imp_iff, implies_true, and_true]
  simp only [beta_pdf_wrap, invgauss_ppf_wrap, invgauss_isf_wrap, cauchy_ppf_wrap,
    cauchy_isf_wrap, ncx2_cdf_wrap, ncx2_ppf_wrap, ncx2_sf_wrap, ncx2_isf_wrap,
    ncf_pdf_wrap, ncf_sf_wrap, ncf_isf_wrap, ncf_mean, ncf_variance, ncf_skewness,
    ncf_kurtosis_excess, nct_pdf_wrap, nct_sf_wrap, nct_isf_wrap, nct_mean, nct_variance,
    nct_skewness, nct_kurtosis_excess, skewnorm_cdf_wrap, skewnorm_ppf_wrap,
    skewnorm_isf_wrap, binom_pmf_wrap, binom_cdf_wrap, binom_ppf_wrap, binom_sf_wrap,
    binom_isf_wrap, nbinom_pmf_wrap, nbinom_cdf_wrap, nbinom_ppf_wrap, nbinom_sf_wrap,
    nbinom_isf_wrap, nbinom_mean, nbinom_variance, nbinom_skewness,
    nbinom_kurtosis_excess, hypergeom_pmf_wrap, hypergeom_cdf_wrap, hypergeom_sf_wrap,
    hypergeom_mean, hypergeom_variance, hypergeom_skewness, landau_pdf_wrap,
    landau_cdf_wrap, landau_sf_wrap, landau_ppf_wrap, landau_isf_wrap, uncaught]
  refine ⟨?_, ?_, ?_, ?_, ?_, ?_, ?_, ?_, ?_, ?_, ?_, ?_, ?_, ?_, ?_, ?_, ?_, ?_, ?_, ?_, ?_,
    ?_, ?_, ?_, ?_, ?_, ?_, ?_, ?_, ?_, ?_, ?_, ?_, ?_, ?_, ?_, ?_, ?_, ?_, ?_, ?_, ?_, ?_, ?_,
    ?_, ?_, ?_, ?_, ?_, ?_, ?_⟩
  all_goals first
    | trivial
    | rfl
    | (split_ifs <;> rfl)


/-- C24. Every operation makes at most one report to the error sink per call,
for all arguments and every backend: each wrapper with a domain check or a `try`
block leaves at most one report, and the facade operations leave none. After a
backend failure in `ncfdtr`, `nctdtr`, `fdtr`, `fdtrc` and `fdtri` the report of
the `catch` clause is the only one: the range check that follows adds nothing.
A domain violation (arguments without NaN) is reported exactly once, as
`SF_ERROR_DOMAIN` under the name of the operation. -/
theorem at_most_one_report_per_call (B : Backend) (pol : Policy) (a b c d : FP) :
    (∀ o ∈ caught_outcomes B pol a b c d, o.reports.length ≤ 1) ∧
    (∀ o ∈ facade_outcomes B a b c d, o.reports = []) ∧
    ((∀ t, (ncf_cdf_wrap B a b c d).calls ≠ [] →
        B.cdf SpecialPolicy (.non_central_f_distribution a b c) d = .error t →
        (ncf_cdf_wrap B a b c d).reports = [⟨"ncfdtr", SF_ERROR_NO_RESULT⟩]) ∧
     (∀ t, (nct_cdf_wrap B a b c).calls ≠ [] →
        B.cdf SpecialPolicy (.non_central_t_distribution a b) c = .error t →
        (nct_cdf_wrap B a b c).reports = [⟨"nctdtr", SF_ERROR_NO_RESULT⟩]) ∧
     (∀ t, (f_cdf_wrap B a b c).calls ≠ [] →
        B.cdf SpecialPolicy (.fisher_f_distribution a b) c = .error t →
        (f_cdf_wrap B a b c).reports = [⟨"fdtr", SF_ERROR_NO_RESULT⟩]) ∧
     (∀ t, (f_sf_wrap B a b c).calls ≠ [] →
        B.cdf_complement SpecialPolicy (.fisher_f_distribution a b) c = .error t →
        (f_sf_wrap B a b c).reports = [⟨"fdtrc", SF_ERROR_NO_RESULT⟩]) ∧
     (∀ t, (f_ppf_wrap B a b c).calls ≠ [] →
        B.quantile SpecialPolicy (.fisher_f_distribution a b) c = .error t →
        (f_ppf_wrap B a b c).reports.length = 1 ∧
        (f_ppf_wrap B a b c).reports =
          (catch_clauses "fdtri" FP.NAN SF_ERROR_NO_RESULT (.error t)
            ⟨"quantile fisher_f_distribution", [a, b, c]⟩).reports)) ∧
    (a.isnan = false → b.isnan = false → c.isnan = false →
      ((a.lt FP.zero || b.lt FP.zero || c.lt FP.zero || c.gt FP.one) = true →
        (ibeta_wrap B a b c).reports = [⟨"betainc", SF_ERROR_DOMAIN⟩] ∧
        (ibetac_wrap B a b c).reports = [⟨"betaincc", SF_ERROR_DOMAIN⟩]) ∧
      ((a.le FP.zero || b.le FP.zero || c.lt FP.zero || c.gt FP.one) = true →
        (ibeta_inv_wrap B a b c pol).reports = [⟨"betaincinv", SF_ERROR_DOMAIN⟩] ∧
        (ibetac_inv_wrap B a b c).reports = [⟨"betainccinv", SF_ERROR_DOMAIN⟩] ∧
        (f_ppf_wrap B a b c).reports = [⟨"fdtri", SF_ERROR_DOMAIN⟩]) ∧
      ((b.le FP.zero || c.le FP.zero || a.lt FP.zero || a.gt FP.one) = true →
        (ibeta_inva_wrap B a b c).reports = [⟨"btdtria", SF_ERROR_DOMAIN⟩]) ∧
      ((a.le FP.zero || c.le FP.zero || b.lt FP.zero || b.gt FP.one) = true →
        (ibeta_invb_wrap B a b c).reports = [⟨"btdtrib", SF_ERROR_DOMAIN⟩]) ∧
      ((a.le FP.zero || b.le FP.zero || c.lt FP.zero) = true →
        (f_cdf_wrap B a b c).reports = [⟨"fdtr", SF_ERROR_DOMAIN⟩] ∧
        (f_sf_wrap B a b c).reports = [⟨"fdtrc", SF_ERROR_DOMAIN⟩]) ∧
      (a.le FP.zero = true →
        (nct_cdf_wrap B a b c).reports = [⟨"nctdtr", SF_ERROR_DOMAIN⟩]) ∧
      ((a.le FP.zero || c.lt FP.zero || c.gt FP.one) = true →
        (nct_ppf_wrap B a b c).reports = [⟨"nctdtrit", SF_ERROR_DOMAIN⟩]) ∧
      (d.isnan = false →
        (a.le FP.zero || b.le FP.zero || c.lt FP.zero || d.lt FP.zero) = true →
        (ncf_cdf_wrap B a b c d).reports = [⟨"ncfdtr", SF_ERROR_DOMAIN⟩]) ∧
      (d.isnan = false →
        (a.le FP.zero || b.le FP.zero || c.lt FP.zero || d.lt FP.zero || d.gt FP.one) = true →
        (ncf_ppf_wrap B a b c d).reports = [⟨"ncfdtri", SF_ERROR_DOMAIN⟩]) ∧
      (a.eq FP.zero = true → b.lt FP.zero = true →
        (powm1_wrap B a b).reports = [⟨"powm1", SF_ERROR_DOMAIN⟩]) ∧
      (a.lt FP.zero = true → b.eq FP.zero = false → (FP.trunc b).ne b = true →
        (powm1_wrap B a b).reports = [⟨"powm1", SF_ERROR_DOMAIN⟩])) := by
  refine ⟨?_, facade_outcomes_silent B a b c d, ⟨?_, ?_, ?_, ?_, ?_⟩, ?_⟩
  · intro o ho
    exact (caught_outcomes_disciplined B pol a b c d o ho).length_le_one
  · intro t hc ht
    rw [(ncf_cdf_wrap_of_calls B a b c d hc).2 t ht]
  · intro t hc ht
    rw [(nct_cdf_wrap_of_calls B a b c hc).2 t ht]
  · intro t hc ht
    rw [(f_cdf_wrap_of_calls B a b c hc).2 t ht]
  · intro t hc ht
    rw [(f_sf_wrap_of_calls B a b c hc).2 t ht]
  · intro t hc ht
    rw [f_ppf_wrap_of_calls B a b c hc, ht]
    cases t <;> exact ⟨rfl, rfl⟩
  · intro ha hb hc
    have n1 : (a.isnan || b.isnan || c.isnan) = false := by simp [ha, hb, hc]
    have n2 : (c.isnan || a.isnan || b.isnan) = false := by simp [ha, hb, hc]
    have n3 : (b.isnan || a.isnan || c.isnan) = false := by simp [ha, hb, hc]
    refine ⟨?_, ?_, ?_, ?_, ?_, ?_, ?_, ?_, ?_, ?_, ?_⟩
    · intro h
      exact ⟨((ibeta_wrap_domainRejected_iff B a b c).mpr ⟨n1, h⟩).2.1,
        ((ibetac_wrap_domainRejected_iff B a b c).mpr ⟨n1, h⟩).2.1⟩
    · intro h
      exact ⟨((ibeta_inv_wrap_domainRejected_iff B a b c pol).mpr ⟨n1, h⟩).2.1,
        ((ibetac_inv_wrap_domainRejected_iff B a b c).mpr ⟨n1, h⟩).2.1,
        ((f_ppf_wrap_domainRejected_iff B a b c).mpr ⟨n2, h⟩).2.1⟩
    · intro h
      exact ((ibeta_inva_wrap_domainRejected_iff B a b c).mpr ⟨n1, h⟩).2.1
    · intro h
      exact ((ibeta_invb_wrap_domainRejected_iff B a b c).mpr ⟨n3, h⟩).2.1
    · intro h
      exact ⟨((f_cdf_wrap_domainRejected_iff B a b c).mpr ⟨n2, h⟩).2.1,
        ((f_sf_wrap_domainRejected_iff B a b c).mpr ⟨n2, h⟩).2.1⟩
    · intro h
      exact ((nct_cdf_wrap_domainRejected_iff B a b c).mpr ⟨n2, h⟩).2.1
    · intro h
      exact ((nct_ppf_wrap_domainRejected_iff B a b c).mpr ⟨n2, h⟩).2.1
    · intro hd h
      have n4 : (d.isnan || a.isnan || b.isnan || c.isnan) = false := by simp [ha, hb, hc, hd]
      exact ((ncf_cdf_wrap_domainRejected_iff B a b c d).mpr ⟨n4, h⟩).2.1
    · intro hd h
      have n4 : (d.isnan || a.isnan || b.isnan || c.isnan) = false := by simp [ha, hb, hc, hd]
      exact ((ncf_ppf_wrap_domainRejected_iff B a b c d).mpr ⟨n4, h⟩).2.1
    · intro h0 hlt
      have h1 : b.eq FP.zero = false := FP.eq_false_of_lt hlt
      have h2 : a.eq FP.one = false := FP.eq_one_false_of_eq_zero h0
      simp [powm1_wrap, h0, hlt, h1, h2, sf_error]
    · intro hlt hb0 ht
      have h2 : a.eq FP.one = false := FP.eq_one_false_of_lt_zero hlt
      have h3 : a.eq FP.zero = false := FP.eq_false_of_lt hlt
      simp [powm1_wrap, hlt, hb0, ht, h2, h3, sf_error]

/-- Witness of C24: with a backend that throws an overflow error, `fdtri(1, 1,
0.5)` leaves the one report `SF_ERROR_OVERFLOW`, and `fdtri(1, 1, 2)` leaves
the one report `SF_ERROR_DOMAIN`. -/
theorem at_most_one_report_per_call_witness :
    (f_ppf_wrap (Backend.const (.error .overflow_error)) FP.one FP.one
      (FP.fin false 1 1)).reports = [⟨"fdtri", SF_ERROR_OVERFLOW⟩] ∧
    (f_ppf_wrap (Backend.const (.error .overflow_error)) FP.one FP.one FP.two).reports
      = [⟨"fdtri", SF_ERROR_DOMAIN⟩] :=
  ⟨((at_most_one_report_per_call (Backend.const (.error .overflow_error)) SpecialPolicy
      FP.one FP.one (FP.fin false 1 1) FP.one).2.2.1.2.2.2.2 .overflow_error
        (by decide) rfl).2,
   (((at_most_one_report_per_call (Backend.const (.error .overflow_error)) SpecialPolicy
      FP.one FP.one FP.two FP.one).2.2.2 rfl rfl rfl).2.1 (by decide)).2.2⟩

/-- C25. Whenever an operation reports an error to the sink, the value it
returns is NaN, `+Inf`, `-Inf` or `0`, for all arguments and every backend (the
facade operations never report). In `powm1` an exponent `y == 0` returns `0`
before the backend is called, so that when the backend is called `y == 0` does
not hold and the overflow handler does not select the value `1`. -/
theorem report_implies_sentinel_value (B : Backend) (pol : Policy) (a b c d : FP) :
    (∀ o ∈ caught_outcomes B pol a b c d, o.reports ≠ [] → Sentinel o.value) ∧
    (∀ o ∈ facade_outcomes B a b c d, o.reports = []) ∧
    (b.eq FP.zero = true → powm1_wrap B a b = ⟨FP.zero, [], []⟩) ∧
    ((powm1_wrap B a b).calls ≠ [] →
      b.eq FP.zero = false ∧ powm1_overflow_value a b ≠ FP.one ∧
      (powm1_overflow_value a b = FP.zero ∨ powm1_overflow_value a b = FP.INFINITY ∨
        powm1_overflow_value a b = FP.neg FP.INFINITY)) := by
  refine ⟨?_, facade_outcomes_silent B a b c d, ?_, ?_⟩
  · intro o ho hr
    exact (caught_outcomes_disciplined B pol a b c d o ho).sentinel hr
  · intro hb
    simp [powm1_wrap, hb]
  · intro hc
    have hreach := powm1_wrap_reached B a b hc
    have hv : powm1_overflow_value a b = FP.zero ∨ powm1_overflow_value a b = FP.INFINITY ∨
        powm1_overflow_value a b = FP.neg FP.INFINITY := by
      cases hy : b.lt FP.zero
      · exact Or.inr (powm1_overflow_value_of_not_neg a b hy hreach.1)
      · exact Or.inl (powm1_overflow_value_of_neg a b hy hreach.2.2.1)
    refine ⟨hreach.1, ?_, hv⟩
    rcases hv with h | h | h <;> rw [h] <;> decide

/-- Witness of C25: with a backend that throws an overflow error, `powm1(2, -1)`
makes a report and returns the sentinel `0`. -/
theorem report_implies_sentinel_value_witness :
    (powm1_wrap (Backend.const (.error .overflow_error)) FP.two (FP.ofInt (-1))).reports ≠ [] ∧
    Sentinel (powm1_wrap (Backend.const (.error .overflow_error)) FP.two
      (FP.ofInt (-1))).value :=
  ⟨by decide,
   (report_implies_sentinel_value (Backend.const (.error .overflow_error)) SpecialPolicy FP.two
      (FP.ofInt (-1)) FP.zero FP.zero).1 _ (by simp [caught_outcomes]) (by decide)⟩


/-! ## C27 and C28: the CDF operations at non-finite `x` -/

/-- C27 fails at `nctdtr(v = 1, nc = NaN, x = +Inf)`: `v > 0` and `x` is `+Inf`,
but the NaN check comes first and the value returned is NaN, not `1`. -/
theorem nctdtr_at_infinity_with_nan_noncentrality :
    FP.one.gt FP.zero = true ∧
    nct_cdf_wrap (Backend.const (.ok FP.one)) FP.one (FP.nan false) FP.INFINITY
      = ⟨FP.NAN, [], []⟩ ∧
    FP.NAN ≠ FP.one := by
  decide

/-- C27, amended. For every value of the distribution parameters, `ncx2_cdf`,
`skewnorm_cdf`, `binom_cdf`, `nbinom_cdf` and `hypergeom_cdf` give exactly `0`
at `x = -Inf` and exactly `1` at `x = +Inf`, without a backend call and without
a report. `nctdtr` gives `0` at `-Inf` and `1` at `+Inf` for every `v > 0` and
every non-centrality `nc` that is not NaN; `fdtr` gives `1` and `fdtrc` gives
`0` at `+Inf` for every `dfn > 0` and `dfd > 0`; all without a backend call and
without a report. -/
theorem cdf_at_infinite_argument (B : Backend) (p q r : FP) :
    (ncx2_cdf_wrap B (FP.neg FP.INFINITY) p q = ⟨.ok FP.zero, [], []⟩ ∧
      ncx2_cdf_wrap B FP.INFINITY p q = ⟨.ok FP.one, [], []⟩) ∧
    (skewnorm_cdf_wrap B (FP.neg FP.INFINITY) p q r = ⟨.ok FP.zero, [], []⟩ ∧
      skewnorm_cdf_wrap B FP.INFINITY p q r = ⟨.ok FP.one, [], []⟩) ∧
    (binom_cdf_wrap B (FP.neg FP.INFINITY) p q = ⟨.ok FP.zero, [], []⟩ ∧
      binom_cdf_wrap B FP.INFINITY p q = ⟨.ok FP.one, [], []⟩) ∧
    (nbinom_cdf_wrap B (FP.neg FP.INFINITY) p q = ⟨.ok FP.zero, [], []⟩ ∧
      nbinom_cdf_wrap B FP.INFINITY p q = ⟨.ok FP.one, [], []⟩) ∧
    (hypergeom_cdf_wrap B (FP.neg FP.INFINITY) p q r = ⟨.ok FP.zero, [], []⟩ ∧
      hypergeom_cdf_wrap B FP.INFINITY p q r = ⟨.ok FP.one, [], []⟩) ∧
    (p.gt FP.zero = true → q.isnan = false →
      nct_cdf_wrap B p q (FP.neg FP.INFINITY) = ⟨FP.zero, [], []⟩ ∧
      nct_cdf_wrap B p q FP.INFINITY = ⟨FP.one, [], []⟩) ∧
    (p.gt FP.zero = true → q.gt FP.zero = true →
      f_cdf_wrap B p q FP.INFINITY = ⟨FP.one, [], []⟩ ∧
      f_sf_wrap B p q FP.INFINITY = ⟨FP.zero, [], []⟩) := by
  refine ⟨⟨rfl, rfl⟩, ⟨rfl, rfl⟩, ⟨rfl, rfl⟩, ⟨rfl, rfl⟩, ⟨rfl, rfl⟩, ?_, ?_⟩
  · intro hp hq
    have hp1 : p.isnan = false := FP.isnan_false_of_lt_right hp
    have hp2 : p.le FP.zero = false := FP.le_false_of_lt hp
    have e1 : (FP.neg FP.INFINITY).isnan = false := rfl
    have e2 : (FP.neg FP.INFINITY).isinf = true := rfl
    have e3 : (FP.neg FP.INFINITY).gt FP.zero = false := rfl
    have e4 : FP.INFINITY.isnan = false := rfl
    have e5 : FP.INFINITY.isinf = true := rfl
    have e6 : FP.INFINITY.gt FP.zero = true := rfl
    constructor
    · simp [nct_cdf_wrap, hp1, hp2, hq, e1, e2, e3]
    · simp [nct_cdf_wrap, hp1, hp2, hq, e4, e5, e6]
  · intro hp hq
    have hp1 : p.isnan = false := FP.isnan_false_of_lt_right hp
    have hp2 : p.le FP.zero = false := FP.le_false_of_lt hp
    have hq1 : q.isnan = false := FP.isnan_false_of_lt_right hq
    have hq2 : q.le FP.zero = false := FP.le_false_of_lt hq
    have e4 : FP.INFINITY.isnan = false := rfl
    have e5 : FP.INFINITY.isinf = true := rfl
    have e6 : FP.INFINITY.lt FP.zero = false := rfl
    constructor
    · simp [f_cdf_wrap, hp1, hp2, hq1, hq2, e4, e5, e6]
    · simp [f_sf_wrap, hp1, hp2, hq1, hq2, e4, e5, e6]

/-- Witness of C27, amended: `nctdtr(1, 2, -Inf)` is `0` and `nctdtr(1, 2, +Inf)`
is `1`, without a backend call and without a report. -/
theorem cdf_at_infinite_argument_witness :
    nct_cdf_wrap (Backend.const (.ok FP.two)) FP.one FP.two (FP.neg FP.INFINITY)
      = ⟨FP.zero, [], []⟩ ∧
    nct_cdf_wrap (Backend.const (.ok FP.two)) FP.one FP.two FP.INFINITY = ⟨FP.one, [], []⟩ :=
  (cdf_at_infinite_argument (Backend.const (.ok FP.two)) FP.one FP.two FP.one).2.2.2.2.2.1
    (by decide) rfl

/-- C28 is not met by the code: for an argument `x` that is NaN, `ncx2_cdf`,
`skewnorm_cdf`, `nbinom_cdf` and `hypergeom_cdf` return `1 - signbit(x)`, that
is `1` for a NaN with a clear sign bit and `0` for a NaN with the sign bit set,
whatever the parameters and the backend; `binom_cdf`, which has the test
`isnan(x)`, returns NaN. -/
theorem cdf_of_nan_argument_follows_sign_bit (B : Backend) (s : Bool) (p q r : FP) :
    ncx2_cdf_wrap B (FP.nan s) p q = ⟨.ok (if s then FP.zero else FP.one), [], []⟩ ∧
    skewnorm_cdf_wrap B (FP.nan s) p q r = ⟨.ok (if s then FP.zero else FP.one), [], []⟩ ∧
    nbinom_cdf_wrap B (FP.nan s) p q = ⟨.ok (if s then FP.zero else FP.one), [], []⟩ ∧
    hypergeom_cdf_wrap B (FP.nan s) p q r = ⟨.ok (if s then FP.zero else FP.one), [], []⟩ ∧
    binom_cdf_wrap B (FP.nan s) p q = ⟨.ok FP.NAN, [], []⟩ := by
  cases s <;> exact ⟨rfl, rfl, rfl, rfl, rfl⟩

/-! ## C29: densities and Landau operations at a non-finite argument -/

/-- C29. For a first argument `x` that is NaN, `+Inf` or `-Inf`, and whatever
the other parameters and the backend, `beta_pdf`, `ncx2_pdf`, `ncf_pdf`,
`nct_pdf`, `binom_pmf`, `nbinom_pmf`, `hypergeom_pmf`, `landau_pdf`,
`landau_cdf`, `landau_sf`, `landau_ppf` and `landau_isf` return NaN without a
backend call and without a report. -/
theorem density_and_landau_nan_at_non_finite (B : Backend) (x p q r : FP)
    (hx : x.isnan = true ∨ x.isinf = true) :
    beta_pdf_wrap B x p q = ⟨.ok FP.NAN, [], []⟩ ∧
    ncx2_pdf_wrap B x p q = ⟨FP.NAN, [], []⟩ ∧
    ncf_pdf_wrap B x p q r = ⟨.ok FP.NAN, [], []⟩ ∧
    nct_pdf_wrap B x p q = ⟨.ok FP.NAN, [], []⟩ ∧
    binom_pmf_wrap B x p q = ⟨.ok FP.NAN, [], []⟩ ∧
    nbinom_pmf_wrap B x p q = ⟨.ok FP.NAN, [], []⟩ ∧
    hypergeom_pmf_wrap B x p q r = ⟨.ok FP.NAN, [], []⟩ ∧
    landau_pdf_wrap B x p q = ⟨.ok FP.NAN, [], []⟩ ∧
    landau_cdf_wrap B x p q = ⟨.ok FP.NAN, [], []⟩ ∧
    landau_sf_wrap B x p q = ⟨.ok FP.NAN, [], []⟩ ∧
    landau_ppf_wrap B x p q = ⟨.ok FP.NAN, [], []⟩ ∧
    landau_isf_wrap B x p q = ⟨.ok FP.NAN, [], []⟩ := by
  have hf : x.isfinite = false := by
    cases x with
    | nan s => rfl
    | inf n => rfl
    | fin n m e => rcases hx with h | h <;> cases h
  simp [beta_pdf_wrap, ncx2_pdf_wrap, ncf_pdf_wrap, nct_pdf_wrap, binom_pmf_wrap,
    nbinom_pmf_wrap, hypergeom_pmf_wrap, landau_pdf_wrap, landau_cdf_wrap, landau_sf_wrap,
    landau_ppf_wrap, landau_isf_wrap, hf]

/-- Witness of C29: `landau_cdf(+Inf, 0, 1)` is NaN, not `1`, and
`beta_pdf(+Inf, 1, 0.5)` is NaN although `b < 1`. -/
theorem density_and_landau_nan_at_non_finite_witness :
    landau_cdf_wrap (Backend.const (.ok FP.one)) FP.INFINITY FP.one (FP.fin false 1 1)
      = ⟨.ok FP.NAN, [], []⟩ ∧
    (FP.fin false 1 1).lt FP.one = true ∧
    beta_pdf_wrap (Backend.const (.ok FP.one)) FP.INFINITY FP.one (FP.fin false 1 1)
      = ⟨.ok FP.NAN, [], []⟩ :=
  have w := density_and_landau_nan_at_non_finite (Backend.const (.ok FP.one)) FP.INFINITY FP.one
    (FP.fin false 1 1) FP.one (Or.inr rfl)
  ⟨w.2.2.2.2.2.2.2.2.1, by decide, w.1⟩

/-! ## C30: the boundary points of `erfinv` -/

theorem FP.eq_neg_one_false_of_eq_one {x : FP} (h : x.eq FP.one = true) :
    x.eq (FP.ofInt (-1)) = false := by
  cases x with
  | nan s => rfl
  | inf n => rfl
  | fin n m e =>
    have h2 : (0 : ℤ) < 2 ^ e := by positivity
    simp only [FP.eq, FP.one, FP.ofInt, FP.num, decide_eq_true_eq, decide_eq_false_iff_not]
      at h ⊢
    cases n <;> simp at h ⊢ <;> omega

theorem erfinv_wrap_of_not_boundary (B : Backend) (x : FP) (h1 : x.eq FP.one = false)
    (h2 : x.eq (FP.ofInt (-1)) = false) :
    (erfinv_wrap B x).calls = [⟨"erf_inv", [x]⟩] := by
  unfold erfinv_wrap
  simp only [h1, h2, Bool.false_eq_true, if_false]
  split <;> rfl

/-- C30. `erfinv(1)` is `+Inf` and `erfinv(-1)` is `-Inf`, without a report and
without a backend call. Every other argument is passed to the backend routine
`erf_inv`, under `SpecialPolicy`, and the outcome is that of the `try` block;
this includes a NaN argument and the arguments `x > 1` and `x < -1`. -/
theorem erfinv_boundary_points (B : Backend) (x : FP) :
    (x.eq FP.one = true → erfinv_wrap B x = ⟨FP.INFINITY, [], []⟩) ∧
    (x.eq (FP.ofInt (-1)) = true → erfinv_wrap B x = ⟨FP.neg FP.INFINITY, [], []⟩) ∧
    (x.eq FP.one = false → x.eq (FP.ofInt (-1)) = false →
      (erfinv_wrap B x).calls = [⟨"erf_inv", [x]⟩] ∧
      erfinv_wrap B x = catch_clauses "erfinv" FP.NAN SF_ERROR_OTHER
        (B.erf_inv SpecialPolicy x) ⟨"erf_inv", [x]⟩) ∧
    (x.isnan = true ∨ x.gt FP.one = true ∨ x.lt (FP.ofInt (-1)) = true →
      (erfinv_wrap B x).calls = [⟨"erf_inv", [x]⟩]) := by
  refine ⟨?_, ?_, ?_, ?_⟩
  · intro h
    simp [erfinv_wrap, h, FP.eq_neg_one_false_of_eq_one h]
  · intro h
    simp [erfinv_wrap, h]
  · intro h1 h2
    have hc := erfinv_wrap_of_not_boundary B x h1 h2
    exact ⟨hc, erfinv_wrap_of_calls B x (by rw [hc]; simp)⟩
  · intro h
    apply erfinv_wrap_of_not_boundary
    · rcases h with h | h | h
      · cases x with
        | nan s => rfl
        | inf n => cases h
        | fin n m e => cases h
      · rw [FP.eq_symm]; exact FP.eq_false_of_lt h
      · cases x with
        | nan s => rfl
        | inf n => rfl
        | fin n m e =>
          have h2 : (0 : ℤ) < 2 ^ e := by positivity
          simp only [FP.lt, FP.eq, FP.one, FP.ofInt, FP.num, decide_eq_true_eq,
            decide_eq_false_iff_not] at h ⊢
          cases n <;> simp at h ⊢ <;> omega
    · rcases h with h | h | h
      · cases x with
        | nan s => rfl
        | inf n => cases h
        | fin n m e => cases h
      · cases x with
        | nan s => rfl
        | inf n => rfl
        | fin n m e =>
          have h2 : (0 : ℤ) < 2 ^ e := by positivity
          simp only [FP.gt, FP.lt, FP.eq, FP.one, FP.ofInt, FP.num, decide_eq_true_eq,
            decide_eq_false_iff_not] at h ⊢
          cases n <;> simp at h ⊢ <;> omega
      · exact FP.eq_false_of_lt h

/-- Witness of C30: `erfinv(1)` is `+Inf` and `erfinv(-1)` is `-Inf` with no
backend call, and `erfinv(2)` and `erfinv(NaN)` invoke the backend. -/
theorem erfinv_boundary_points_witness :
    erfinv_wrap (Backend.const (.ok FP.zero)) FP.one = ⟨FP.INFINITY, [], []⟩ ∧
    erfinv_wrap (Backend.const (.ok FP.zero)) (FP.ofInt (-1)) = ⟨FP.neg FP.INFINITY, [], []⟩ ∧
    (erfinv_wrap (Backend.const (.ok FP.zero)) FP.two).calls = [⟨"erf_inv", [FP.two]⟩] ∧
    (erfinv_wrap (Backend.const (.ok FP.zero)) FP.NAN).calls = [⟨"erf_inv", [FP.NAN]⟩] :=
  ⟨(erfinv_boundary_points (Backend.const (.ok FP.zero)) FP.one).1 (by decide),
   (erfinv_boundary_points (Backend.const (.ok FP.zero)) (FP.ofInt (-1))).2.1 (by decide),
   (erfinv_boundary_points (Backend.const (.ok FP.zero)) FP.two).2.2.2
     (Or.inr (Or.inl (by decide))),
   (erfinv_boundary_points (Backend.const (.ok FP.zero)) FP.NAN).2.2.2 (Or.inl rfl)⟩

end BoostSpecial
